import Mathlib

/-!
# Retrodream: render backends, serial device and x64 thunk table

A shallow embedding of

* `src/render/gl1_backend.c` (fixed-function renderer, namespace `gl1`),
* `src/render/gl2_backend.c` (shader renderer, namespace `gl2`),
* `src/guest/serial/serial.c`,
* `src/jit/backend/x64/x64_backend.h`.

Conventions.  C structs are Lean structures with the same field names.  A C
function that writes through `struct render_backend *r` takes the backend value
and returns the new one.  Calls into the OpenGL library are recorded, in program
order, as a list of `GLCall`.  An array read outside its bounds and a failed
`CHECK_LT` end the run with a `Fault`.  The file-scope variables of
`gl2_backend.c` are the record `gl2.globals`; sequences of calls are run by
`gl1.run` and `gl2.run`, which also keep the list of live texture handles.
-/

set_option linter.dupNamespace false

namespace Retrodream

/-! ## Machine types -/

/-- Type `GLuint`: an unsigned GL object name. -/
abbrev GLuint := Nat

/-- Type `GLenum`: a GL enumerant, by its numeric value. -/
abbrev GLenum := Nat

/-- Type `texture_handle_t`: an index into `render_backend.textures`.  The type and the table
size `MAX_TEXTURES` are declared in `render/render_backend.h`, which is not among the sources:
handles are natural numbers and `MAX_TEXTURES` is a parameter of the model. -/
abbrev texture_handle_t := Nat

/-- Ways a run ends without returning. -/
inductive Fault
  /-- The assertion `CHECK_LT(handle, MAX_TEXTURES)` failed: the process aborts. -/
  | check_lt
  /-- An array was indexed outside its bounds. -/
  | out_of_bounds
  /-- The call `LOG_FATAL` was reached: the process aborts. -/
  | log_fatal
  deriving DecidableEq, Repr

/-- Single-precision expressions the renderer forms, kept symbolic: no rounding is modelled. -/
inductive float
  /-- An integer-valued literal such as `1.0f` or `255.0f`. -/
  | lit (z : Int)
  /-- The conversion `(float)i`. -/
  | ofInt (i : Int)
  /-- The quotient `a / b`. -/
  | div (a b : float)
  deriving DecidableEq, Repr

/-- Read `t[i]` of a C array; outside the bounds the run faults. -/
def index {α : Type} (t : List α) (i : Int) : Except Fault α :=
  if i < 0 then .error Fault.out_of_bounds
  else match t[i.toNat]? with
    | some v => .ok v
    | none => .error Fault.out_of_bounds

/-! ## OpenGL constants (values of the OpenGL headers) -/

def GL_NONE : GLenum := 0
def GL_ZERO : GLenum := 0
def GL_ONE : GLenum := 1
def GL_LINES : GLenum := 0x0001
def GL_TRIANGLES : GLenum := 0x0004
def GL_NEVER : GLenum := 0x0200
def GL_LESS : GLenum := 0x0201
def GL_EQUAL : GLenum := 0x0202
def GL_LEQUAL : GLenum := 0x0203
def GL_GREATER : GLenum := 0x0204
def GL_NOTEQUAL : GLenum := 0x0205
def GL_GEQUAL : GLenum := 0x0206
def GL_ALWAYS : GLenum := 0x0207
def GL_SRC_COLOR : GLenum := 0x0300
def GL_ONE_MINUS_SRC_COLOR : GLenum := 0x0301
def GL_SRC_ALPHA : GLenum := 0x0302
def GL_ONE_MINUS_SRC_ALPHA : GLenum := 0x0303
def GL_DST_ALPHA : GLenum := 0x0304
def GL_ONE_MINUS_DST_ALPHA : GLenum := 0x0305
def GL_DST_COLOR : GLenum := 0x0306
def GL_ONE_MINUS_DST_COLOR : GLenum := 0x0307
def GL_FRONT : GLenum := 0x0404
def GL_BACK : GLenum := 0x0405
def GL_CULL_FACE : GLenum := 0x0B44
def GL_DEPTH_TEST : GLenum := 0x0B71
def GL_BLEND : GLenum := 0x0BE2
def GL_SCISSOR_TEST : GLenum := 0x0C11
def GL_TEXTURE_2D : GLenum := 0x0DE1
def GL_UNSIGNED_BYTE : GLenum := 0x1401
def GL_UNSIGNED_SHORT : GLenum := 0x1403
def GL_RGB : GLenum := 0x1907
def GL_RGBA : GLenum := 0x1908
def GL_NEAREST : GLenum := 0x2600
def GL_LINEAR : GLenum := 0x2601
def GL_NEAREST_MIPMAP_LINEAR : GLenum := 0x2702
def GL_LINEAR_MIPMAP_LINEAR : GLenum := 0x2703
def GL_TEXTURE_MAG_FILTER : GLenum := 0x2800
def GL_TEXTURE_MIN_FILTER : GLenum := 0x2801
def GL_TEXTURE_WRAP_S : GLenum := 0x2802
def GL_TEXTURE_WRAP_T : GLenum := 0x2803
def GL_REPEAT : GLenum := 0x2901
def GL_UNSIGNED_SHORT_4_4_4_4 : GLenum := 0x8033
def GL_UNSIGNED_SHORT_5_5_5_1 : GLenum := 0x8034
def GL_TEXTURE_COORD_ARRAY : GLenum := 0x8078
def GL_CLAMP_TO_EDGE : GLenum := 0x812F
def GL_UNSIGNED_SHORT_5_6_5 : GLenum := 0x8363
def GL_MIRRORED_REPEAT : GLenum := 0x8370
def GL_TEXTURE0 : GLenum := 0x84C0
def GL_FALSE : Nat := 0
def GL_DEPTH_BUFFER_BIT : Nat := 0x00000100
def GL_COLOR_BUFFER_BIT : Nat := 0x00004000
def GL_FLOAT : GLenum := 0x1406
def GL_FRAGMENT_SHADER : GLenum := 0x8B30
def GL_VERTEX_SHADER : GLenum := 0x8B31

/-- One call into the GL library, with the argument values it received. -/
inductive GLCall
  | glActiveTexture (texture : GLenum)
  | glBindTexture (target : GLenum) (texture : GLuint)
  /-- The call `glGenTextures(n, &name)`; the name the library writes is an input of the model. -/
  | glGenTextures (n : Int)
  /-- The call `glDeleteTextures(n, &name)`, recorded with the name stored at the address. -/
  | glDeleteTextures (n : Int) (name : GLuint)
  | glTexParameteri (target pname : GLenum) (param : GLenum)
  | glTexImage2D (target : GLenum) (level : Int) (internalformat : GLuint)
      (width height border : Int) (format type : GLuint) (pixels : Nat)
  | glGenerateMipmap (target : GLenum)
  | glDepthMask (flag : Nat)
  | glEnable (cap : GLenum)
  | glDisable (cap : GLenum)
  | glDepthFunc (func : GLenum)
  | glCullFace (mode : GLenum)
  | glBlendFunc (sfactor dfactor : GLenum)
  | glEnableClientState (array : GLenum)
  | glDisableClientState (array : GLenum)
  | glScissor (x y width height : Int)
  | glDrawElements (mode : GLenum) (count : Int) (type : GLenum) (indices : Int)
  | glDrawArrays (mode : GLenum) (first count : Int)
  | glUseProgram (program : GLuint)
  | glUniform1f (location : Int) (v0 : float)
  | glUniform1i (location : Int) (v0 : Int)
  | glUniform4fv (location : Int) (count : Int) (value : List float)
  | vglDrawObjects (mode : GLenum) (count : Nat) (implicit_wvp : Nat)
  /-- The call `memcpy(dst, src, n)`: `dst` is a typed pointer, counted in elements of its
  pointee type, `n` a number of bytes. -/
  | memcpy (dst : Int) (src : Nat) (n : Nat)
  | vglVertexAttribPointerMapped (index : Nat) (pointer : Int)
  | vglIndexPointerMapped (pointer : Int)
  | glViewport (x y width height : Int)
  | glClear (mask : Nat)
  /-- The call `glCreateProgram()`; the name returned is an input of the model. -/
  | glCreateProgram
  /-- The call `glCreateShader(type)`; the name returned is an input of the model. -/
  | glCreateShader (type : GLenum)
  | glShaderBinary (count : Int) (shader : GLuint) (binaryFormat : GLenum) (binary : Nat)
      (length : Nat)
  | glAttachShader (program shader : GLuint)
  | vglBindPackedAttribLocation (prog : GLuint) (index : Nat) (name : String) (num : Nat)
      (type : GLenum) (offset stride : Nat)
  | glLinkProgram (program : GLuint)
  /-- The call `glGetUniformLocation(program, name)`; the location returned is an input of the
  model. -/
  | glGetUniformLocation (program : GLuint) (name : String)
  | glDeleteShader (shader : GLuint)
  | glDeleteProgram (program : GLuint)
  deriving DecidableEq, Repr

/-! ## Declarations of `render/render_backend.h` -/

/-- Modelled from the spec: `render/render_backend.h` is not among the sources. Pixel formats
`{RGB, RGBA, RGBA5551, RGB565, RGBA4444}`, named as in the table comments of the backends. -/
inductive pxl_format
  | PXL_RGB | PXL_RGBA | PXL_RGBA5551 | PXL_RGB565 | PXL_RGBA4444
  deriving DecidableEq, Repr

/-- Modelled from the spec: `render/render_backend.h` is not among the sources. Filters
`{NEAREST, BILINEAR}`. -/
inductive filter_mode
  | FILTER_NEAREST | FILTER_BILINEAR
  deriving DecidableEq, Repr

/-- Modelled from the spec: `render/render_backend.h` is not among the sources. Wrap modes
`{REPEAT, CLAMP_TO_EDGE, MIRRORED_REPEAT}`. -/
inductive wrap_mode
  | WRAP_REPEAT | WRAP_CLAMP_TO_EDGE | WRAP_MIRRORED_REPEAT
  deriving DecidableEq, Repr

/-- Modelled from the spec: `render/render_backend.h` is not among the sources. Depth functions
`{NONE, NEVER, LESS, EQUAL, LEQUAL, GREATER, NEQUAL, GEQUAL, ALWAYS}`. -/
inductive depth_func
  | DEPTH_NONE | DEPTH_NEVER | DEPTH_LESS | DEPTH_EQUAL | DEPTH_LEQUAL | DEPTH_GREATER
  | DEPTH_NEQUAL | DEPTH_GEQUAL | DEPTH_ALWAYS
  deriving DecidableEq, Repr

/-- Modelled from the spec: `render/render_backend.h` is not among the sources. Cull modes
`{NONE, FRONT, BACK}`. -/
inductive cull_mode
  | CULL_NONE | CULL_FRONT | CULL_BACK
  deriving DecidableEq, Repr

/-- Modelled from the spec: `render/render_backend.h` is not among the sources. Blend factors
`{NONE, ZERO, ONE, SRC_COLOR, 1-SRC_COLOR, SRC_ALPHA, 1-SRC_ALPHA, DST_ALPHA, 1-DST_ALPHA,
DST_COLOR, 1-DST_COLOR}`. -/
inductive blend_func
  | BLEND_NONE | BLEND_ZERO | BLEND_ONE | BLEND_SRC_COLOR | BLEND_ONE_MINUS_SRC_COLOR
  | BLEND_SRC_ALPHA | BLEND_ONE_MINUS_SRC_ALPHA | BLEND_DST_ALPHA | BLEND_ONE_MINUS_DST_ALPHA
  | BLEND_DST_COLOR | BLEND_ONE_MINUS_DST_COLOR
  deriving DecidableEq, Repr

/-- Modelled from the spec: `render/render_backend.h` is not among the sources. Primitives
`{TRIANGLES, LINES}`. -/
inductive prim_type
  | PRIM_TRIANGLES | PRIM_LINES
  deriving DecidableEq, Repr

/-- Modelled from the spec: the value of a pixel format, members numbered from 0 in the order
listed. -/
def pxl_format.toNat : pxl_format → Nat
  | .PXL_RGB => 0 | .PXL_RGBA => 1 | .PXL_RGBA5551 => 2 | .PXL_RGB565 => 3 | .PXL_RGBA4444 => 4

/-- Modelled from the spec: the value of a filter, members numbered from 0 in the order listed. -/
def filter_mode.toNat : filter_mode → Nat
  | .FILTER_NEAREST => 0 | .FILTER_BILINEAR => 1

/-- Modelled from the spec: `NUM_FILTER_MODES` closes the two-member filter enumeration. -/
def NUM_FILTER_MODES : Nat := 2

/-- Modelled from the spec: the value of a wrap mode, members numbered from 0 in the order
listed. -/
def wrap_mode.toNat : wrap_mode → Nat
  | .WRAP_REPEAT => 0 | .WRAP_CLAMP_TO_EDGE => 1 | .WRAP_MIRRORED_REPEAT => 2

/-- Modelled from the spec: the value of a depth function, members numbered from 0 in the order
listed. -/
def depth_func.toNat : depth_func → Nat
  | .DEPTH_NONE => 0 | .DEPTH_NEVER => 1 | .DEPTH_LESS => 2 | .DEPTH_EQUAL => 3
  | .DEPTH_LEQUAL => 4 | .DEPTH_GREATER => 5 | .DEPTH_NEQUAL => 6 | .DEPTH_GEQUAL => 7
  | .DEPTH_ALWAYS => 8

/-- Modelled from the spec: the value of a cull mode, members numbered from 0 in the order
listed. -/
def cull_mode.toNat : cull_mode → Nat
  | .CULL_NONE => 0 | .CULL_FRONT => 1 | .CULL_BACK => 2

/-- Modelled from the spec: the value of a blend factor, members numbered from 0 in the order
listed. -/
def blend_func.toNat : blend_func → Nat
  | .BLEND_NONE => 0 | .BLEND_ZERO => 1 | .BLEND_ONE => 2 | .BLEND_SRC_COLOR => 3
  | .BLEND_ONE_MINUS_SRC_COLOR => 4 | .BLEND_SRC_ALPHA => 5 | .BLEND_ONE_MINUS_SRC_ALPHA => 6
  | .BLEND_DST_ALPHA => 7 | .BLEND_ONE_MINUS_DST_ALPHA => 8 | .BLEND_DST_COLOR => 9
  | .BLEND_ONE_MINUS_DST_COLOR => 10

/-- Modelled from the spec: the value of a primitive type, members numbered from 0 in the order
listed. -/
def prim_type.toNat : prim_type → Nat
  | .PRIM_TRIANGLES => 0 | .PRIM_LINES => 1

/-- Modelled from the spec: `struct ta_surface` is declared in `render/render_backend.h`, which is
not among the sources; these are the parameter fields the two backends read. -/
structure ta_surface_params where
  depth_write : Nat
  depth_func : Retrodream.depth_func
  cull : cull_mode
  src_blend : blend_func
  dst_blend : blend_func
  shade : Nat
  texture : texture_handle_t
  ignore_alpha : Nat
  ignore_texture_alpha : Nat
  offset_color : Nat
  alpha_test : Nat
  alpha_ref : Nat
  debug_depth : Nat

/-- Modelled from the spec: `struct ta_surface` of `render/render_backend.h`, by the fields the
backends read. -/
structure ta_surface where
  params : ta_surface_params
  first_vert : Int
  num_verts : Int

/-- Modelled from the spec: `struct ui_surface` of `render/render_backend.h`, by the fields
`r_draw_ui_surface` reads. -/
structure ui_surface where
  prim_type : Retrodream.prim_type
  texture : texture_handle_t
  src_blend : blend_func
  dst_blend : blend_func
  scissor : Nat
  scissor_rect : Fin 4 → float
  first_vert : Int
  num_verts : Int

/-! ## Declarations common to both backends -/

/-- The single-member `enum texture_map`: `MAP_DIFFUSE`. -/
def MAP_DIFFUSE : Nat := 0

/-- The `struct texture`. -/
structure texture where
  texture : GLuint
  deriving DecidableEq, Repr

/-- The `struct viewport`. -/
structure viewport where
  x : Int
  y : Int
  w : Int
  h : Int
  deriving DecidableEq, Repr

/-- The loop `for (handle = 1; handle < MAX_TEXTURES; handle++) { if (!tex->texture) break; }` of
`r_create_texture` (the same text in both backends), started at `handle`; `fuel` bounds the
number of iterations and `MAX_TEXTURES` of it is always enough. -/
def find_open_entry (MAX_TEXTURES : Nat) (textures : Fin MAX_TEXTURES → texture) :
    Nat → texture_handle_t → texture_handle_t
  | 0, handle => handle
  | fuel + 1, handle =>
    if h : handle < MAX_TEXTURES then
      if (textures ⟨handle, h⟩).texture = 0 then handle
      else find_open_entry MAX_TEXTURES textures fuel (handle + 1)
    else handle

/-! ## `src/render/gl1_backend.c` -/

namespace gl1

/-- The `struct render_backend` of the fixed-function backend; pointers are kept as addresses. -/
structure render_backend (MAX_TEXTURES : Nat) where
  host : Nat
  width : Int
  height : Int
  viewport : Retrodream.viewport
  white_texture : GLuint
  pixel_fbo : GLuint
  pixel_texture : GLuint
  textures : Fin MAX_TEXTURES → texture
  ui_use_index : Int
  indices : Int
  uniform_token : Nat
  uniform_video_scale : Fin 4 → float

def filter_funcs : List GLenum :=
  [GL_NEAREST, GL_LINEAR, GL_NEAREST_MIPMAP_LINEAR, GL_LINEAR_MIPMAP_LINEAR]

def wrap_modes : List GLenum :=
  [GL_REPEAT, GL_CLAMP_TO_EDGE, GL_MIRRORED_REPEAT]

def depth_funcs : List GLenum :=
  [0, GL_NEVER, GL_LESS, GL_EQUAL, GL_LEQUAL, GL_GREATER, GL_NOTEQUAL, GL_GEQUAL, GL_ALWAYS]

def cull_face : List GLenum :=
  [0, GL_FRONT, GL_BACK]

def blend_funcs : List GLenum :=
  [0, GL_ZERO, GL_ONE, GL_SRC_COLOR, GL_ONE_MINUS_SRC_COLOR, GL_SRC_ALPHA,
   GL_ONE_MINUS_SRC_ALPHA, GL_DST_ALPHA, GL_ONE_MINUS_DST_ALPHA, GL_DST_COLOR,
   GL_ONE_MINUS_DST_COLOR]

def prim_types : List GLenum :=
  [GL_TRIANGLES, GL_LINES]

def internal_formats : List GLuint :=
  [GL_RGB, GL_RGBA, GL_RGBA, GL_RGB, GL_RGBA]

def pixel_formats : List GLuint :=
  [GL_UNSIGNED_BYTE, GL_UNSIGNED_BYTE, GL_UNSIGNED_SHORT_5_5_5_1, GL_UNSIGNED_SHORT_5_6_5,
   GL_UNSIGNED_SHORT_4_4_4_4]

/-- Function `r_bind_texture` (lines 113-117). -/
def r_bind_texture (map : Nat) (tex : GLuint) : List GLCall :=
  [GLCall.glActiveTexture (GL_TEXTURE0 + map), GLCall.glBindTexture GL_TEXTURE_2D tex]

/-- Function `r_set_render_state` (lines 144-172): only the texture branch has a body that is
not commented out. -/
def r_set_render_state (surf : ta_surface) : List GLCall :=
  if surf.params.texture ≠ 0 then [GLCall.glEnable GL_TEXTURE_2D]
  else [GLCall.glDisable GL_TEXTURE_2D]

/-- Function `r_draw_ui_surface` (lines 178-212); `toInt` is the conversion `(int)f` of a float. -/
def r_draw_ui_surface {MAX_TEXTURES : Nat} (toInt : float → Int)
    (r : render_backend MAX_TEXTURES) (surf : ui_surface) : Except Fault (List GLCall) := do
  let scissor : List GLCall :=
    if surf.scissor ≠ 0 then
      [GLCall.glEnable GL_SCISSOR_TEST,
       GLCall.glScissor (toInt (surf.scissor_rect 0)) (toInt (surf.scissor_rect 1))
         (toInt (surf.scissor_rect 2)) (toInt (surf.scissor_rect 3))]
    else [GLCall.glDisable GL_SCISSOR_TEST]
  let blend ←
    if surf.src_blend = blend_func.BLEND_NONE ∨ surf.dst_blend = blend_func.BLEND_NONE then
      pure [GLCall.glDisable GL_BLEND]
    else do
      let s ← index blend_funcs surf.src_blend.toNat
      let d ← index blend_funcs surf.dst_blend.toNat
      pure [GLCall.glEnable GL_BLEND, GLCall.glBlendFunc s d]
  let bind ←
    if surf.texture ≠ 0 then
      if h : surf.texture < MAX_TEXTURES then
        let tex := r.textures ⟨surf.texture, h⟩
        pure (GLCall.glEnableClientState GL_TEXTURE_COORD_ARRAY
          :: r_bind_texture MAP_DIFFUSE tex.texture)
      else throw Fault.out_of_bounds
    else
      pure (GLCall.glDisableClientState GL_TEXTURE_COORD_ARRAY
        :: r_bind_texture MAP_DIFFUSE r.white_texture)
  let prim ← index prim_types surf.prim_type.toNat
  let draw : List GLCall :=
    if r.ui_use_index ≠ 0 then
      [GLCall.glDrawElements prim surf.num_verts GL_UNSIGNED_SHORT
        (r.indices + 2 * surf.first_vert)]
    else [GLCall.glDrawArrays prim surf.first_vert surf.num_verts]
  pure (scissor ++ blend ++ bind ++ draw)

/-- Function `r_draw_ta_surface` (lines 275-325). -/
def r_draw_ta_surface {MAX_TEXTURES : Nat} (r : render_backend MAX_TEXTURES)
    (surf : ta_surface) : Except Fault (List GLCall) := do
  let mask : List GLCall := [GLCall.glDepthMask (if surf.params.depth_write ≠ 0 then 1 else 0)]
  let depth ←
    if surf.params.depth_func = depth_func.DEPTH_NONE then
      pure [GLCall.glDisable GL_DEPTH_TEST]
    else do
      let f ← index depth_funcs surf.params.depth_func.toNat
      pure [GLCall.glEnable GL_DEPTH_TEST, GLCall.glDepthFunc f]
  let cull ←
    if surf.params.cull = cull_mode.CULL_NONE then
      pure [GLCall.glDisable GL_CULL_FACE]
    else do
      let m ← index cull_face surf.params.cull.toNat
      pure [GLCall.glEnable GL_CULL_FACE, GLCall.glCullFace m]
  let blend ←
    if surf.params.src_blend = blend_func.BLEND_NONE
        ∨ surf.params.dst_blend = blend_func.BLEND_NONE then
      pure [GLCall.glDisable GL_BLEND]
    else do
      let s ← index blend_funcs surf.params.src_blend.toNat
      let d ← index blend_funcs surf.params.dst_blend.toNat
      pure [GLCall.glEnable GL_BLEND, GLCall.glBlendFunc s d]
  let state := r_set_render_state surf
  let bind ←
    if surf.params.texture ≠ 0 then
      if h : surf.params.texture < MAX_TEXTURES then
        let tex := r.textures ⟨surf.params.texture, h⟩
        pure (GLCall.glEnableClientState GL_TEXTURE_COORD_ARRAY
          :: r_bind_texture MAP_DIFFUSE tex.texture)
      else throw Fault.out_of_bounds
    else pure [GLCall.glDisableClientState GL_TEXTURE_COORD_ARRAY]
  let draw : List GLCall :=
    [GLCall.glDrawElements GL_TRIANGLES surf.num_verts GL_UNSIGNED_SHORT
      (r.indices + 2 * surf.first_vert)]
  pure (mask ++ depth ++ cull ++ blend ++ state ++ bind ++ draw)

/-- Function `r_destroy_texture` (lines 416-424); a handle outside the table faults. -/
def r_destroy_texture {MAX_TEXTURES : Nat} (r : render_backend MAX_TEXTURES)
    (handle : texture_handle_t) : Except Fault (render_backend MAX_TEXTURES × List GLCall) :=
  if handle = 0 then .ok (r, [])
  else if h : handle < MAX_TEXTURES then
    let tex := r.textures ⟨handle, h⟩
    .ok ({ r with textures := Function.update r.textures ⟨handle, h⟩ { tex with texture := 0 } },
         [GLCall.glDeleteTextures 1 tex.texture])
  else .error Fault.out_of_bounds

/-- Function `r_create_texture` (lines 426-464); `VITA` tells whether that symbol is defined and
`gen` is the name `glGenTextures` writes to `tex->texture`. -/
def r_create_texture {MAX_TEXTURES : Nat} (VITA : Bool) (r : render_backend MAX_TEXTURES)
    (format : pxl_format) (filter : filter_mode) (wrap_u wrap_v : wrap_mode)
    (mipmaps width height : Int) (buffer : Nat) (gen : GLuint) :
    Except Fault (texture_handle_t × render_backend MAX_TEXTURES × List GLCall) :=
  let handle := find_open_entry MAX_TEXTURES r.textures MAX_TEXTURES 1
  if h : handle < MAX_TEXTURES then do
    let internal_fmt ← index internal_formats format.toNat
    let pixel_fmt ← index pixel_formats format.toNat
    let r1 : render_backend MAX_TEXTURES :=
      { r with textures := Function.update r.textures ⟨handle, h⟩ { texture := gen } }
    let tex := r1.textures ⟨handle, h⟩
    let min_filter ← index filter_funcs (mipmaps * NUM_FILTER_MODES + filter.toNat)
    let mag_filter ← index filter_funcs filter.toNat
    let wrap_s ← index wrap_modes wrap_u.toNat
    let wrap_t ← index wrap_modes wrap_v.toNat
    let mip : List GLCall :=
      if !VITA then (if mipmaps ≠ 0 then [GLCall.glGenerateMipmap GL_TEXTURE_2D] else [])
      else []
    pure (handle, r1,
      [GLCall.glGenTextures 1,
       GLCall.glBindTexture GL_TEXTURE_2D tex.texture,
       GLCall.glTexParameteri GL_TEXTURE_2D GL_TEXTURE_MIN_FILTER min_filter,
       GLCall.glTexParameteri GL_TEXTURE_2D GL_TEXTURE_MAG_FILTER mag_filter,
       GLCall.glTexParameteri GL_TEXTURE_2D GL_TEXTURE_WRAP_S wrap_s,
       GLCall.glTexParameteri GL_TEXTURE_2D GL_TEXTURE_WRAP_T wrap_t,
       GLCall.glTexImage2D GL_TEXTURE_2D 0 internal_fmt width height 0 internal_fmt pixel_fmt
         buffer]
      ++ mip ++ [GLCall.glBindTexture GL_TEXTURE_2D 0])
  else .error Fault.check_lt

/-- Function `r_create_textures` (lines 119-132); `gen_pixel` and `gen_white` are the names
`glGenTextures` writes, `pixels` the address of the local all-white pixel array. -/
def r_create_textures {MAX_TEXTURES : Nat} (r : render_backend MAX_TEXTURES)
    (gen_pixel gen_white : GLuint) (pixels : Nat) : render_backend MAX_TEXTURES × List GLCall :=
  let r1 := { r with pixel_texture := gen_pixel }
  let r2 := { r1 with white_texture := gen_white }
  (r2,
   [GLCall.glGenTextures 1,
    GLCall.glGenTextures 1,
    GLCall.glBindTexture GL_TEXTURE_2D r2.white_texture,
    GLCall.glTexParameteri GL_TEXTURE_2D GL_TEXTURE_MIN_FILTER GL_NEAREST,
    GLCall.glTexParameteri GL_TEXTURE_2D GL_TEXTURE_MAG_FILTER GL_NEAREST,
    GLCall.glTexImage2D GL_TEXTURE_2D 0 GL_RGBA 64 64 0 GL_RGBA GL_UNSIGNED_BYTE pixels,
    GLCall.glBindTexture GL_TEXTURE_2D 0])

/-- Function `r_set_initial_state` (lines 134-142). -/
def r_set_initial_state : List GLCall :=
  [GLCall.glDepthMask 1, GLCall.glDisable GL_DEPTH_TEST, GLCall.glEnable GL_CULL_FACE,
   GLCall.glCullFace GL_BACK, GLCall.glDisable GL_BLEND]

/-- The backend `calloc(1, sizeof(struct render_backend))` hands back: every byte zero. -/
def zeroed (MAX_TEXTURES : Nat) : render_backend MAX_TEXTURES :=
  { host := 0, width := 0, height := 0, viewport := ⟨0, 0, 0, 0⟩, white_texture := 0,
    pixel_fbo := 0, pixel_texture := 0, textures := fun _ => { texture := 0 },
    ui_use_index := 0, indices := 0, uniform_token := 0,
    uniform_video_scale := fun _ => float.lit 0 }

/-- Function `r_create` (lines 480-490), the allocation succeeding. -/
def r_create (MAX_TEXTURES : Nat) (gen_pixel gen_white : GLuint) (pixels : Nat)
    (width height : Int) : render_backend MAX_TEXTURES × List GLCall :=
  let r := zeroed MAX_TEXTURES
  let r := { r with width := width }
  let r := { r with height := height }
  let (r, c1) := r_create_textures r gen_pixel gen_white pixels
  (r, c1 ++ r_set_initial_state)

end gl1

/-! ## `src/render/gl2_backend.c` -/

namespace gl2

def UNIF_SHADE_DECAL : float := float.lit 1
def UNIF_SHADE_MODUL : float := float.lit 2
def UNIF_SHADE_DECAL_A : float := float.lit 3
def UNIF_SHADE_MODUL_A : float := float.lit 4

/-- The file-scope variables of `gl2_backend.c`; a pointer is counted in elements of its
pointee type. -/
structure globals where
  gIndices : Int
  gVertexBuffer : Int
  gIndicesPtr : Int
  gVertexBufferPtr : Int
  shade_mode : float
  has_texture : float
  alpha_skip : float
  tex_alpha_skip : float
  has_offset_color : float
  has_alpha_test : float
  ta_draw_indices_num : Nat
  deriving DecidableEq, Repr

/-- The `enum uniform_attr`, without its closing count `UNIFORM_NUM_UNIFORMS`. -/
inductive uniform_attr
  | UNIFORM_DIFFUSE | UNIFORM_VIDEO_SCALE | UNIFORM_ALPHA_REF | UNIFORM_ALPHA_SKIP
  | UNIFORM_TEX_ALPHA_SKIP | UNIFORM_HAS_TEXTURE | UNIFORM_ALPHA_TEST | UNIFORM_SHADE_MODE
  | UNIFORM_HAS_OFFSET_COLOR
  deriving DecidableEq, Repr

/-! `enum shader_attr` -/

def ATTR_SHADE_DECAL : Nat := 0x0
def ATTR_SHADE_MODULATE : Nat := 0x1
def ATTR_SHADE_DECAL_ALPHA : Nat := 0x2
def ATTR_SHADE_MODULATE_ALPHA : Nat := 0x3
def ATTR_SHADE_MASK : Nat := 0x3
def ATTR_TEXTURE : Nat := 0x4
def ATTR_IGNORE_ALPHA : Nat := 0x8
def ATTR_IGNORE_TEXTURE_ALPHA : Nat := 0x10
def ATTR_OFFSET_COLOR : Nat := 0x20
def ATTR_ALPHA_TEST : Nat := 0x40
def ATTR_DEBUG_DEPTH_BUFFER : Nat := 0x80

/-- The `struct shader_program`; `loc` is the array indexed by `enum uniform_attr`. -/
structure shader_program where
  prog : GLuint
  vertex_shader : GLuint
  fragment_shader : GLuint
  loc : uniform_attr → Int
  uniform_token : Nat

/-- The `struct render_backend` of the shader backend; pointers are kept as addresses. -/
structure render_backend (MAX_TEXTURES : Nat) where
  host : Nat
  width : Int
  height : Int
  viewport : Retrodream.viewport
  white_texture : GLuint
  ta_program : shader_program
  pixel_fbo : GLuint
  pixel_texture : GLuint
  textures : Fin MAX_TEXTURES → texture
  uniform_token : Nat
  uniform_video_scale : Fin 4 → float

def filter_funcs : List GLenum :=
  [GL_NEAREST, GL_LINEAR, GL_NEAREST_MIPMAP_LINEAR, GL_LINEAR_MIPMAP_LINEAR]

def wrap_modes : List GLenum :=
  [GL_REPEAT, GL_CLAMP_TO_EDGE, GL_MIRRORED_REPEAT]

def depth_funcs : List GLenum :=
  [GL_NONE, GL_NEVER, GL_LESS, GL_EQUAL, GL_LEQUAL, GL_GREATER, GL_NOTEQUAL, GL_GEQUAL,
   GL_ALWAYS]

def cull_face : List GLenum :=
  [GL_NONE, GL_FRONT, GL_BACK]

def blend_funcs : List GLenum :=
  [GL_NONE, GL_ZERO, GL_ONE, GL_SRC_COLOR, GL_ONE_MINUS_SRC_COLOR, GL_SRC_ALPHA,
   GL_ONE_MINUS_SRC_ALPHA, GL_DST_ALPHA, GL_ONE_MINUS_DST_ALPHA, GL_DST_COLOR,
   GL_ONE_MINUS_DST_COLOR]

def prim_types : List GLenum :=
  [GL_TRIANGLES, GL_LINES]

def internal_formats : List GLuint :=
  [GL_RGB, GL_RGBA, GL_RGBA, GL_RGB, GL_RGBA]

def pixel_formats : List GLuint :=
  [GL_UNSIGNED_BYTE, GL_UNSIGNED_BYTE, GL_UNSIGNED_SHORT_5_5_5_1, GL_UNSIGNED_SHORT_5_6_5,
   GL_UNSIGNED_SHORT_4_4_4_4]

/-- Function `r_bind_texture` (lines 182-186). -/
def r_bind_texture (map : Nat) (tex : GLuint) : List GLCall :=
  [GLCall.glActiveTexture (GL_TEXTURE0 + map), GLCall.glBindTexture GL_TEXTURE_2D tex]

/-- The shader index `idx` that `r_get_ta_program` builds from the surface parameters (lines
300-315). -/
def ta_program_idx (surf : ta_surface) : Nat :=
  let idx := surf.params.shade
  let idx := if surf.params.texture ≠ 0 then idx ||| ATTR_TEXTURE else idx
  let idx := if surf.params.ignore_alpha ≠ 0 then idx ||| ATTR_IGNORE_ALPHA else idx
  let idx := if surf.params.ignore_texture_alpha ≠ 0 then idx ||| ATTR_IGNORE_TEXTURE_ALPHA
    else idx
  let idx := if surf.params.offset_color ≠ 0 then idx ||| ATTR_OFFSET_COLOR else idx
  let idx := if surf.params.alpha_test ≠ 0 then idx ||| ATTR_ALPHA_TEST else idx
  idx

/-- Function `r_get_ta_program` (lines 297-353): the file-scope variables after the call and
the GL calls made; the program returned is `r->ta_program`. -/
def r_get_ta_program {MAX_TEXTURES : Nat} (r : render_backend MAX_TEXTURES) (g : globals)
    (surf : ta_surface) : globals × List GLCall :=
  let idx := ta_program_idx surf
  let program := r.ta_program
  let shade_mode :=
    if idx &&& ATTR_SHADE_MASK = ATTR_SHADE_DECAL then UNIF_SHADE_DECAL
    else if idx &&& ATTR_SHADE_MASK = ATTR_SHADE_MODULATE then UNIF_SHADE_MODUL
    else if idx &&& ATTR_SHADE_MASK = ATTR_SHADE_DECAL_ALPHA then UNIF_SHADE_DECAL_A
    else if idx &&& ATTR_SHADE_MASK = ATTR_SHADE_MODULATE_ALPHA then UNIF_SHADE_MODUL_A
    else g.shade_mode
  let has_texture := if idx &&& ATTR_TEXTURE ≠ 0 then float.lit 1 else float.lit 0
  let alpha_skip := if idx &&& ATTR_IGNORE_ALPHA ≠ 0 then float.lit 1 else float.lit 0
  let tex_alpha_skip :=
    if idx &&& ATTR_IGNORE_TEXTURE_ALPHA ≠ 0 then float.lit 1 else float.lit 0
  let has_offset_color := if idx &&& ATTR_OFFSET_COLOR ≠ 0 then float.lit 1 else float.lit 0
  let has_alpha_test := if idx &&& ATTR_ALPHA_TEST ≠ 0 then float.lit 1 else float.lit 0
  ({ g with shade_mode := shade_mode, has_texture := has_texture, alpha_skip := alpha_skip,
            tex_alpha_skip := tex_alpha_skip, has_offset_color := has_offset_color,
            has_alpha_test := has_alpha_test },
   [GLCall.glUseProgram program.prog,
    GLCall.glUniform1f (program.loc uniform_attr.UNIFORM_SHADE_MODE) shade_mode,
    GLCall.glUniform1f (program.loc uniform_attr.UNIFORM_HAS_TEXTURE) has_texture,
    GLCall.glUniform1f (program.loc uniform_attr.UNIFORM_ALPHA_SKIP) alpha_skip,
    GLCall.glUniform1f (program.loc uniform_attr.UNIFORM_TEX_ALPHA_SKIP) tex_alpha_skip,
    GLCall.glUniform1f (program.loc uniform_attr.UNIFORM_HAS_OFFSET_COLOR) has_offset_color,
    GLCall.glUniform1f (program.loc uniform_attr.UNIFORM_ALPHA_TEST) has_alpha_test])

/-- Function `r_draw_ta_surface` (lines 359-401). -/
def r_draw_ta_surface {MAX_TEXTURES : Nat} (r : render_backend MAX_TEXTURES) (g : globals)
    (surf : ta_surface) : Except Fault (globals × List GLCall) := do
  let mask : List GLCall := [GLCall.glDepthMask (if surf.params.depth_write ≠ 0 then 1 else 0)]
  let depth ←
    if surf.params.depth_func = depth_func.DEPTH_NONE then
      pure [GLCall.glDisable GL_DEPTH_TEST]
    else do
      let f ← index depth_funcs surf.params.depth_func.toNat
      pure [GLCall.glEnable GL_DEPTH_TEST, GLCall.glDepthFunc f]
  let cull ←
    if surf.params.cull = cull_mode.CULL_NONE then
      pure [GLCall.glDisable GL_CULL_FACE]
    else do
      let m ← index cull_face surf.params.cull.toNat
      pure [GLCall.glEnable GL_CULL_FACE, GLCall.glCullFace m]
  let blend ←
    if surf.params.src_blend = blend_func.BLEND_NONE
        ∨ surf.params.dst_blend = blend_func.BLEND_NONE then
      pure [GLCall.glDisable GL_BLEND]
    else do
      let s ← index blend_funcs surf.params.src_blend.toNat
      let d ← index blend_funcs surf.params.dst_blend.toNat
      pure [GLCall.glEnable GL_BLEND, GLCall.glBlendFunc s d]
  let (g1, prog_calls) := r_get_ta_program r g surf
  let program := r.ta_program
  let alpha_ref := float.div (float.ofInt surf.params.alpha_ref) (float.lit 255)
  let uniforms : List GLCall :=
    [GLCall.glUniform4fv (program.loc uniform_attr.UNIFORM_VIDEO_SCALE) 1
       (List.ofFn r.uniform_video_scale),
     GLCall.glUniform1f (program.loc uniform_attr.UNIFORM_ALPHA_REF) alpha_ref,
     GLCall.glUniform1i (program.loc uniform_attr.UNIFORM_DIFFUSE) MAP_DIFFUSE]
  let bind ←
    if surf.params.texture ≠ 0 then
      if h : surf.params.texture < MAX_TEXTURES then
        let tex := r.textures ⟨surf.params.texture, h⟩
        pure (r_bind_texture MAP_DIFFUSE tex.texture)
      else throw Fault.out_of_bounds
    else pure []
  let draw : List GLCall := [GLCall.vglDrawObjects GL_TRIANGLES g1.ta_draw_indices_num GL_FALSE]
  pure (g1, mask ++ depth ++ cull ++ blend ++ prog_calls ++ uniforms ++ bind ++ draw)

/-- Function `r_destroy_texture` (lines 462-470); a handle outside the table faults. -/
def r_destroy_texture {MAX_TEXTURES : Nat} (r : render_backend MAX_TEXTURES)
    (handle : texture_handle_t) : Except Fault (render_backend MAX_TEXTURES × List GLCall) :=
  if handle = 0 then .ok (r, [])
  else if h : handle < MAX_TEXTURES then
    let tex := r.textures ⟨handle, h⟩
    .ok ({ r with textures := Function.update r.textures ⟨handle, h⟩ { tex with texture := 0 } },
         [GLCall.glDeleteTextures 1 tex.texture])
  else .error Fault.out_of_bounds

/-- Function `r_create_texture` (lines 472-511); `VITA` tells whether that symbol is defined and
`gen` is the name `glGenTextures` writes to `tex->texture`.  The `LOG_INFO` calls of the file
are not modelled. -/
def r_create_texture {MAX_TEXTURES : Nat} (VITA : Bool) (r : render_backend MAX_TEXTURES)
    (format : pxl_format) (filter : filter_mode) (wrap_u wrap_v : wrap_mode)
    (mipmaps width height : Int) (buffer : Nat) (gen : GLuint) :
    Except Fault (texture_handle_t × render_backend MAX_TEXTURES × List GLCall) :=
  let handle := find_open_entry MAX_TEXTURES r.textures MAX_TEXTURES 1
  if h : handle < MAX_TEXTURES then do
    let internal_fmt ← index internal_formats format.toNat
    let pixel_fmt ← index pixel_formats format.toNat
    let r1 : render_backend MAX_TEXTURES :=
      { r with textures := Function.update r.textures ⟨handle, h⟩ { texture := gen } }
    let tex := r1.textures ⟨handle, h⟩
    let min_filter ← index filter_funcs (mipmaps * NUM_FILTER_MODES + filter.toNat)
    let mag_filter ← index filter_funcs filter.toNat
    let wrap_s ← index wrap_modes wrap_u.toNat
    let wrap_t ← index wrap_modes wrap_v.toNat
    let tail : List GLCall :=
      if !VITA then
        (if mipmaps ≠ 0 then [GLCall.glGenerateMipmap GL_TEXTURE_2D] else [])
          ++ [GLCall.glBindTexture GL_TEXTURE_2D 0]
      else []
    pure (handle, r1,
      [GLCall.glGenTextures 1,
       GLCall.glBindTexture GL_TEXTURE_2D tex.texture,
       GLCall.glTexParameteri GL_TEXTURE_2D GL_TEXTURE_MIN_FILTER min_filter,
       GLCall.glTexParameteri GL_TEXTURE_2D GL_TEXTURE_MAG_FILTER mag_filter,
       GLCall.glTexParameteri GL_TEXTURE_2D GL_TEXTURE_WRAP_S wrap_s,
       GLCall.glTexParameteri GL_TEXTURE_2D GL_TEXTURE_WRAP_T wrap_t,
       GLCall.glTexImage2D GL_TEXTURE_2D 0 internal_fmt width height 0 internal_fmt pixel_fmt
         buffer]
      ++ tail)
  else .error Fault.check_lt

/-- The array `uniform_names`, indexed by `enum uniform_attr`. -/
def uniform_names : uniform_attr → String
  | .UNIFORM_DIFFUSE => "u_diffuse"
  | .UNIFORM_VIDEO_SCALE => "u_video_scale"
  | .UNIFORM_ALPHA_REF => "u_alpha_ref"
  | .UNIFORM_ALPHA_SKIP => "alpha_skip"
  | .UNIFORM_TEX_ALPHA_SKIP => "tex_alpha_skip"
  | .UNIFORM_HAS_TEXTURE => "has_texture"
  | .UNIFORM_ALPHA_TEST => "alpha_test"
  | .UNIFORM_SHADE_MODE => "shade_mode"
  | .UNIFORM_HAS_OFFSET_COLOR => "offset_color"

/-- The members of `enum uniform_attr` in declaration order, as the loop of
`r_compile_program` visits them. -/
def uniform_attrs : List uniform_attr :=
  [.UNIFORM_DIFFUSE, .UNIFORM_VIDEO_SCALE, .UNIFORM_ALPHA_REF, .UNIFORM_ALPHA_SKIP,
   .UNIFORM_TEX_ALPHA_SKIP, .UNIFORM_HAS_TEXTURE, .UNIFORM_ALPHA_TEST, .UNIFORM_SHADE_MODE,
   .UNIFORM_HAS_OFFSET_COLOR]

/-- The compiled shaders of `ta_f.h` and `ta_v.h` (not among the sources): the addresses of
the arrays `ta_f` and `ta_v` and their sizes `size_ta_f`, `size_ta_v`. -/
structure shader_blobs where
  ta_f : Nat
  ta_v : Nat
  size_ta_f : Nat
  size_ta_v : Nat

/-- What the GL library and the allocator answer during `r_create`: the two texture names,
the program and shader names, the uniform locations, the two staging buffers `malloc` returns
(as typed pointers), and the address of the local pixel array. -/
structure create_answers where
  pixel_texture : GLuint
  white_texture : GLuint
  prog : GLuint
  vertex_shader : GLuint
  fragment_shader : GLuint
  loc : uniform_attr → Int
  vertex_buffer : Int
  index_buffer : Int
  pixels : Nat

/-- Function `r_compile_shader` (lines 188-196): the `int` returned, the shader name written
to `*shader` (`created`, the answer of `glCreateShader`) and the GL calls made. -/
def r_compile_shader (b : shader_blobs) (source : Nat) (shader_type : GLenum)
    (created : GLuint) : Int × GLuint × List GLCall :=
  let sourceLength := if source = b.ta_f then b.size_ta_f else b.size_ta_v
  let shader := created
  (1, shader,
   [GLCall.glCreateShader shader_type, GLCall.glShaderBinary 1 shader 0 source sourceLength])

/-- Function `r_destroy_program` (lines 198-210). -/
def r_destroy_program (program : shader_program) : List GLCall :=
  (if program.vertex_shader ≠ 0 then [GLCall.glDeleteShader program.vertex_shader] else [])
  ++ (if program.fragment_shader ≠ 0 then [GLCall.glDeleteShader program.fragment_shader]
      else [])
  ++ (if program.prog ≠ 0 then [GLCall.glDeleteProgram program.prog] else [])

/-- Function `r_compile_program` (lines 212-243): the `int` returned, the program record
written and the GL calls made. -/
def r_compile_program (b : shader_blobs) (a : create_answers) :
    Int × shader_program × List GLCall :=
  let program : shader_program :=
    { prog := 0, vertex_shader := 0, fragment_shader := 0, loc := fun _ => 0,
      uniform_token := 0 }
  let program := { program with prog := a.prog }
  let c0 := [GLCall.glCreateProgram]
  let (ok_v, vs, c1) := r_compile_shader b b.ta_v GL_VERTEX_SHADER a.vertex_shader
  let program := { program with vertex_shader := vs }
  if ok_v = 0 then (0, program, c0 ++ c1 ++ r_destroy_program program)
  else
    let c2 := [GLCall.glAttachShader program.prog program.vertex_shader]
    let (ok_f, fs, c3) := r_compile_shader b b.ta_f GL_FRAGMENT_SHADER a.fragment_shader
    let program := { program with fragment_shader := fs }
    if ok_f = 0 then (0, program, c0 ++ c1 ++ c2 ++ c3 ++ r_destroy_program program)
    else
      let c4 :=
        [GLCall.glAttachShader program.prog program.fragment_shader,
         GLCall.vglBindPackedAttribLocation program.prog 0 "attr_xyz" 3 GL_FLOAT 0 (4 * 7),
         GLCall.vglBindPackedAttribLocation program.prog 1 "attr_texcoord" 2 GL_FLOAT (4 * 3)
           (4 * 7),
         GLCall.vglBindPackedAttribLocation program.prog 2 "attr_color" 4 GL_UNSIGNED_BYTE
           (4 * 5) (4 * 7),
         GLCall.vglBindPackedAttribLocation program.prog 3 "attr_offset_color" 4
           GL_UNSIGNED_BYTE (4 * 6) (4 * 7),
         GLCall.glLinkProgram program.prog]
      let c5 := uniform_attrs.map fun i =>
        GLCall.glGetUniformLocation program.prog (uniform_names i)
      let program := { program with loc := a.loc }
      (1, program, c0 ++ c1 ++ c2 ++ c3 ++ c4 ++ c5)

/-- Function `r_create_shaders` (lines 249-253): the backend with `ta_program` written. -/
def r_create_shaders {MAX_TEXTURES : Nat} (r : render_backend MAX_TEXTURES) (b : shader_blobs)
    (a : create_answers) : Except Fault (render_backend MAX_TEXTURES × List GLCall) :=
  let (ok, program, c) := r_compile_program b a
  if ok = 0 then .error Fault.log_fatal
  else .ok ({ r with ta_program := program }, c)

/-- Function `r_create_textures` (lines 269-283). -/
def r_create_textures {MAX_TEXTURES : Nat} (VITA : Bool) (r : render_backend MAX_TEXTURES)
    (gen_pixel gen_white : GLuint) (pixels : Nat) : render_backend MAX_TEXTURES × List GLCall :=
  let r1 := { r with pixel_texture := gen_pixel }
  let r2 := { r1 with white_texture := gen_white }
  (r2,
   [GLCall.glGenTextures 1,
    GLCall.glGenTextures 1,
    GLCall.glBindTexture GL_TEXTURE_2D r2.white_texture,
    GLCall.glTexParameteri GL_TEXTURE_2D GL_TEXTURE_MIN_FILTER GL_NEAREST,
    GLCall.glTexParameteri GL_TEXTURE_2D GL_TEXTURE_MAG_FILTER GL_NEAREST,
    GLCall.glTexImage2D GL_TEXTURE_2D 0 GL_RGBA 64 64 0 GL_RGBA GL_UNSIGNED_BYTE pixels]
   ++ (if !VITA then [GLCall.glBindTexture GL_TEXTURE_2D 0] else []))

/-- Function `r_set_initial_state` (lines 285-295). -/
def r_set_initial_state : List GLCall :=
  [GLCall.glDepthMask 1, GLCall.glDisable GL_DEPTH_TEST, GLCall.glEnable GL_CULL_FACE,
   GLCall.glCullFace GL_BACK, GLCall.glDisable GL_BLEND, GLCall.glEnable GL_TEXTURE_2D]

/-- Function `r_end_ta_surfaces` (line 355): an empty body. -/
def r_end_ta_surfaces {MAX_TEXTURES : Nat} (r : render_backend MAX_TEXTURES) (g : globals) :
    render_backend MAX_TEXTURES × globals × List GLCall :=
  (r, g, [])

/-- The width of `size_t` on the 32-bit target of vitaGL. -/
def SIZE_BITS : Nat := 32

/-- The conversion of an `int` to `uint16_t`. -/
def to_uint16 (i : Int) : Nat := (i % 2 ^ 16).toNat

/-- Function `r_begin_ta_surfaces` (lines 403-426); `verts` and `indices` are the addresses of
the caller's arrays.  A byte count is formed in `size_t`; the cursor increments are formed in
`int` and taken without overflow. -/
def r_begin_ta_surfaces {MAX_TEXTURES : Nat} (r : render_backend MAX_TEXTURES) (g : globals)
    (video_width video_height : Int) (verts : Nat) (num_verts : Int) (indices : Nat)
    (num_indices : Int) : render_backend MAX_TEXTURES × globals × List GLCall :=
  let scale : Fin 4 → float := fun i =>
    if i.val = 0 then float.div (float.lit 2) (float.ofInt video_width)
    else if i.val = 1 then float.lit (-1)
    else if i.val = 2 then float.div (float.lit (-2)) (float.ofInt video_height)
    else float.lit 1
  let r1 := { r with uniform_video_scale := scale }
  let c1 :=
    [GLCall.memcpy g.gVertexBuffer verts ((4 * 7 * num_verts) % 2 ^ SIZE_BITS).toNat,
     GLCall.vglVertexAttribPointerMapped 0 g.gVertexBuffer,
     GLCall.vglVertexAttribPointerMapped 1 g.gVertexBuffer,
     GLCall.vglVertexAttribPointerMapped 2 g.gVertexBuffer,
     GLCall.vglVertexAttribPointerMapped 3 g.gVertexBuffer]
  let g1 := { g with gVertexBuffer := g.gVertexBuffer + 7 * num_verts }
  let c2 :=
    [GLCall.memcpy g1.gIndices indices ((2 * num_indices) % 2 ^ SIZE_BITS).toNat,
     GLCall.vglIndexPointerMapped g1.gIndices]
  let g2 := { g1 with gIndices := g1.gIndices + num_indices }
  let g3 := { g2 with ta_draw_indices_num := to_uint16 num_indices }
  (r1, g3, c1 ++ c2)

/-- Function `r_viewport` (lines 450-456). -/
def r_viewport {MAX_TEXTURES : Nat} (r : render_backend MAX_TEXTURES) (g : globals)
    (x y width height : Int) : render_backend MAX_TEXTURES × globals × List GLCall :=
  let r1 := { r with viewport := { x := x, y := y, w := width, h := height } }
  (r1, g, [GLCall.glViewport r1.viewport.x r1.viewport.y r1.viewport.w r1.viewport.h])

/-- Function `r_clear` (lines 458-460). -/
def r_clear {MAX_TEXTURES : Nat} (r : render_backend MAX_TEXTURES) (g : globals) :
    render_backend MAX_TEXTURES × globals × List GLCall :=
  (r, g, [GLCall.glClear (GL_DEPTH_BUFFER_BIT ||| GL_COLOR_BUFFER_BIT)])

/-- The sizes in bytes `r_create` passes to `malloc` for the vertex and the index staging
buffers. -/
def VERTEX_BUFFER_BYTES : Int := 0x1800000

def INDEX_BUFFER_BYTES : Int := 0x600000

/-- The backend `calloc(1, sizeof(struct render_backend))` hands back: every byte zero. -/
def zeroed (MAX_TEXTURES : Nat) : render_backend MAX_TEXTURES :=
  { host := 0, width := 0, height := 0, viewport := ⟨0, 0, 0, 0⟩, white_texture := 0,
    ta_program := { prog := 0, vertex_shader := 0, fragment_shader := 0, loc := fun _ => 0,
                    uniform_token := 0 },
    pixel_fbo := 0, pixel_texture := 0, textures := fun _ => { texture := 0 },
    uniform_token := 0, uniform_video_scale := fun _ => float.lit 0 }

/-- Function `r_create` (lines 528-544), the allocations succeeding: the backend made and the
file-scope variables after the call, the two cursors at the start of the buffers `malloc`
returned for `VERTEX_BUFFER_BYTES` and `INDEX_BUFFER_BYTES` bytes. -/
def r_create (MAX_TEXTURES : Nat) (VITA : Bool) (b : shader_blobs) (a : create_answers)
    (g : globals) (width height : Int) :
    Except Fault (render_backend MAX_TEXTURES × globals × List GLCall) := do
  let r := zeroed MAX_TEXTURES
  let r := { r with width := width }
  let r := { r with height := height }
  let (r, c1) := r_create_textures VITA r a.pixel_texture a.white_texture a.pixels
  let (r, c2) ← r_create_shaders r b a
  let c3 := r_set_initial_state
  let g := { g with gVertexBufferPtr := a.vertex_buffer }
  let g := { g with gIndicesPtr := a.index_buffer }
  let g := { g with gVertexBuffer := g.gVertexBufferPtr }
  let g := { g with gIndices := g.gIndicesPtr }
  pure (r, g, c1 ++ c2 ++ c3)

end gl2

/-! ## `src/guest/serial/serial.c` -/

/-- The `struct serial`.  `D` is the embedded `struct device`, `U` the type behind the `void *`
user data and `W` the state of the host the callbacks act on; a callback is the function the
pointer designates (`getchar_cb`: user data to `int`, `putchar_cb`: user data and `int`). -/
structure serial (D U W : Type) where
  device : D
  userdata : U
  getchar_serial : U → W → Int × W
  putchar_serial : U → Int → W → W

/-- Function `serial_putchar`: the device (not written) and the host state after the call. -/
def serial_putchar {D U W : Type} (serial : serial D U W) (c : Int) (w : W) :
    Retrodream.serial D U W × W :=
  (serial, serial.putchar_serial serial.userdata c w)

/-- Function `serial_getchar`: the device (not written), the `int` returned and the host state
after the call. -/
def serial_getchar {D U W : Type} (serial : serial D U W) (w : W) :
    Retrodream.serial D U W × Int × W :=
  (serial, serial.getchar_serial serial.userdata w)

/-- Function `serial_create`; `dev` is the device record `dc_create_device` hands back (that
function is not among the sources), whose three serial fields are then assigned. -/
def serial_create {D U W : Type} (dev : D) (userdata : U)
    (getchar_func : U → W → Int × W) (putchar_func : U → Int → W → W) : serial D U W :=
  { device := dev, userdata := userdata, getchar_serial := getchar_func,
    putchar_serial := putchar_func }

/-- A callback invocation, as an observer of the host would log it. -/
inductive serial_call (U : Type)
  | getchar (userdata : U)
  | putchar (userdata : U) (c : Int)
  deriving DecidableEq, Repr

/-- Instrument a `getchar` callback: it logs its invocation, then runs. -/
def logged_getchar {U W : Type} (f : U → W → Int × W) :
    U → W × List (serial_call U) → Int × (W × List (serial_call U)) :=
  fun u s => ((f u s.1).1, ((f u s.1).2, s.2 ++ [serial_call.getchar u]))

/-- Instrument a `putchar` callback: it logs its invocation, then runs. -/
def logged_putchar {U W : Type} (f : U → Int → W → W) :
    U → Int → W × List (serial_call U) → W × List (serial_call U) :=
  fun u c s => (f u c s.1, s.2 ++ [serial_call.putchar u c])

/-! ## `src/jit/backend/x64/x64_backend.h` -/

namespace x64

/-- Type `typedef void (*SlowmemThunk)()`: the value of a function pointer. -/
abbrev SlowmemThunk := Nat

/-- The private data members of `class X64Backend`; `X64Emitter` is declared in
`x64_emitter.h`, which is not among the sources. -/
structure X64Backend (X64Emitter : Type) where
  static_emitter_ : X64Emitter
  emitter_ : X64Emitter
  load_thunk_ : Fin 16 → SlowmemThunk
  store_thunk_ : SlowmemThunk

/-- The slots of type `SlowmemThunk` that `class X64Backend` declares, in declaration order:
the 16 elements of the array `load_thunk_`, then the scalar `store_thunk_`.  What a slot holds
is up to `AssembleThunks`, of which the header has only the prototype. -/
def X64Backend.thunk_slots {E : Type} (b : X64Backend E) : List SlowmemThunk :=
  List.ofFn b.load_thunk_ ++ [b.store_thunk_]

/-- Modelled from the spec: the two directions of access the spec gives the thunk table. -/
inductive thunk_kind
  | load
  | store
  deriving DecidableEq, Repr

/-- Modelled from the spec: the access kinds the spec gives the thunk table, one per
combination of load or store, width 8, 16, 32 or 64 and signed or unsigned. -/
def spec_thunk_combinations : List (thunk_kind × Nat × Bool) :=
  [thunk_kind.load, thunk_kind.store].flatMap fun k =>
    [8, 16, 32, 64].flatMap fun w => [true, false].map fun sg => (k, w, sg)

/-- A backend object to evaluate on: element `i` of `load_thunk_` is `0x1000 + 16 * i`,
`store_thunk_` is `0x2000`. -/
def sample_backend : X64Backend Unit :=
  { static_emitter_ := (), emitter_ := (), load_thunk_ := fun i => 0x1000 + 16 * i.val,
    store_thunk_ := 0x2000 }

end x64

/-! ## The GL constant each enumeration member is named after -/

/-- Modelled from the spec: the GL internal format named like the pixel format (its channel
set). -/
def pxl_format.gl_internal : pxl_format → GLuint
  | .PXL_RGB => GL_RGB
  | .PXL_RGBA => GL_RGBA
  | .PXL_RGBA5551 => GL_RGBA
  | .PXL_RGB565 => GL_RGB
  | .PXL_RGBA4444 => GL_RGBA

/-- Modelled from the spec: the GL pixel type named like the pixel format (its bit layout; a
byte per channel where the name gives none). -/
def pxl_format.gl_type : pxl_format → GLuint
  | .PXL_RGB => GL_UNSIGNED_BYTE
  | .PXL_RGBA => GL_UNSIGNED_BYTE
  | .PXL_RGBA5551 => GL_UNSIGNED_SHORT_5_5_5_1
  | .PXL_RGB565 => GL_UNSIGNED_SHORT_5_6_5
  | .PXL_RGBA4444 => GL_UNSIGNED_SHORT_4_4_4_4

/-- Modelled from the spec: the GL filter named like the filter mode. -/
def filter_mode.gl : filter_mode → GLenum
  | .FILTER_NEAREST => GL_NEAREST
  | .FILTER_BILINEAR => GL_LINEAR

/-- Modelled from the spec: the GL wrap mode named like the wrap mode. -/
def wrap_mode.gl : wrap_mode → GLenum
  | .WRAP_REPEAT => GL_REPEAT
  | .WRAP_CLAMP_TO_EDGE => GL_CLAMP_TO_EDGE
  | .WRAP_MIRRORED_REPEAT => GL_MIRRORED_REPEAT

/-- Modelled from the spec: the GL comparison named like the depth function, 0 for `NONE`. -/
def depth_func.gl : depth_func → GLenum
  | .DEPTH_NONE => 0
  | .DEPTH_NEVER => GL_NEVER
  | .DEPTH_LESS => GL_LESS
  | .DEPTH_EQUAL => GL_EQUAL
  | .DEPTH_LEQUAL => GL_LEQUAL
  | .DEPTH_GREATER => GL_GREATER
  | .DEPTH_NEQUAL => GL_NOTEQUAL
  | .DEPTH_GEQUAL => GL_GEQUAL
  | .DEPTH_ALWAYS => GL_ALWAYS

/-- Modelled from the spec: the GL face named like the cull mode, 0 for `NONE`. -/
def cull_mode.gl : cull_mode → GLenum
  | .CULL_NONE => 0
  | .CULL_FRONT => GL_FRONT
  | .CULL_BACK => GL_BACK

/-- Modelled from the spec: the GL blend factor named like the blend factor, 0 for `NONE`. -/
def blend_func.gl : blend_func → GLenum
  | .BLEND_NONE => 0
  | .BLEND_ZERO => GL_ZERO
  | .BLEND_ONE => GL_ONE
  | .BLEND_SRC_COLOR => GL_SRC_COLOR
  | .BLEND_ONE_MINUS_SRC_COLOR => GL_ONE_MINUS_SRC_COLOR
  | .BLEND_SRC_ALPHA => GL_SRC_ALPHA
  | .BLEND_ONE_MINUS_SRC_ALPHA => GL_ONE_MINUS_SRC_ALPHA
  | .BLEND_DST_ALPHA => GL_DST_ALPHA
  | .BLEND_ONE_MINUS_DST_ALPHA => GL_ONE_MINUS_DST_ALPHA
  | .BLEND_DST_COLOR => GL_DST_COLOR
  | .BLEND_ONE_MINUS_DST_COLOR => GL_ONE_MINUS_DST_COLOR

/-- Modelled from the spec: the GL primitive named like the primitive type. -/
def prim_type.gl : prim_type → GLenum
  | .PRIM_TRIANGLES => GL_TRIANGLES
  | .PRIM_LINES => GL_LINES

/-! ## Observations on a list of GL calls -/

/-- The values given to `glTexParameteri(GL_TEXTURE_2D, pname, _)`, in order. -/
def tex_parameters (pname : GLenum) (calls : List GLCall) : List GLenum :=
  calls.filterMap fun c =>
    match c with
    | .glTexParameteri target p v => if target = GL_TEXTURE_2D ∧ p = pname then some v else none
    | _ => none

/-- Whether a call sets blend state: `glEnable(GL_BLEND)`, `glDisable(GL_BLEND)` or
`glBlendFunc`. -/
def GLCall.is_blend : GLCall → Bool
  | .glEnable cap => cap == GL_BLEND
  | .glDisable cap => cap == GL_BLEND
  | .glBlendFunc _ _ => true
  | _ => false

/-- The blend-state calls of a list of GL calls, in order. -/
def blend_calls (calls : List GLCall) : List GLCall :=
  calls.filter GLCall.is_blend

/-- The blend state a draw call must leave for factors `src` and `dst` read from the table
`tbl`: blending is disabled exactly when one factor is `BLEND_NONE`; otherwise it is enabled
and `glBlendFunc` receives the two table entries, neither read at index `BLEND_NONE`. -/
def blend_state_set (tbl : List GLenum) (src dst : blend_func) (calls : List GLCall) : Prop :=
  (blend_calls calls = [GLCall.glDisable GL_BLEND]
      ↔ (src = blend_func.BLEND_NONE ∨ dst = blend_func.BLEND_NONE))
  ∧ (¬ (src = blend_func.BLEND_NONE ∨ dst = blend_func.BLEND_NONE) →
      ∃ s d, index tbl src.toNat = .ok s ∧ index tbl dst.toNat = .ok d
        ∧ src.toNat ≠ blend_func.BLEND_NONE.toNat ∧ dst.toNat ≠ blend_func.BLEND_NONE.toNat
        ∧ blend_calls calls = [GLCall.glEnable GL_BLEND, GLCall.glBlendFunc s d])

/-! ## Combinable shader attributes -/

/-- The members of `enum shader_attr` that "can all be combined together". -/
inductive gl2.shader_flag
  | ATTR_TEXTURE | ATTR_IGNORE_ALPHA | ATTR_IGNORE_TEXTURE_ALPHA | ATTR_OFFSET_COLOR
  | ATTR_ALPHA_TEST | ATTR_DEBUG_DEPTH_BUFFER
  deriving DecidableEq, Repr

/-- The enumerator value of a combinable attribute. -/
def gl2.shader_flag.val : gl2.shader_flag → Nat
  | .ATTR_TEXTURE => gl2.ATTR_TEXTURE
  | .ATTR_IGNORE_ALPHA => gl2.ATTR_IGNORE_ALPHA
  | .ATTR_IGNORE_TEXTURE_ALPHA => gl2.ATTR_IGNORE_TEXTURE_ALPHA
  | .ATTR_OFFSET_COLOR => gl2.ATTR_OFFSET_COLOR
  | .ATTR_ALPHA_TEST => gl2.ATTR_ALPHA_TEST
  | .ATTR_DEBUG_DEPTH_BUFFER => gl2.ATTR_DEBUG_DEPTH_BUFFER

/-- Every combinable attribute, in declaration order. -/
def gl2.shader_flags : List gl2.shader_flag :=
  [.ATTR_TEXTURE, .ATTR_IGNORE_ALPHA, .ATTR_IGNORE_TEXTURE_ALPHA, .ATTR_OFFSET_COLOR,
   .ATTR_ALPHA_TEST, .ATTR_DEBUG_DEPTH_BUFFER]

/-- The bitwise OR of the attributes of a subset, the subset given by its membership test. -/
def gl2.attr_or (F : gl2.shader_flag → Bool) : Nat :=
  gl2.shader_flags.foldl (fun acc a => if F a then acc ||| a.val else acc) 0

/-- The attributes `r_get_ta_program` switches on for a surface: one per non-zero parameter;
`ATTR_DEBUG_DEPTH_BUFFER` is never set there. -/
def gl2.surface_flags (surf : ta_surface) : gl2.shader_flag → Bool
  | .ATTR_TEXTURE => decide (surf.params.texture ≠ 0)
  | .ATTR_IGNORE_ALPHA => decide (surf.params.ignore_alpha ≠ 0)
  | .ATTR_IGNORE_TEXTURE_ALPHA => decide (surf.params.ignore_texture_alpha ≠ 0)
  | .ATTR_OFFSET_COLOR => decide (surf.params.offset_color ≠ 0)
  | .ATTR_ALPHA_TEST => decide (surf.params.alpha_test ≠ 0)
  | .ATTR_DEBUG_DEPTH_BUFFER => false

/-! ## Sample values -/

/-- A fixed-function backend with four texture slots of which 1 and 3 are occupied. -/
def gl1.sample_backend : gl1.render_backend 4 :=
  { host := 0, width := 640, height := 480, viewport := ⟨0, 0, 640, 480⟩, white_texture := 2,
    pixel_fbo := 0, pixel_texture := 1,
    textures := fun i => if i.val = 1 then ⟨7⟩ else if i.val = 3 then ⟨9⟩ else ⟨0⟩,
    ui_use_index := 0, indices := 0, uniform_token := 0,
    uniform_video_scale := fun _ => float.lit 0 }

/-- A shader backend with four texture slots of which 1 and 3 are occupied. -/
def gl2.sample_backend : gl2.render_backend 4 :=
  { host := 0, width := 640, height := 480, viewport := ⟨0, 0, 640, 480⟩, white_texture := 2,
    ta_program := { prog := 1, vertex_shader := 2, fragment_shader := 3, loc := fun _ => 0,
                    uniform_token := 0 },
    pixel_fbo := 0, pixel_texture := 1,
    textures := fun i => if i.val = 1 then ⟨7⟩ else if i.val = 3 then ⟨9⟩ else ⟨0⟩,
    uniform_token := 0, uniform_video_scale := fun _ => float.lit 0 }

/-- A fixed-function backend with four texture slots, all occupied but slot 0. -/
def gl1.full_backend : gl1.render_backend 4 :=
  { gl1.sample_backend with textures := fun i => if i.val = 0 then ⟨0⟩ else ⟨10 + i.val⟩ }

/-- A shader backend with four texture slots, all occupied but slot 0. -/
def gl2.full_backend : gl2.render_backend 4 :=
  { gl2.sample_backend with textures := fun i => if i.val = 0 then ⟨0⟩ else ⟨10 + i.val⟩ }

/-- The file-scope variables of `gl2_backend.c` as their initialisers leave them. -/
def gl2.initial_globals : gl2.globals :=
  { gIndices := 0, gVertexBuffer := 0, gIndicesPtr := 0, gVertexBufferPtr := 0,
    shade_mode := gl2.UNIF_SHADE_MODUL, has_texture := float.lit 1, alpha_skip := float.lit 1,
    tex_alpha_skip := float.lit 1, has_offset_color := float.lit 1,
    has_alpha_test := float.lit 1, ta_draw_indices_num := 0 }

/-- A surface: textured (slot 1), depth `LEQUAL`, back-face culling, alpha blending. -/
def sample_ta_surface : ta_surface :=
  { params := { depth_write := 1, depth_func := depth_func.DEPTH_LEQUAL,
                cull := cull_mode.CULL_BACK, src_blend := blend_func.BLEND_SRC_ALPHA,
                dst_blend := blend_func.BLEND_ONE_MINUS_SRC_ALPHA, shade := 1, texture := 1,
                ignore_alpha := 0, ignore_texture_alpha := 0, offset_color := 1,
                alpha_test := 0, alpha_ref := 128, debug_depth := 0 },
    first_vert := 0, num_verts := 3 }

/-- A user-interface surface: textured (slot 3), alpha blending, no scissor. -/
def sample_ui_surface : ui_surface :=
  { prim_type := prim_type.PRIM_TRIANGLES, texture := 3,
    src_blend := blend_func.BLEND_SRC_ALPHA, dst_blend := blend_func.BLEND_ONE_MINUS_SRC_ALPHA,
    scissor := 0, scissor_rect := fun _ => float.lit 0, first_vert := 0, num_verts := 6 }

/-! ## More observations on a list of GL calls -/

/-- Whether a call sets the depth mask, the depth test or function, face culling or blending:
the fixed-function state a surface carries. -/
def GLCall.is_fixed_state : GLCall → Bool
  | .glDepthMask _ => true
  | .glEnable cap => cap == GL_DEPTH_TEST || cap == GL_CULL_FACE || cap == GL_BLEND
  | .glDisable cap => cap == GL_DEPTH_TEST || cap == GL_CULL_FACE || cap == GL_BLEND
  | .glDepthFunc _ => true
  | .glCullFace _ => true
  | .glBlendFunc _ _ => true
  | _ => false

/-- The fixed-function state calls of a list of GL calls, in order. -/
def fixed_state_calls (calls : List GLCall) : List GLCall :=
  calls.filter GLCall.is_fixed_state

/-- Whether a call draws primitives. -/
def GLCall.is_draw : GLCall → Bool
  | .glDrawElements _ _ _ _ => true
  | .glDrawArrays _ _ _ => true
  | .vglDrawObjects _ _ _ => true
  | _ => false

/-- The draw calls of a list of GL calls, in order. -/
def draw_calls (calls : List GLCall) : List GLCall :=
  calls.filter GLCall.is_draw

/-- Whether a `memcpy` writes inside the buffer of `capacity` bytes that starts at the typed
pointer `base`, the pointee being `elem_size` bytes wide. -/
def copy_inside (base elem_size capacity : Int) : GLCall → Prop
  | .memcpy dst _ n => 0 ≤ elem_size * (dst - base) ∧ elem_size * (dst - base) + n ≤ capacity
  | _ => False

/-! ## Sequences of calls -/

/-- A call of the texture interface of the fixed-function backend; a creation carries the name
`glGenTextures` answers with. -/
inductive gl1.call
  | r_create_texture (format : pxl_format) (filter : filter_mode) (wrap_u wrap_v : wrap_mode)
      (mipmaps width height : Int) (buffer : Nat) (gen : GLuint)
  | r_destroy_texture (handle : texture_handle_t)

/-- Whether the name `glGenTextures` answers with, if the call asks for one, is non-zero. -/
def gl1.call.name_nonzero : gl1.call → Bool
  | .r_create_texture _ _ _ _ _ _ _ _ gen => gen != 0
  | .r_destroy_texture _ => true

/-- The fixed-function backend together with the handles `r_create_texture` has returned and
`r_destroy_texture` has not been given since (most recent first). -/
structure gl1.machine (MAX_TEXTURES : Nat) where
  r : gl1.render_backend MAX_TEXTURES
  live : List texture_handle_t

/-- One call on the fixed-function backend. -/
def gl1.exec {MAX_TEXTURES : Nat} (VITA : Bool) (m : gl1.machine MAX_TEXTURES) :
    gl1.call → Except Fault (gl1.machine MAX_TEXTURES)
  | .r_create_texture format filter wrap_u wrap_v mipmaps width height buffer gen => do
    let (handle, r, _) ←
      gl1.r_create_texture VITA m.r format filter wrap_u wrap_v mipmaps width height buffer gen
    pure { r := r, live := handle :: m.live }
  | .r_destroy_texture handle => do
    let (r, _) ← gl1.r_destroy_texture m.r handle
    pure { r := r, live := m.live.filter (fun h => h != handle) }

/-- A sequence of calls on the fixed-function backend; a fault ends the run. -/
def gl1.run {MAX_TEXTURES : Nat} (VITA : Bool) :
    gl1.machine MAX_TEXTURES → List gl1.call → Except Fault (gl1.machine MAX_TEXTURES)
  | m, [] => .ok m
  | m, c :: cs => do
    let m1 ← gl1.exec VITA m c
    gl1.run VITA m1 cs

/-- A call of the shader backend; a creation carries the name `glGenTextures` answers with. -/
inductive gl2.call
  | r_create_texture (format : pxl_format) (filter : filter_mode) (wrap_u wrap_v : wrap_mode)
      (mipmaps width height : Int) (buffer : Nat) (gen : GLuint)
  | r_destroy_texture (handle : texture_handle_t)
  | r_begin_ta_surfaces (video_width video_height : Int) (verts : Nat) (num_verts : Int)
      (indices : Nat) (num_indices : Int)
  | r_end_ta_surfaces
  | r_draw_ta_surface (surf : ta_surface)
  | r_clear
  | r_viewport (x y width height : Int)

/-- Whether the name `glGenTextures` answers with, if the call asks for one, is non-zero. -/
def gl2.call.name_nonzero : gl2.call → Bool
  | .r_create_texture _ _ _ _ _ _ _ _ gen => gen != 0
  | _ => true

/-- Whether the call is `r_begin_ta_surfaces`. -/
def gl2.call.is_begin : gl2.call → Bool
  | .r_begin_ta_surfaces _ _ _ _ _ _ => true
  | _ => false

/-- The vertex count a call stages: `num_verts` of `r_begin_ta_surfaces`, 0 otherwise. -/
def gl2.call.num_verts : gl2.call → Int
  | .r_begin_ta_surfaces _ _ _ num_verts _ _ => num_verts
  | _ => 0

/-- The index count a call stages: `num_indices` of `r_begin_ta_surfaces`, 0 otherwise. -/
def gl2.call.num_indices : gl2.call → Int
  | .r_begin_ta_surfaces _ _ _ _ _ num_indices => num_indices
  | _ => 0

/-- The sum of `num_verts` over the `r_begin_ta_surfaces` calls of a sequence. -/
def gl2.total_verts (cs : List gl2.call) : Int :=
  (cs.map gl2.call.num_verts).sum

/-- The sum of `num_indices` over the `r_begin_ta_surfaces` calls of a sequence. -/
def gl2.total_indices (cs : List gl2.call) : Int :=
  (cs.map gl2.call.num_indices).sum

/-- The shader backend and the file-scope variables, together with the handles
`r_create_texture` has returned and `r_destroy_texture` has not been given since. -/
structure gl2.machine (MAX_TEXTURES : Nat) where
  r : gl2.render_backend MAX_TEXTURES
  g : gl2.globals
  live : List texture_handle_t

/-- One call on the shader backend. -/
def gl2.exec {MAX_TEXTURES : Nat} (VITA : Bool) (m : gl2.machine MAX_TEXTURES) :
    gl2.call → Except Fault (gl2.machine MAX_TEXTURES)
  | .r_create_texture format filter wrap_u wrap_v mipmaps width height buffer gen => do
    let (handle, r, _) ←
      gl2.r_create_texture VITA m.r format filter wrap_u wrap_v mipmaps width height buffer gen
    pure { m with r := r, live := handle :: m.live }
  | .r_destroy_texture handle => do
    let (r, _) ← gl2.r_destroy_texture m.r handle
    pure { m with r := r, live := m.live.filter (fun h => h != handle) }
  | .r_begin_ta_surfaces video_width video_height verts num_verts indices num_indices =>
    let (r, g, _) :=
      gl2.r_begin_ta_surfaces m.r m.g video_width video_height verts num_verts indices
        num_indices
    pure { m with r := r, g := g }
  | .r_end_ta_surfaces =>
    let (r, g, _) := gl2.r_end_ta_surfaces m.r m.g
    pure { m with r := r, g := g }
  | .r_draw_ta_surface surf => do
    let (g, _) ← gl2.r_draw_ta_surface m.r m.g surf
    pure { m with g := g }
  | .r_clear =>
    let (r, g, _) := gl2.r_clear m.r m.g
    pure { m with r := r, g := g }
  | .r_viewport x y width height =>
    let (r, g, _) := gl2.r_viewport m.r m.g x y width height
    pure { m with r := r, g := g }

/-- A sequence of calls on the shader backend; a fault ends the run. -/
def gl2.run {MAX_TEXTURES : Nat} (VITA : Bool) :
    gl2.machine MAX_TEXTURES → List gl2.call → Except Fault (gl2.machine MAX_TEXTURES)
  | m, [] => .ok m
  | m, c :: cs => do
    let m1 ← gl2.exec VITA m c
    gl2.run VITA m1 cs

/-- The texture-table invariant of a run: the live handles are pairwise distinct, non-zero and
name occupied slots, and slot 0 is free. -/
def live_handles_ok {MAX_TEXTURES : Nat} (textures : Fin MAX_TEXTURES → texture)
    (live : List texture_handle_t) : Prop :=
  live.Nodup
  ∧ (∀ h ∈ live, h ≠ 0 ∧ ∃ hlt : h < MAX_TEXTURES, (textures ⟨h, hlt⟩).texture ≠ 0)
  ∧ (∀ h0 : 0 < MAX_TEXTURES, (textures ⟨0, h0⟩).texture = 0)

/-- Sample answers of the GL library and the allocator to `gl2.r_create`. -/
def gl2.sample_answers : gl2.create_answers :=
  { pixel_texture := 1, white_texture := 2, prog := 1, vertex_shader := 2,
    fragment_shader := 3, loc := fun _ => 0, vertex_buffer := 0x100000,
    index_buffer := 0x4000000, pixels := 0x7000 }

/-- Sample shader blobs. -/
def gl2.sample_blobs : gl2.shader_blobs :=
  { ta_f := 0x9000, ta_v := 0xA000, size_ta_f := 512, size_ta_v := 256 }

/-- A sample sequence on the fixed-function backend: two creations, the destruction of handle
1 and a third creation. -/
def gl1.sample_calls : List gl1.call :=
  [.r_create_texture .PXL_RGBA .FILTER_NEAREST .WRAP_REPEAT .WRAP_REPEAT 0 8 8 0 5,
   .r_create_texture .PXL_RGB565 .FILTER_BILINEAR .WRAP_REPEAT .WRAP_CLAMP_TO_EDGE 1 16 16 0 6,
   .r_destroy_texture 1,
   .r_create_texture .PXL_RGB .FILTER_NEAREST .WRAP_REPEAT .WRAP_REPEAT 0 8 8 0 7]

/-- A sample sequence on the shader backend: two creations, a frame of two staged batches
with a clear, a viewport change and a draw, the destruction of handle 1 and a third
creation. -/
def gl2.sample_calls : List gl2.call :=
  [.r_create_texture .PXL_RGBA .FILTER_NEAREST .WRAP_REPEAT .WRAP_REPEAT 0 8 8 0 5,
   .r_create_texture .PXL_RGB565 .FILTER_BILINEAR .WRAP_REPEAT .WRAP_CLAMP_TO_EDGE 1 16 16 0 6,
   .r_viewport 0 0 640 480,
   .r_clear,
   .r_begin_ta_surfaces 640 480 0x5000 4 0x6000 6,
   .r_draw_ta_surface sample_ta_surface,
   .r_end_ta_surfaces,
   .r_begin_ta_surfaces 640 480 0x5000 3 0x6000 3,
   .r_destroy_texture 1,
   .r_create_texture .PXL_RGB .FILTER_NEAREST .WRAP_REPEAT .WRAP_REPEAT 0 8 8 0 7]

/-! ## The texture table -/

theorem find_open_entry_spec (N : Nat) (t : Fin N → texture) :
    ∀ (fuel handle res : Nat), N ≤ handle + fuel → find_open_entry N t fuel handle = res →
      handle ≤ res ∧ res ≤ max handle N
      ∧ (∀ h : res < N, (t ⟨res, h⟩).texture = 0)
      ∧ (∀ i : Fin N, handle ≤ i.val → i.val < res → (t i).texture ≠ 0) := by
  intro fuel
  induction fuel with
  | zero =>
    intro handle res hf hres
    simp only [find_open_entry] at hres
    subst hres
    refine ⟨le_refl _, le_max_left _ _, ?_, ?_⟩
    · intro h; omega
    · intro i h1 h2; omega
  | succ fuel ih =>
    intro handle res hf hres
    simp only [find_open_entry] at hres
    by_cases hlt : handle < N
    · by_cases hz : (t ⟨handle, hlt⟩).texture = 0
      · simp only [hlt, hz, dite_true, if_true] at hres
        subst hres
        refine ⟨le_refl _, le_max_left _ _, ?_, ?_⟩
        · intro _; exact hz
        · intro i h1 h2; omega
      · simp only [hlt, hz, dite_true, if_false] at hres
        obtain ⟨h1, h2, h3, h4⟩ := ih (handle + 1) res (by omega) hres
        refine ⟨by omega, ?_, h3, ?_⟩
        · rw [max_eq_right (by omega)] at h2
          rw [max_eq_right (by omega)]
          exact h2
        · intro i hi1 hi2
          by_cases hih : i.val = handle
          · have : i = ⟨handle, hlt⟩ := Fin.ext hih
            rw [this]; exact hz
          · exact h4 i (by omega) hi2
    · simp only [hlt, dite_false] at hres
      subst hres
      refine ⟨le_refl _, le_max_left _ _, ?_, ?_⟩
      · intro h; omega
      · intro i h1 h2; omega

/-- The loop does not depend on its fuel once the fuel covers the remaining slots. -/
theorem find_open_entry_fuel (N : Nat) (t : Fin N → texture) :
    ∀ (fuel handle : Nat), N ≤ handle + fuel →
      find_open_entry N t fuel handle = find_open_entry N t (N - handle) handle := by
  intro fuel
  induction fuel with
  | zero =>
    intro handle hf
    have : N - handle = 0 := by omega
    rw [this]
  | succ fuel ih =>
    intro handle hf
    by_cases hlt : handle < N
    · obtain ⟨k, hk⟩ : ∃ k, N - handle = k + 1 := ⟨N - handle - 1, by omega⟩
      rw [hk]
      simp only [find_open_entry, hlt, dite_true]
      by_cases hz : (t ⟨handle, hlt⟩).texture = 0
      · simp only [hz, if_true]
      · simp only [hz, if_false]
        rw [ih (handle + 1) (by omega)]
        have : N - (handle + 1) = k := by omega
        rw [this]
    · have : N - handle = 0 := by omega
      rw [this]
      simp only [find_open_entry, hlt, dite_false]

theorem index_error {α : Type} (t : List α) (i : Int) (e : Fault)
    (h : index t i = .error e) : e = Fault.out_of_bounds := by
  unfold index at h
  split at h
  · cases h; rfl
  · split at h
    · cases h
    · cases h; rfl

/-- With an open entry and a mipmaps flag of 0 or 1, `gl1.r_create_texture` returns the entry
the loop stopped at and writes the generated name there. -/
theorem gl1_r_create_texture_ok {N : Nat} (VITA : Bool) (r : gl1.render_backend N)
    (format : pxl_format) (filter : filter_mode) (wrap_u wrap_v : wrap_mode)
    (mipmaps width height : Int) (buffer : Nat) (gen : GLuint)
    (hm : mipmaps = 0 ∨ mipmaps = 1) (h : find_open_entry N r.textures N 1 < N) :
    ∃ calls, gl1.r_create_texture VITA r format filter wrap_u wrap_v mipmaps width height
        buffer gen
      = .ok (find_open_entry N r.textures N 1,
             { r with
               textures := Function.update r.textures
                             ⟨find_open_entry N r.textures N 1, h⟩ { texture := gen } },
             calls) := by
  unfold gl1.r_create_texture
  simp only [dif_pos h]
  rcases hm with rfl | rfl <;> cases format <;> cases filter <;> cases wrap_u <;>
    cases wrap_v <;> exact ⟨_, rfl⟩

theorem index_ne_check_lt {α : Type} (t : List α) (i : Int) :
    index t i ≠ .error Fault.check_lt := by
  intro h
  cases index_error t i _ h

theorem bind_ne_check_lt {α β : Type} (x : Except Fault α) (f : α → Except Fault β)
    (hx : x ≠ .error Fault.check_lt) (hf : ∀ a, f a ≠ .error Fault.check_lt) :
    (x >>= f) ≠ .error Fault.check_lt := by
  cases x with
  | error e =>
    intro h
    have h1 : (Except.error e : Except Fault β) = .error Fault.check_lt := h
    cases h1
    exact hx rfl
  | ok a => exact hf a

/-- With an open entry, `gl1.r_create_texture` does not fail its `CHECK_LT`. -/
theorem gl1_r_create_texture_no_check {N : Nat} (VITA : Bool) (r : gl1.render_backend N)
    (format : pxl_format) (filter : filter_mode) (wrap_u wrap_v : wrap_mode)
    (mipmaps width height : Int) (buffer : Nat) (gen : GLuint)
    (h : find_open_entry N r.textures N 1 < N) :
    gl1.r_create_texture VITA r format filter wrap_u wrap_v mipmaps width height buffer gen
      ≠ .error Fault.check_lt := by
  unfold gl1.r_create_texture
  simp only [dif_pos h]
  refine bind_ne_check_lt _ _ (index_ne_check_lt _ _) (fun _ => ?_)
  refine bind_ne_check_lt _ _ (index_ne_check_lt _ _) (fun _ => ?_)
  refine bind_ne_check_lt _ _ (index_ne_check_lt _ _) (fun _ => ?_)
  refine bind_ne_check_lt _ _ (index_ne_check_lt _ _) (fun _ => ?_)
  refine bind_ne_check_lt _ _ (index_ne_check_lt _ _) (fun _ => ?_)
  refine bind_ne_check_lt _ _ (index_ne_check_lt _ _) (fun _ => ?_)
  intro hc
  cases hc

/-- Without an open entry, `gl1.r_create_texture` fails its `CHECK_LT`. -/
theorem gl1_r_create_texture_check {N : Nat} (VITA : Bool) (r : gl1.render_backend N)
    (format : pxl_format) (filter : filter_mode) (wrap_u wrap_v : wrap_mode)
    (mipmaps width height : Int) (buffer : Nat) (gen : GLuint)
    (h : ¬ find_open_entry N r.textures N 1 < N) :
    gl1.r_create_texture VITA r format filter wrap_u wrap_v mipmaps width height buffer gen
      = .error Fault.check_lt := by
  unfold gl1.r_create_texture
  simp only [dif_neg h]

/-- With an open entry and a mipmaps flag of 0 or 1, `gl2.r_create_texture` returns the entry
the loop stopped at and writes the generated name there. -/
theorem gl2_r_create_texture_ok {N : Nat} (VITA : Bool) (r : gl2.render_backend N)
    (format : pxl_format) (filter : filter_mode) (wrap_u wrap_v : wrap_mode)
    (mipmaps width height : Int) (buffer : Nat) (gen : GLuint)
    (hm : mipmaps = 0 ∨ mipmaps = 1) (h : find_open_entry N r.textures N 1 < N) :
    ∃ calls, gl2.r_create_texture VITA r format filter wrap_u wrap_v mipmaps width height
        buffer gen
      = .ok (find_open_entry N r.textures N 1,
             { r with
               textures := Function.update r.textures
                             ⟨find_open_entry N r.textures N 1, h⟩ { texture := gen } },
             calls) := by
  unfold gl2.r_create_texture
  simp only [dif_pos h]
  rcases hm with rfl | rfl <;> cases format <;> cases filter <;> cases wrap_u <;>
    cases wrap_v <;> exact ⟨_, rfl⟩

/-- With an open entry, `gl2.r_create_texture` does not fail its `CHECK_LT`. -/
theorem gl2_r_create_texture_no_check {N : Nat} (VITA : Bool) (r : gl2.render_backend N)
    (format : pxl_format) (filter : filter_mode) (wrap_u wrap_v : wrap_mode)
    (mipmaps width height : Int) (buffer : Nat) (gen : GLuint)
    (h : find_open_entry N r.textures N 1 < N) :
    gl2.r_create_texture VITA r format filter wrap_u wrap_v mipmaps width height buffer gen
      ≠ .error Fault.check_lt := by
  unfold gl2.r_create_texture
  simp only [dif_pos h]
  refine bind_ne_check_lt _ _ (index_ne_check_lt _ _) (fun _ => ?_)
  refine bind_ne_check_lt _ _ (index_ne_check_lt _ _) (fun _ => ?_)
  refine bind_ne_check_lt _ _ (index_ne_check_lt _ _) (fun _ => ?_)
  refine bind_ne_check_lt _ _ (index_ne_check_lt _ _) (fun _ => ?_)
  refine bind_ne_check_lt _ _ (index_ne_check_lt _ _) (fun _ => ?_)
  refine bind_ne_check_lt _ _ (index_ne_check_lt _ _) (fun _ => ?_)
  intro hc
  cases hc

/-- Without an open entry, `gl2.r_create_texture` fails its `CHECK_LT`. -/
theorem gl2_r_create_texture_check {N : Nat} (VITA : Bool) (r : gl2.render_backend N)
    (format : pxl_format) (filter : filter_mode) (wrap_u wrap_v : wrap_mode)
    (mipmaps width height : Int) (buffer : Nat) (gen : GLuint)
    (h : ¬ find_open_entry N r.textures N 1 < N) :
    gl2.r_create_texture VITA r format filter wrap_u wrap_v mipmaps width height buffer gen
      = .error Fault.check_lt := by
  unfold gl2.r_create_texture
  simp only [dif_neg h]

/-- The loop started at 1 stops below `N` exactly when some entry from 1 on is open. -/
theorem find_open_entry_lt_iff (N : Nat) (t : Fin N → texture) :
    find_open_entry N t N 1 < N ↔ ∃ i : Fin N, 1 ≤ i.val ∧ (t i).texture = 0 := by
  obtain ⟨h1, _, h3, h4⟩ := find_open_entry_spec N t N 1 _ (by omega) rfl
  constructor
  · intro h
    exact ⟨⟨_, h⟩, h1, h3 h⟩
  · rintro ⟨i, hi1, hi0⟩
    by_contra hge
    have hge1 : N ≤ find_open_entry N t N 1 := Nat.le_of_not_lt hge
    have hi2 : i.val < find_open_entry N t N 1 := Nat.lt_of_lt_of_le i.isLt hge1
    exact h4 i hi1 hi2 hi0

theorem bind_eq_ok {α β : Type} (x : Except Fault α) (f : α → Except Fault β) (b : β)
    (h : (x >>= f) = .ok b) : ∃ a, x = .ok a ∧ f a = .ok b := by
  cases x with
  | error e =>
    have h1 : (Except.error e : Except Fault β) = .ok b := h
    cases h1
  | ok a => exact ⟨a, rfl, h⟩

/-- Whatever `gl1.r_create_texture` returns is the entry the loop stopped at, below `N`, with
the generated name written there. -/
theorem gl1_r_create_texture_inv {N : Nat} (VITA : Bool) (r : gl1.render_backend N)
    (format : pxl_format) (filter : filter_mode) (wrap_u wrap_v : wrap_mode)
    (mipmaps width height : Int) (buffer : Nat) (gen : GLuint)
    (handle : texture_handle_t) (r1 : gl1.render_backend N) (calls : List GLCall)
    (hok : gl1.r_create_texture VITA r format filter wrap_u wrap_v mipmaps width height buffer
      gen = .ok (handle, r1, calls)) :
    handle = find_open_entry N r.textures N 1
    ∧ ∃ h : find_open_entry N r.textures N 1 < N,
        r1 = { r with
               textures := Function.update r.textures
                             ⟨find_open_entry N r.textures N 1, h⟩ { texture := gen } } := by
  by_cases h : find_open_entry N r.textures N 1 < N
  · unfold gl1.r_create_texture at hok
    simp only [dif_pos h] at hok
    obtain ⟨_, _, hok⟩ := bind_eq_ok _ _ _ hok
    obtain ⟨_, _, hok⟩ := bind_eq_ok _ _ _ hok
    obtain ⟨_, _, hok⟩ := bind_eq_ok _ _ _ hok
    obtain ⟨_, _, hok⟩ := bind_eq_ok _ _ _ hok
    obtain ⟨_, _, hok⟩ := bind_eq_ok _ _ _ hok
    obtain ⟨_, _, hok⟩ := bind_eq_ok _ _ _ hok
    have hp := Except.ok.inj hok
    have h1 := (Prod.mk.inj hp).1
    have h2 := (Prod.mk.inj (Prod.mk.inj hp).2).1
    exact ⟨h1.symm, h, h2.symm⟩
  · rw [gl1_r_create_texture_check VITA r format filter wrap_u wrap_v mipmaps width height buffer
      gen h] at hok
    cases hok
/-- Whatever `gl2.r_create_texture` returns is the entry the loop stopped at, below `N`, with
the generated name written there. -/
theorem gl2_r_create_texture_inv {N : Nat} (VITA : Bool) (r : gl2.render_backend N)
    (format : pxl_format) (filter : filter_mode) (wrap_u wrap_v : wrap_mode)
    (mipmaps width height : Int) (buffer : Nat) (gen : GLuint)
    (handle : texture_handle_t) (r1 : gl2.render_backend N) (calls : List GLCall)
    (hok : gl2.r_create_texture VITA r format filter wrap_u wrap_v mipmaps width height buffer
      gen = .ok (handle, r1, calls)) :
    handle = find_open_entry N r.textures N 1
    ∧ ∃ h : find_open_entry N r.textures N 1 < N,
        r1 = { r with
               textures := Function.update r.textures
                             ⟨find_open_entry N r.textures N 1, h⟩ { texture := gen } } := by
  by_cases h : find_open_entry N r.textures N 1 < N
  · unfold gl2.r_create_texture at hok
    simp only [dif_pos h] at hok
    obtain ⟨_, _, hok⟩ := bind_eq_ok _ _ _ hok
    obtain ⟨_, _, hok⟩ := bind_eq_ok _ _ _ hok
    obtain ⟨_, _, hok⟩ := bind_eq_ok _ _ _ hok
    obtain ⟨_, _, hok⟩ := bind_eq_ok _ _ _ hok
    obtain ⟨_, _, hok⟩ := bind_eq_ok _ _ _ hok
    obtain ⟨_, _, hok⟩ := bind_eq_ok _ _ _ hok
    have hp := Except.ok.inj hok
    have h1 := (Prod.mk.inj hp).1
    have h2 := (Prod.mk.inj (Prod.mk.inj hp).2).1
    exact ⟨h1.symm, h, h2.symm⟩
  · rw [gl2_r_create_texture_check VITA r format filter wrap_u wrap_v mipmaps width height buffer
      gen h] at hok
    cases hok

/-- On a table with an open entry from 1 on, the entry the loop stops at is the smallest open
one, and it is not 0. -/
theorem find_open_entry_least (N : Nat) (t : Fin N → texture)
    (hfree : ∃ i : Fin N, 1 ≤ i.val ∧ (t i).texture = 0) :
    ∃ h : find_open_entry N t N 1 < N,
      1 ≤ find_open_entry N t N 1
      ∧ (t ⟨find_open_entry N t N 1, h⟩).texture = 0
      ∧ ∀ i : Fin N, 1 ≤ i.val → (t i).texture = 0 → find_open_entry N t N 1 ≤ i.val := by
  have h := (find_open_entry_lt_iff N t).2 hfree
  obtain ⟨h1, _, h3, h4⟩ := find_open_entry_spec N t N 1 _ (by omega) rfl
  refine ⟨h, h1, h3 h, ?_⟩
  intro i hi1 hi0
  by_contra hlt
  exact h4 i hi1 (Nat.lt_of_not_le hlt) hi0

/-! ## Claims on texture creation and destruction -/

/-- C1: in both backends, on a texture table with a free slot in `1..MAX_TEXTURES-1`, with a
non-zero name from `glGenTextures` (and a mipmaps flag of 0 or 1), `r_create_texture` returns
the smallest free slot from 1 on; the handle is not 0 and lies in `1..MAX_TEXTURES-1`; after
the call that slot holds the non-zero name and every other slot is unchanged. -/
theorem C1_create_texture_least_free {N : Nat} (VITA : Bool)
    (r1 : gl1.render_backend N) (r2 : gl2.render_backend N)
    (format : pxl_format) (filter : filter_mode) (wrap_u wrap_v : wrap_mode)
    (mipmaps width height : Int) (buffer : Nat) (gen : GLuint)
    (hgen : gen ≠ 0) (hm : mipmaps = 0 ∨ mipmaps = 1)
    (hfree1 : ∃ i : Fin N, 1 ≤ i.val ∧ (r1.textures i).texture = 0)
    (hfree2 : ∃ i : Fin N, 1 ≤ i.val ∧ (r2.textures i).texture = 0) :
    (∃ handle r' calls,
        gl1.r_create_texture VITA r1 format filter wrap_u wrap_v mipmaps width height buffer gen
          = .ok (handle, r', calls)
        ∧ handle ≠ 0 ∧ 1 ≤ handle ∧ handle < N
        ∧ (∀ i : Fin N, i.val = handle →
            (r1.textures i).texture = 0 ∧ (r'.textures i).texture ≠ 0)
        ∧ (∀ i : Fin N, 1 ≤ i.val → (r1.textures i).texture = 0 → handle ≤ i.val)
        ∧ (∀ i : Fin N, i.val ≠ handle → r'.textures i = r1.textures i))
    ∧ (∃ handle r' calls,
        gl2.r_create_texture VITA r2 format filter wrap_u wrap_v mipmaps width height buffer gen
          = .ok (handle, r', calls)
        ∧ handle ≠ 0 ∧ 1 ≤ handle ∧ handle < N
        ∧ (∀ i : Fin N, i.val = handle →
            (r2.textures i).texture = 0 ∧ (r'.textures i).texture ≠ 0)
        ∧ (∀ i : Fin N, 1 ≤ i.val → (r2.textures i).texture = 0 → handle ≤ i.val)
        ∧ (∀ i : Fin N, i.val ≠ handle → r'.textures i = r2.textures i)) := by
  constructor
  · obtain ⟨h, h1, h0, hleast⟩ := find_open_entry_least N r1.textures hfree1
    obtain ⟨calls, hok⟩ := gl1_r_create_texture_ok VITA r1 format filter wrap_u wrap_v mipmaps
      width height buffer gen hm h
    refine ⟨_, _, calls, hok, Nat.ne_of_gt h1, h1, h, ?_, hleast, ?_⟩
    · intro i hi
      have hi2 : i = ⟨find_open_entry N r1.textures N 1, h⟩ := Fin.ext hi
      subst hi2
      refine ⟨h0, ?_⟩
      simp only [Function.update_same]
      exact hgen
    · intro i hi
      have hi2 : i ≠ ⟨find_open_entry N r1.textures N 1, h⟩ := fun e => hi (congrArg Fin.val e)
      simp only [Function.update_noteq hi2]
  · obtain ⟨h, h1, h0, hleast⟩ := find_open_entry_least N r2.textures hfree2
    obtain ⟨calls, hok⟩ := gl2_r_create_texture_ok VITA r2 format filter wrap_u wrap_v mipmaps
      width height buffer gen hm h
    refine ⟨_, _, calls, hok, Nat.ne_of_gt h1, h1, h, ?_, hleast, ?_⟩
    · intro i hi
      have hi2 : i = ⟨find_open_entry N r2.textures N 1, h⟩ := Fin.ext hi
      subst hi2
      refine ⟨h0, ?_⟩
      simp only [Function.update_same]
      exact hgen
    · intro i hi
      have hi2 : i ≠ ⟨find_open_entry N r2.textures N 1, h⟩ := fun e => hi (congrArg Fin.val e)
      simp only [Function.update_noteq hi2]

/-- C1 at the sample tables (slots 1 and 3 occupied, 0 and 2 free), generated name 5. -/
theorem C1_create_texture_least_free_witness :
    (∃ handle r' calls,
        gl1.r_create_texture false gl1.sample_backend pxl_format.PXL_RGBA
            filter_mode.FILTER_BILINEAR wrap_mode.WRAP_REPEAT wrap_mode.WRAP_CLAMP_TO_EDGE
            1 64 64 0 5
          = .ok (handle, r', calls)
        ∧ handle ≠ 0 ∧ 1 ≤ handle ∧ handle < 4
        ∧ (∀ i : Fin 4, i.val = handle →
            (gl1.sample_backend.textures i).texture = 0 ∧ (r'.textures i).texture ≠ 0)
        ∧ (∀ i : Fin 4, 1 ≤ i.val → (gl1.sample_backend.textures i).texture = 0 →
            handle ≤ i.val)
        ∧ (∀ i : Fin 4, i.val ≠ handle → r'.textures i = gl1.sample_backend.textures i))
    ∧ (∃ handle r' calls,
        gl2.r_create_texture false gl2.sample_backend pxl_format.PXL_RGBA
            filter_mode.FILTER_BILINEAR wrap_mode.WRAP_REPEAT wrap_mode.WRAP_CLAMP_TO_EDGE
            1 64 64 0 5
          = .ok (handle, r', calls)
        ∧ handle ≠ 0 ∧ 1 ≤ handle ∧ handle < 4
        ∧ (∀ i : Fin 4, i.val = handle →
            (gl2.sample_backend.textures i).texture = 0 ∧ (r'.textures i).texture ≠ 0)
        ∧ (∀ i : Fin 4, 1 ≤ i.val → (gl2.sample_backend.textures i).texture = 0 →
            handle ≤ i.val)
        ∧ (∀ i : Fin 4, i.val ≠ handle → r'.textures i = gl2.sample_backend.textures i)) :=
  C1_create_texture_least_free false gl1.sample_backend gl2.sample_backend pxl_format.PXL_RGBA
    filter_mode.FILTER_BILINEAR wrap_mode.WRAP_REPEAT wrap_mode.WRAP_CLAMP_TO_EDGE 1 64 64 0 5
    (by decide) (by decide) ⟨2, by decide, by decide⟩ ⟨2, by decide, by decide⟩

/-- C2: in both backends `r_create_texture` fails its `CHECK_LT(handle, MAX_TEXTURES)` (the
run aborts: no handle, no new table) exactly when every slot `1..MAX_TEXTURES-1` is occupied;
slot 0 plays no part in that, and a call that returns hands out a handle in
`1..MAX_TEXTURES-1`, so at most `MAX_TEXTURES-1` textures are live. -/
theorem C2_create_texture_check_iff_full {N : Nat} (VITA : Bool)
    (r1 : gl1.render_backend N) (r2 : gl2.render_backend N)
    (format : pxl_format) (filter : filter_mode) (wrap_u wrap_v : wrap_mode)
    (mipmaps width height : Int) (buffer : Nat) (gen : GLuint) :
    (gl1.r_create_texture VITA r1 format filter wrap_u wrap_v mipmaps width height buffer gen
        = .error Fault.check_lt
      ↔ ∀ i : Fin N, 1 ≤ i.val → (r1.textures i).texture ≠ 0)
    ∧ (gl2.r_create_texture VITA r2 format filter wrap_u wrap_v mipmaps width height buffer gen
        = .error Fault.check_lt
      ↔ ∀ i : Fin N, 1 ≤ i.val → (r2.textures i).texture ≠ 0)
    ∧ (∀ handle r' calls,
        gl1.r_create_texture VITA r1 format filter wrap_u wrap_v mipmaps width height buffer gen
          = .ok (handle, r', calls) → 1 ≤ handle ∧ handle < N)
    ∧ (∀ handle r' calls,
        gl2.r_create_texture VITA r2 format filter wrap_u wrap_v mipmaps width height buffer gen
          = .ok (handle, r', calls) → 1 ≤ handle ∧ handle < N) := by
  refine ⟨?_, ?_, ?_, ?_⟩
  · constructor
    · intro herr i hi1 hi0
      exact gl1_r_create_texture_no_check VITA r1 format filter wrap_u wrap_v mipmaps width
        height buffer gen ((find_open_entry_lt_iff N r1.textures).2 ⟨i, hi1, hi0⟩) herr
    · intro hfull
      apply gl1_r_create_texture_check
      intro hlt
      obtain ⟨i, hi1, hi0⟩ := (find_open_entry_lt_iff N r1.textures).1 hlt
      exact hfull i hi1 hi0
  · constructor
    · intro herr i hi1 hi0
      exact gl2_r_create_texture_no_check VITA r2 format filter wrap_u wrap_v mipmaps width
        height buffer gen ((find_open_entry_lt_iff N r2.textures).2 ⟨i, hi1, hi0⟩) herr
    · intro hfull
      apply gl2_r_create_texture_check
      intro hlt
      obtain ⟨i, hi1, hi0⟩ := (find_open_entry_lt_iff N r2.textures).1 hlt
      exact hfull i hi1 hi0
  · intro handle r' calls hok
    obtain ⟨hh, h, _⟩ := gl1_r_create_texture_inv VITA r1 format filter wrap_u wrap_v mipmaps
      width height buffer gen handle r' calls hok
    obtain ⟨h1, _, _, _⟩ := find_open_entry_spec N r1.textures N 1 _ (by omega) rfl
    subst hh
    exact ⟨h1, h⟩
  · intro handle r' calls hok
    obtain ⟨hh, h, _⟩ := gl2_r_create_texture_inv VITA r2 format filter wrap_u wrap_v mipmaps
      width height buffer gen handle r' calls hok
    obtain ⟨h1, _, _, _⟩ := find_open_entry_spec N r2.textures N 1 _ (by omega) rfl
    subst hh
    exact ⟨h1, h⟩

/-- C2 at two tables: with slots 1..3 occupied and slot 0 free the call aborts in both
backends; with slot 2 free it returns handle 2, inside `1..3`. -/
theorem C2_create_texture_check_iff_full_witness :
    gl1.r_create_texture false gl1.full_backend pxl_format.PXL_RGB filter_mode.FILTER_NEAREST
        wrap_mode.WRAP_REPEAT wrap_mode.WRAP_REPEAT 0 8 8 0 5 = .error Fault.check_lt
    ∧ gl2.r_create_texture false gl2.full_backend pxl_format.PXL_RGB filter_mode.FILTER_NEAREST
        wrap_mode.WRAP_REPEAT wrap_mode.WRAP_REPEAT 0 8 8 0 5 = .error Fault.check_lt
    ∧ (∃ r' calls,
        gl1.r_create_texture false gl1.sample_backend pxl_format.PXL_RGB
            filter_mode.FILTER_NEAREST wrap_mode.WRAP_REPEAT wrap_mode.WRAP_REPEAT 0 8 8 0 5
          = .ok (2, r', calls))
    ∧ (1 ≤ 2 ∧ 2 < 4) :=
  ⟨(C2_create_texture_check_iff_full false gl1.full_backend gl2.full_backend pxl_format.PXL_RGB
      filter_mode.FILTER_NEAREST wrap_mode.WRAP_REPEAT wrap_mode.WRAP_REPEAT 0 8 8 0 5).1.2
      (by decide),
   (C2_create_texture_check_iff_full false gl1.full_backend gl2.full_backend pxl_format.PXL_RGB
      filter_mode.FILTER_NEAREST wrap_mode.WRAP_REPEAT wrap_mode.WRAP_REPEAT 0 8 8 0 5).2.1.2
      (by decide),
   ⟨_, _, rfl⟩,
   (C2_create_texture_check_iff_full false gl1.sample_backend gl2.sample_backend
      pxl_format.PXL_RGB filter_mode.FILTER_NEAREST wrap_mode.WRAP_REPEAT wrap_mode.WRAP_REPEAT
      0 8 8 0 5).2.2.1 2 _ _ rfl⟩

/-- What `gl1.r_destroy_texture` returns for a handle in `1..N-1`. -/
theorem gl1_r_destroy_texture_eq {N : Nat} (r : gl1.render_backend N) (h : Nat) (h1 : 1 ≤ h)
    (hN : h < N) :
    gl1.r_destroy_texture r h
      = .ok ({ r with textures := Function.update r.textures ⟨h, hN⟩ { texture := 0 } },
             [GLCall.glDeleteTextures 1 (r.textures ⟨h, hN⟩).texture]) := by
  have h0 : h ≠ 0 := Nat.ne_of_gt h1
  simp only [gl1.r_destroy_texture, if_neg h0, dif_pos hN]

/-- What `gl2.r_destroy_texture` returns for a handle in `1..N-1`. -/
theorem gl2_r_destroy_texture_eq {N : Nat} (r : gl2.render_backend N) (h : Nat) (h1 : 1 ≤ h)
    (hN : h < N) :
    gl2.r_destroy_texture r h
      = .ok ({ r with textures := Function.update r.textures ⟨h, hN⟩ { texture := 0 } },
             [GLCall.glDeleteTextures 1 (r.textures ⟨h, hN⟩).texture]) := by
  have h0 : h ≠ 0 := Nat.ne_of_gt h1
  simp only [gl2.r_destroy_texture, if_neg h0, dif_pos hN]

/-- C3: in both backends `r_destroy_texture` with handle 0 leaves the backend as it is (and
calls nothing); with a handle `h` in `1..MAX_TEXTURES-1` it returns, slot `h` is free
afterwards, every other slot and every other field of the backend is unchanged. -/
theorem C3_destroy_texture_frame {N : Nat} (r1 : gl1.render_backend N)
    (r2 : gl2.render_backend N) :
    gl1.r_destroy_texture r1 0 = .ok (r1, [])
    ∧ gl2.r_destroy_texture r2 0 = .ok (r2, [])
    ∧ (∀ h : Nat, 1 ≤ h → h < N →
        ∃ r' calls, gl1.r_destroy_texture r1 h = .ok (r', calls)
          ∧ (∀ i : Fin N, i.val = h → (r'.textures i).texture = 0)
          ∧ (∀ i : Fin N, i.val ≠ h → r'.textures i = r1.textures i)
          ∧ r'.host = r1.host ∧ r'.width = r1.width ∧ r'.height = r1.height
          ∧ r'.viewport = r1.viewport ∧ r'.white_texture = r1.white_texture
          ∧ r'.pixel_fbo = r1.pixel_fbo ∧ r'.pixel_texture = r1.pixel_texture
          ∧ r'.ui_use_index = r1.ui_use_index ∧ r'.indices = r1.indices
          ∧ r'.uniform_token = r1.uniform_token
          ∧ r'.uniform_video_scale = r1.uniform_video_scale)
    ∧ (∀ h : Nat, 1 ≤ h → h < N →
        ∃ r' calls, gl2.r_destroy_texture r2 h = .ok (r', calls)
          ∧ (∀ i : Fin N, i.val = h → (r'.textures i).texture = 0)
          ∧ (∀ i : Fin N, i.val ≠ h → r'.textures i = r2.textures i)
          ∧ r'.host = r2.host ∧ r'.width = r2.width ∧ r'.height = r2.height
          ∧ r'.viewport = r2.viewport ∧ r'.white_texture = r2.white_texture
          ∧ r'.ta_program = r2.ta_program
          ∧ r'.pixel_fbo = r2.pixel_fbo ∧ r'.pixel_texture = r2.pixel_texture
          ∧ r'.uniform_token = r2.uniform_token
          ∧ r'.uniform_video_scale = r2.uniform_video_scale) := by
  refine ⟨by simp [gl1.r_destroy_texture], by simp [gl2.r_destroy_texture], ?_, ?_⟩
  · intro h h1 hN
    refine ⟨_, _, gl1_r_destroy_texture_eq r1 h h1 hN, ?_, ?_,
      rfl, rfl, rfl, rfl, rfl, rfl, rfl, rfl, rfl, rfl, rfl⟩
    · intro i hi
      have hi2 : i = ⟨h, hN⟩ := Fin.ext hi
      subst hi2
      simp only [Function.update_same]
    · intro i hi
      have hi2 : i ≠ ⟨h, hN⟩ := fun e => hi (congrArg Fin.val e)
      simp only [Function.update_noteq hi2]
  · intro h h1 hN
    refine ⟨_, _, gl2_r_destroy_texture_eq r2 h h1 hN, ?_, ?_,
      rfl, rfl, rfl, rfl, rfl, rfl, rfl, rfl, rfl, rfl⟩
    · intro i hi
      have hi2 : i = ⟨h, hN⟩ := Fin.ext hi
      subst hi2
      simp only [Function.update_same]
    · intro i hi
      have hi2 : i ≠ ⟨h, hN⟩ := fun e => hi (congrArg Fin.val e)
      simp only [Function.update_noteq hi2]

/-- C3 at the sample backends, destroying the texture in slot 3. -/
theorem C3_destroy_texture_frame_witness :
    (∃ r' calls, gl1.r_destroy_texture gl1.sample_backend 3 = .ok (r', calls)
      ∧ (∀ i : Fin 4, i.val = 3 → (r'.textures i).texture = 0)
      ∧ (∀ i : Fin 4, i.val ≠ 3 → r'.textures i = gl1.sample_backend.textures i)
      ∧ r'.host = gl1.sample_backend.host ∧ r'.width = gl1.sample_backend.width
      ∧ r'.height = gl1.sample_backend.height ∧ r'.viewport = gl1.sample_backend.viewport
      ∧ r'.white_texture = gl1.sample_backend.white_texture
      ∧ r'.pixel_fbo = gl1.sample_backend.pixel_fbo
      ∧ r'.pixel_texture = gl1.sample_backend.pixel_texture
      ∧ r'.ui_use_index = gl1.sample_backend.ui_use_index
      ∧ r'.indices = gl1.sample_backend.indices
      ∧ r'.uniform_token = gl1.sample_backend.uniform_token
      ∧ r'.uniform_video_scale = gl1.sample_backend.uniform_video_scale)
    ∧ (∃ r' calls, gl2.r_destroy_texture gl2.sample_backend 3 = .ok (r', calls)
      ∧ (∀ i : Fin 4, i.val = 3 → (r'.textures i).texture = 0)
      ∧ (∀ i : Fin 4, i.val ≠ 3 → r'.textures i = gl2.sample_backend.textures i)
      ∧ r'.host = gl2.sample_backend.host ∧ r'.width = gl2.sample_backend.width
      ∧ r'.height = gl2.sample_backend.height ∧ r'.viewport = gl2.sample_backend.viewport
      ∧ r'.white_texture = gl2.sample_backend.white_texture
      ∧ r'.ta_program = gl2.sample_backend.ta_program
      ∧ r'.pixel_fbo = gl2.sample_backend.pixel_fbo
      ∧ r'.pixel_texture = gl2.sample_backend.pixel_texture
      ∧ r'.uniform_token = gl2.sample_backend.uniform_token
      ∧ r'.uniform_video_scale = gl2.sample_backend.uniform_video_scale) :=
  ⟨(C3_destroy_texture_frame gl1.sample_backend gl2.sample_backend).2.2.1 3
      (by decide) (by decide),
   (C3_destroy_texture_frame gl1.sample_backend gl2.sample_backend).2.2.2 3
      (by decide) (by decide)⟩

/-- Writing a name into a free entry and then clearing the entry gives the table back. -/
theorem update_free_then_clear {N : Nat} (t : Fin N → texture) (k : Fin N) (gen : GLuint)
    (hk : (t k).texture = 0) :
    Function.update (Function.update t k { texture := gen }) k { texture := 0 } = t := by
  rw [Function.update_idem]
  have : ({ texture := 0 } : texture) = t k := by
    cases htk : t k with
    | mk v => rw [htk] at hk; simp only at hk; rw [hk]
  rw [this, Function.update_eq_self]

/-- Destroying in `gl1` the handle of an entry that was free before a name was written there
gives the backend back. -/
theorem gl1_destroy_after_create {N : Nat} (r : gl1.render_backend N) (k : Fin N)
    (hk1 : 1 ≤ k.val) (h0 : (r.textures k).texture = 0) (gen : GLuint) :
    gl1.r_destroy_texture { r with textures := Function.update r.textures k { texture := gen } }
        k.val
      = .ok (r, [GLCall.glDeleteTextures 1 gen]) := by
  rw [gl1_r_destroy_texture_eq _ k.val hk1 k.isLt]
  cases r
  simp only [Fin.eta, Function.update_same]
  rw [update_free_then_clear _ k gen h0]

/-- Create then destroy in `gl1`: the backend is as before and the next creation returns the
same handle. -/
theorem gl1_create_destroy_create {N : Nat} (VITA : Bool) (r : gl1.render_backend N)
    (format format' : pxl_format) (filter filter' : filter_mode)
    (wrap_u wrap_v wrap_u' wrap_v' : wrap_mode)
    (mipmaps width height mipmaps' width' height' : Int) (buffer buffer' : Nat)
    (gen gen' : GLuint)
    (hm : mipmaps = 0 ∨ mipmaps = 1) (hm' : mipmaps' = 0 ∨ mipmaps' = 1)
    (hfree : ∃ i : Fin N, 1 ≤ i.val ∧ (r.textures i).texture = 0) :
    ∃ handle ra ca rb cb,
      gl1.r_create_texture VITA r format filter wrap_u wrap_v mipmaps width height buffer gen
        = .ok (handle, ra, ca)
      ∧ gl1.r_destroy_texture ra handle = .ok (rb, cb)
      ∧ rb = r
      ∧ ∃ rc cc,
          gl1.r_create_texture VITA rb format' filter' wrap_u' wrap_v' mipmaps' width' height'
            buffer' gen' = .ok (handle, rc, cc) := by
  obtain ⟨h, h1, h0, _⟩ := find_open_entry_least N r.textures hfree
  obtain ⟨ca, hok⟩ := gl1_r_create_texture_ok VITA r format filter wrap_u wrap_v mipmaps
    width height buffer gen hm h
  obtain ⟨cc, hok'⟩ := gl1_r_create_texture_ok VITA r format' filter' wrap_u' wrap_v' mipmaps'
    width' height' buffer' gen' hm' h
  have hd := gl1_destroy_after_create r ⟨find_open_entry N r.textures N 1, h⟩ h1 h0 gen
  exact ⟨_, _, ca, r, _, hok, hd, rfl, _, cc, hok'⟩

/-- Destroying in `gl2` the handle of an entry that was free before a name was written there
gives the backend back. -/
theorem gl2_destroy_after_create {N : Nat} (r : gl2.render_backend N) (k : Fin N)
    (hk1 : 1 ≤ k.val) (h0 : (r.textures k).texture = 0) (gen : GLuint) :
    gl2.r_destroy_texture { r with textures := Function.update r.textures k { texture := gen } }
        k.val
      = .ok (r, [GLCall.glDeleteTextures 1 gen]) := by
  rw [gl2_r_destroy_texture_eq _ k.val hk1 k.isLt]
  cases r
  simp only [Fin.eta, Function.update_same]
  rw [update_free_then_clear _ k gen h0]

/-- Create then destroy in `gl2`: the backend is as before and the next creation returns the
same handle. -/
theorem gl2_create_destroy_create {N : Nat} (VITA : Bool) (r : gl2.render_backend N)
    (format format' : pxl_format) (filter filter' : filter_mode)
    (wrap_u wrap_v wrap_u' wrap_v' : wrap_mode)
    (mipmaps width height mipmaps' width' height' : Int) (buffer buffer' : Nat)
    (gen gen' : GLuint)
    (hm : mipmaps = 0 ∨ mipmaps = 1) (hm' : mipmaps' = 0 ∨ mipmaps' = 1)
    (hfree : ∃ i : Fin N, 1 ≤ i.val ∧ (r.textures i).texture = 0) :
    ∃ handle ra ca rb cb,
      gl2.r_create_texture VITA r format filter wrap_u wrap_v mipmaps width height buffer gen
        = .ok (handle, ra, ca)
      ∧ gl2.r_destroy_texture ra handle = .ok (rb, cb)
      ∧ rb = r
      ∧ ∃ rc cc,
          gl2.r_create_texture VITA rb format' filter' wrap_u' wrap_v' mipmaps' width' height'
            buffer' gen' = .ok (handle, rc, cc) := by
  obtain ⟨h, h1, h0, _⟩ := find_open_entry_least N r.textures hfree
  obtain ⟨ca, hok⟩ := gl2_r_create_texture_ok VITA r format filter wrap_u wrap_v mipmaps
    width height buffer gen hm h
  obtain ⟨cc, hok'⟩ := gl2_r_create_texture_ok VITA r format' filter' wrap_u' wrap_v' mipmaps'
    width' height' buffer' gen' hm' h
  have hd := gl2_destroy_after_create r ⟨find_open_entry N r.textures N 1, h⟩ h1 h0 gen
  exact ⟨_, _, ca, r, _, hok, hd, rfl, _, cc, hok'⟩

/-- C4: in both backends, on a table with a free slot in `1..MAX_TEXTURES-1`, creating a
texture and destroying the handle returned gives back the set of occupied slots (indeed the
whole backend), and the creation that follows returns the same handle again. -/
theorem C4_create_destroy_round_trip {N : Nat} (VITA : Bool)
    (r1 : gl1.render_backend N) (r2 : gl2.render_backend N)
    (format format' : pxl_format) (filter filter' : filter_mode)
    (wrap_u wrap_v wrap_u' wrap_v' : wrap_mode)
    (mipmaps width height mipmaps' width' height' : Int) (buffer buffer' : Nat)
    (gen gen' : GLuint)
    (hm : mipmaps = 0 ∨ mipmaps = 1) (hm' : mipmaps' = 0 ∨ mipmaps' = 1)
    (hfree1 : ∃ i : Fin N, 1 ≤ i.val ∧ (r1.textures i).texture = 0)
    (hfree2 : ∃ i : Fin N, 1 ≤ i.val ∧ (r2.textures i).texture = 0) :
    (∃ handle ra ca rb cb,
      gl1.r_create_texture VITA r1 format filter wrap_u wrap_v mipmaps width height buffer gen
        = .ok (handle, ra, ca)
      ∧ gl1.r_destroy_texture ra handle = .ok (rb, cb)
      ∧ (∀ i : Fin N, (rb.textures i).texture ≠ 0 ↔ (r1.textures i).texture ≠ 0)
      ∧ rb = r1
      ∧ ∃ rc cc,
          gl1.r_create_texture VITA rb format' filter' wrap_u' wrap_v' mipmaps' width' height'
            buffer' gen' = .ok (handle, rc, cc))
    ∧ (∃ handle ra ca rb cb,
      gl2.r_create_texture VITA r2 format filter wrap_u wrap_v mipmaps width height buffer gen
        = .ok (handle, ra, ca)
      ∧ gl2.r_destroy_texture ra handle = .ok (rb, cb)
      ∧ (∀ i : Fin N, (rb.textures i).texture ≠ 0 ↔ (r2.textures i).texture ≠ 0)
      ∧ rb = r2
      ∧ ∃ rc cc,
          gl2.r_create_texture VITA rb format' filter' wrap_u' wrap_v' mipmaps' width' height'
            buffer' gen' = .ok (handle, rc, cc)) := by
  constructor
  · obtain ⟨handle, ra, ca, rb, cb, hc, hd, hrb, hnext⟩ :=
      gl1_create_destroy_create VITA r1 format format' filter filter' wrap_u wrap_v wrap_u'
        wrap_v' mipmaps width height mipmaps' width' height' buffer buffer' gen gen' hm hm'
        hfree1
    exact ⟨handle, ra, ca, rb, cb, hc, hd, fun i => by rw [hrb], hrb, hnext⟩
  · obtain ⟨handle, ra, ca, rb, cb, hc, hd, hrb, hnext⟩ :=
      gl2_create_destroy_create VITA r2 format format' filter filter' wrap_u wrap_v wrap_u'
        wrap_v' mipmaps width height mipmaps' width' height' buffer buffer' gen gen' hm hm'
        hfree2
    exact ⟨handle, ra, ca, rb, cb, hc, hd, fun i => by rw [hrb], hrb, hnext⟩

/-- C4 at the sample tables: create with name 5, destroy, create again with name 6. -/
theorem C4_create_destroy_round_trip_witness :
    (∃ handle ra ca rb cb,
      gl1.r_create_texture true gl1.sample_backend pxl_format.PXL_RGB565
          filter_mode.FILTER_NEAREST wrap_mode.WRAP_REPEAT wrap_mode.WRAP_REPEAT 0 32 32 0 5
        = .ok (handle, ra, ca)
      ∧ gl1.r_destroy_texture ra handle = .ok (rb, cb)
      ∧ (∀ i : Fin 4, (rb.textures i).texture ≠ 0 ↔ (gl1.sample_backend.textures i).texture ≠ 0)
      ∧ rb = gl1.sample_backend
      ∧ ∃ rc cc,
          gl1.r_create_texture true rb pxl_format.PXL_RGBA filter_mode.FILTER_BILINEAR
              wrap_mode.WRAP_MIRRORED_REPEAT wrap_mode.WRAP_CLAMP_TO_EDGE 1 64 64 0 6
            = .ok (handle, rc, cc))
    ∧ (∃ handle ra ca rb cb,
      gl2.r_create_texture true gl2.sample_backend pxl_format.PXL_RGB565
          filter_mode.FILTER_NEAREST wrap_mode.WRAP_REPEAT wrap_mode.WRAP_REPEAT 0 32 32 0 5
        = .ok (handle, ra, ca)
      ∧ gl2.r_destroy_texture ra handle = .ok (rb, cb)
      ∧ (∀ i : Fin 4, (rb.textures i).texture ≠ 0 ↔ (gl2.sample_backend.textures i).texture ≠ 0)
      ∧ rb = gl2.sample_backend
      ∧ ∃ rc cc,
          gl2.r_create_texture true rb pxl_format.PXL_RGBA filter_mode.FILTER_BILINEAR
              wrap_mode.WRAP_MIRRORED_REPEAT wrap_mode.WRAP_CLAMP_TO_EDGE 1 64 64 0 6
            = .ok (handle, rc, cc)) :=
  C4_create_destroy_round_trip true gl1.sample_backend gl2.sample_backend pxl_format.PXL_RGB565
    pxl_format.PXL_RGBA filter_mode.FILTER_NEAREST filter_mode.FILTER_BILINEAR
    wrap_mode.WRAP_REPEAT wrap_mode.WRAP_REPEAT wrap_mode.WRAP_MIRRORED_REPEAT
    wrap_mode.WRAP_CLAMP_TO_EDGE 0 32 32 1 64 64 0 0 5 6 (by decide) (by decide)
    ⟨2, by decide, by decide⟩ ⟨2, by decide, by decide⟩

/-! ## Translation tables -/

theorem gl1_lookup_format (f : pxl_format) :
    index gl1.internal_formats f.toNat = .ok f.gl_internal
    ∧ index gl1.pixel_formats f.toNat = .ok f.gl_type := by
  cases f <;> exact ⟨rfl, rfl⟩

theorem gl2_lookup_format (f : pxl_format) :
    index gl2.internal_formats f.toNat = .ok f.gl_internal
    ∧ index gl2.pixel_formats f.toNat = .ok f.gl_type := by
  cases f <;> exact ⟨rfl, rfl⟩

theorem gl1_lookup_filter (f : filter_mode) : index gl1.filter_funcs f.toNat = .ok f.gl := by
  cases f <;> rfl

theorem gl2_lookup_filter (f : filter_mode) : index gl2.filter_funcs f.toNat = .ok f.gl := by
  cases f <;> rfl

theorem gl1_lookup_wrap (w : wrap_mode) : index gl1.wrap_modes w.toNat = .ok w.gl := by
  cases w <;> rfl

theorem gl2_lookup_wrap (w : wrap_mode) : index gl2.wrap_modes w.toNat = .ok w.gl := by
  cases w <;> rfl

theorem gl1_lookup_depth (d : depth_func) : index gl1.depth_funcs d.toNat = .ok d.gl := by
  cases d <;> rfl

theorem gl2_lookup_depth (d : depth_func) : index gl2.depth_funcs d.toNat = .ok d.gl := by
  cases d <;> rfl

theorem gl1_lookup_cull (c : cull_mode) : index gl1.cull_face c.toNat = .ok c.gl := by
  cases c <;> rfl

theorem gl2_lookup_cull (c : cull_mode) : index gl2.cull_face c.toNat = .ok c.gl := by
  cases c <;> rfl

theorem gl1_lookup_blend (b : blend_func) : index gl1.blend_funcs b.toNat = .ok b.gl := by
  cases b <;> rfl

theorem gl2_lookup_blend (b : blend_func) : index gl2.blend_funcs b.toNat = .ok b.gl := by
  cases b <;> rfl

theorem gl1_lookup_prim (p : prim_type) : index gl1.prim_types p.toNat = .ok p.gl := by
  cases p <;> rfl

theorem gl2_lookup_prim (p : prim_type) : index gl2.prim_types p.toNat = .ok p.gl := by
  cases p <;> rfl

/-- C5: numbering the members of each render enumeration from 0 in the order the spec lists
them, in both backends every member reads its translation table in bounds and gets the GL
constant it is named after; the tables have one entry per member (`internal_formats` and
`pixel_formats` 5, `wrap_modes` 3, `depth_funcs` 9, `cull_face` 3, `blend_funcs` 11,
`prim_types` 2); `DEPTH_NONE`, `CULL_NONE` and `BLEND_NONE` are mapped to 0. -/
theorem C5_enum_tables_bit_compatible :
    (∀ f : pxl_format,
        (f.toNat < gl1.internal_formats.length ∧ f.toNat < gl1.pixel_formats.length
          ∧ f.toNat < gl2.internal_formats.length ∧ f.toNat < gl2.pixel_formats.length)
        ∧ index gl1.internal_formats f.toNat = .ok f.gl_internal
        ∧ index gl1.pixel_formats f.toNat = .ok f.gl_type
        ∧ index gl2.internal_formats f.toNat = .ok f.gl_internal
        ∧ index gl2.pixel_formats f.toNat = .ok f.gl_type)
    ∧ (∀ f : filter_mode,
        (f.toNat < gl1.filter_funcs.length ∧ f.toNat < gl2.filter_funcs.length)
        ∧ index gl1.filter_funcs f.toNat = .ok f.gl
        ∧ index gl2.filter_funcs f.toNat = .ok f.gl)
    ∧ (∀ w : wrap_mode,
        (w.toNat < gl1.wrap_modes.length ∧ w.toNat < gl2.wrap_modes.length)
        ∧ index gl1.wrap_modes w.toNat = .ok w.gl
        ∧ index gl2.wrap_modes w.toNat = .ok w.gl)
    ∧ (∀ d : depth_func,
        (d.toNat < gl1.depth_funcs.length ∧ d.toNat < gl2.depth_funcs.length)
        ∧ index gl1.depth_funcs d.toNat = .ok d.gl
        ∧ index gl2.depth_funcs d.toNat = .ok d.gl)
    ∧ (∀ c : cull_mode,
        (c.toNat < gl1.cull_face.length ∧ c.toNat < gl2.cull_face.length)
        ∧ index gl1.cull_face c.toNat = .ok c.gl
        ∧ index gl2.cull_face c.toNat = .ok c.gl)
    ∧ (∀ b : blend_func,
        (b.toNat < gl1.blend_funcs.length ∧ b.toNat < gl2.blend_funcs.length)
        ∧ index gl1.blend_funcs b.toNat = .ok b.gl
        ∧ index gl2.blend_funcs b.toNat = .ok b.gl)
    ∧ (∀ p : prim_type,
        (p.toNat < gl1.prim_types.length ∧ p.toNat < gl2.prim_types.length)
        ∧ index gl1.prim_types p.toNat = .ok p.gl
        ∧ index gl2.prim_types p.toNat = .ok p.gl)
    ∧ (gl1.internal_formats.length = 5 ∧ gl1.pixel_formats.length = 5
        ∧ gl1.wrap_modes.length = 3 ∧ gl1.depth_funcs.length = 9 ∧ gl1.cull_face.length = 3
        ∧ gl1.blend_funcs.length = 11 ∧ gl1.prim_types.length = 2)
    ∧ (gl2.internal_formats.length = 5 ∧ gl2.pixel_formats.length = 5
        ∧ gl2.wrap_modes.length = 3 ∧ gl2.depth_funcs.length = 9 ∧ gl2.cull_face.length = 3
        ∧ gl2.blend_funcs.length = 11 ∧ gl2.prim_types.length = 2)
    ∧ (index gl1.depth_funcs depth_func.DEPTH_NONE.toNat = .ok 0
        ∧ index gl1.cull_face cull_mode.CULL_NONE.toNat = .ok 0
        ∧ index gl1.blend_funcs blend_func.BLEND_NONE.toNat = .ok 0
        ∧ index gl2.depth_funcs depth_func.DEPTH_NONE.toNat = .ok 0
        ∧ index gl2.cull_face cull_mode.CULL_NONE.toNat = .ok 0
        ∧ index gl2.blend_funcs blend_func.BLEND_NONE.toNat = .ok 0) := by
  refine ⟨?_, ?_, ?_, ?_, ?_, ?_, ?_, ?_, ?_, ?_⟩
  · intro f
    exact ⟨by cases f <;> decide, (gl1_lookup_format f).1, (gl1_lookup_format f).2,
      (gl2_lookup_format f).1, (gl2_lookup_format f).2⟩
  · intro f
    exact ⟨by cases f <;> decide, gl1_lookup_filter f, gl2_lookup_filter f⟩
  · intro w
    exact ⟨by cases w <;> decide, gl1_lookup_wrap w, gl2_lookup_wrap w⟩
  · intro d
    exact ⟨by cases d <;> decide, gl1_lookup_depth d, gl2_lookup_depth d⟩
  · intro c
    exact ⟨by cases c <;> decide, gl1_lookup_cull c, gl2_lookup_cull c⟩
  · intro b
    exact ⟨by cases b <;> decide, gl1_lookup_blend b, gl2_lookup_blend b⟩
  · intro p
    exact ⟨by cases p <;> decide, gl1_lookup_prim p, gl2_lookup_prim p⟩
  · decide
  · decide
  · exact ⟨rfl, rfl, rfl, rfl, rfl, rfl⟩

/-! ## Serial device -/

/-- C6: for the device `serial_create(dc, userdata, getchar_func, putchar_func)` makes,
`serial_putchar(serial, c)` acts on the host exactly as one call `putchar_func(userdata, c)`
for every `c`, and `serial_getchar(serial)` as one call `getchar_func(userdata)` whose `int`
it returns; with logging callbacks the log grows by exactly that one invocation; neither
call changes the stored user data or callbacks. -/
theorem C6_serial_forwarding {D U W : Type} (dev : D) (userdata : U)
    (getchar_func : U → W → Int × W) (putchar_func : U → Int → W → W) (c : Int) (w : W)
    (log : List (serial_call U)) :
    (serial_create dev userdata getchar_func putchar_func).userdata = userdata
    ∧ (serial_create dev userdata getchar_func putchar_func).getchar_serial = getchar_func
    ∧ (serial_create dev userdata getchar_func putchar_func).putchar_serial = putchar_func
    ∧ serial_putchar (serial_create dev userdata getchar_func putchar_func) c w
        = (serial_create dev userdata getchar_func putchar_func, putchar_func userdata c w)
    ∧ serial_getchar (serial_create dev userdata getchar_func putchar_func) w
        = (serial_create dev userdata getchar_func putchar_func, getchar_func userdata w)
    ∧ (serial_putchar
          (serial_create dev userdata (logged_getchar getchar_func) (logged_putchar putchar_func))
          c (w, log)).2
        = (putchar_func userdata c w, log ++ [serial_call.putchar userdata c])
    ∧ (serial_getchar
          (serial_create dev userdata (logged_getchar getchar_func) (logged_putchar putchar_func))
          (w, log)).2
        = ((getchar_func userdata w).1,
           ((getchar_func userdata w).2, log ++ [serial_call.getchar userdata])) :=
  ⟨rfl, rfl, rfl, rfl, rfl, rfl, rfl⟩

/-! ## Slowmem thunk slots of the x64 backend -/

/-- C7, as stated, fails: the backend object declares 17 slowmem thunk slots, not at most 16,
so its slots are not one per combination of load or store, width and signedness, of which
the spec counts 16. -/
theorem C7_thunk_slots_counterexample :
    x64.sample_backend.thunk_slots.length = 17
    ∧ ¬ (x64.sample_backend.thunk_slots.length ≤ 16)
    ∧ x64.spec_thunk_combinations.length = 16
    ∧ x64.sample_backend.thunk_slots.length ≠ x64.spec_thunk_combinations.length := by
  decide

/-- C7, amended: `class X64Backend` declares storage for 17 slowmem thunk pointers, a
16-element array `load_thunk_` followed by one separate scalar `store_thunk_`: one slot more
than the 16 combinations of the spec. -/
theorem C7_thunk_slots_amended {E : Type} (b : x64.X64Backend E) :
    b.thunk_slots.length = 17
    ∧ b.thunk_slots.length = 16 + 1
    ∧ b.thunk_slots.length = x64.spec_thunk_combinations.length + 1
    ∧ (∀ i : Fin 16, b.thunk_slots[i.val]? = some (b.load_thunk_ i))
    ∧ b.thunk_slots[16]? = some b.store_thunk_ := by
  have hlen : b.thunk_slots.length = 17 := by
    simp [x64.X64Backend.thunk_slots]
  have hspec : x64.spec_thunk_combinations.length = 16 := by decide
  refine ⟨hlen, hlen, by rw [hlen, hspec], ?_, ?_⟩
  · intro i
    have hi : i.val < (List.ofFn b.load_thunk_).length := by
      simp
    unfold x64.X64Backend.thunk_slots
    rw [List.getElem?_append_left hi]
    fin_cases i <;> rfl
  · have hl : (List.ofFn b.load_thunk_).length = 16 := by
      simp
    simp [x64.X64Backend.thunk_slots, List.getElem?_append_right, hl]

/-! ## Texture filters -/

/-- The filter parameters `gl1.r_create_texture` sets, for a mipmaps flag of 0 or 1 and a
table with an open entry. -/
theorem gl1_r_create_texture_filters {N : Nat} (VITA : Bool) (r : gl1.render_backend N)
    (format : pxl_format) (filter : filter_mode) (wrap_u wrap_v : wrap_mode)
    (mipmaps width height : Int) (buffer : Nat) (gen : GLuint)
    (hm : mipmaps = 0 ∨ mipmaps = 1) (h : find_open_entry N r.textures N 1 < N) :
    ∃ handle r' calls min_filter mag_filter,
      gl1.r_create_texture VITA r format filter wrap_u wrap_v mipmaps width height buffer gen
        = .ok (handle, r', calls)
      ∧ index gl1.filter_funcs (mipmaps * NUM_FILTER_MODES + filter.toNat) = .ok min_filter
      ∧ index gl1.filter_funcs filter.toNat = .ok mag_filter
      ∧ tex_parameters GL_TEXTURE_MIN_FILTER calls = [min_filter]
      ∧ tex_parameters GL_TEXTURE_MAG_FILTER calls = [mag_filter]
      ∧ ((min_filter = GL_NEAREST_MIPMAP_LINEAR ∨ min_filter = GL_LINEAR_MIPMAP_LINEAR)
          ↔ mipmaps = 1)
      ∧ (mag_filter = GL_NEAREST ∨ mag_filter = GL_LINEAR)
      ∧ mag_filter ≠ GL_NEAREST_MIPMAP_LINEAR ∧ mag_filter ≠ GL_LINEAR_MIPMAP_LINEAR := by
  unfold gl1.r_create_texture
  simp only [dif_pos h, (gl1_lookup_format format).1, (gl1_lookup_format format).2,
    gl1_lookup_wrap]
  rcases hm with rfl | rfl <;> cases filter <;> cases VITA <;>
    exact ⟨_, _, _, _, _, rfl, rfl, rfl, rfl, rfl, by decide, by decide, by decide, by decide⟩

/-- The filter parameters `gl2.r_create_texture` sets, for a mipmaps flag of 0 or 1 and a
table with an open entry. -/
theorem gl2_r_create_texture_filters {N : Nat} (VITA : Bool) (r : gl2.render_backend N)
    (format : pxl_format) (filter : filter_mode) (wrap_u wrap_v : wrap_mode)
    (mipmaps width height : Int) (buffer : Nat) (gen : GLuint)
    (hm : mipmaps = 0 ∨ mipmaps = 1) (h : find_open_entry N r.textures N 1 < N) :
    ∃ handle r' calls min_filter mag_filter,
      gl2.r_create_texture VITA r format filter wrap_u wrap_v mipmaps width height buffer gen
        = .ok (handle, r', calls)
      ∧ index gl2.filter_funcs (mipmaps * NUM_FILTER_MODES + filter.toNat) = .ok min_filter
      ∧ index gl2.filter_funcs filter.toNat = .ok mag_filter
      ∧ tex_parameters GL_TEXTURE_MIN_FILTER calls = [min_filter]
      ∧ tex_parameters GL_TEXTURE_MAG_FILTER calls = [mag_filter]
      ∧ ((min_filter = GL_NEAREST_MIPMAP_LINEAR ∨ min_filter = GL_LINEAR_MIPMAP_LINEAR)
          ↔ mipmaps = 1)
      ∧ (mag_filter = GL_NEAREST ∨ mag_filter = GL_LINEAR)
      ∧ mag_filter ≠ GL_NEAREST_MIPMAP_LINEAR ∧ mag_filter ≠ GL_LINEAR_MIPMAP_LINEAR := by
  unfold gl2.r_create_texture
  simp only [dif_pos h, (gl2_lookup_format format).1, (gl2_lookup_format format).2,
    gl2_lookup_wrap]
  rcases hm with rfl | rfl <;> cases filter <;> cases VITA <;>
    exact ⟨_, _, _, _, _, rfl, rfl, rfl, rfl, rfl, by decide, by decide, by decide, by decide⟩

/-- C8: with `NUM_FILTER_MODES = 2`, for every filter (values 0, 1) and every mipmaps flag in
`{0, 1}`, the minification index `mipmaps * NUM_FILTER_MODES + filter` lies within the
4-entry `filter_funcs`; in both backends `r_create_texture` (on a table with a free slot)
sets `GL_TEXTURE_MIN_FILTER` to the entry at that index, which is a `*_MIPMAP_LINEAR` filter
exactly when `mipmaps = 1`, and `GL_TEXTURE_MAG_FILTER` to `filter_funcs[filter]`, which is
`GL_NEAREST` or `GL_LINEAR` and no mipmap filter. -/
theorem C8_filter_selection {N : Nat} (VITA : Bool)
    (r1 : gl1.render_backend N) (r2 : gl2.render_backend N)
    (format : pxl_format) (filter : filter_mode) (wrap_u wrap_v : wrap_mode)
    (mipmaps width height : Int) (buffer : Nat) (gen : GLuint)
    (hm : mipmaps = 0 ∨ mipmaps = 1)
    (hfree1 : ∃ i : Fin N, 1 ≤ i.val ∧ (r1.textures i).texture = 0)
    (hfree2 : ∃ i : Fin N, 1 ≤ i.val ∧ (r2.textures i).texture = 0) :
    NUM_FILTER_MODES = 2 ∧ filter.toNat < 2
    ∧ gl1.filter_funcs.length = 4 ∧ gl2.filter_funcs.length = 4
    ∧ 0 ≤ mipmaps * NUM_FILTER_MODES + filter.toNat
    ∧ mipmaps * NUM_FILTER_MODES + filter.toNat < 4
    ∧ (∃ handle r' calls min_filter mag_filter,
        gl1.r_create_texture VITA r1 format filter wrap_u wrap_v mipmaps width height buffer gen
          = .ok (handle, r', calls)
        ∧ index gl1.filter_funcs (mipmaps * NUM_FILTER_MODES + filter.toNat) = .ok min_filter
        ∧ index gl1.filter_funcs filter.toNat = .ok mag_filter
        ∧ tex_parameters GL_TEXTURE_MIN_FILTER calls = [min_filter]
        ∧ tex_parameters GL_TEXTURE_MAG_FILTER calls = [mag_filter]
        ∧ ((min_filter = GL_NEAREST_MIPMAP_LINEAR ∨ min_filter = GL_LINEAR_MIPMAP_LINEAR)
            ↔ mipmaps = 1)
        ∧ (mag_filter = GL_NEAREST ∨ mag_filter = GL_LINEAR)
        ∧ mag_filter ≠ GL_NEAREST_MIPMAP_LINEAR ∧ mag_filter ≠ GL_LINEAR_MIPMAP_LINEAR)
    ∧ (∃ handle r' calls min_filter mag_filter,
        gl2.r_create_texture VITA r2 format filter wrap_u wrap_v mipmaps width height buffer gen
          = .ok (handle, r', calls)
        ∧ index gl2.filter_funcs (mipmaps * NUM_FILTER_MODES + filter.toNat) = .ok min_filter
        ∧ index gl2.filter_funcs filter.toNat = .ok mag_filter
        ∧ tex_parameters GL_TEXTURE_MIN_FILTER calls = [min_filter]
        ∧ tex_parameters GL_TEXTURE_MAG_FILTER calls = [mag_filter]
        ∧ ((min_filter = GL_NEAREST_MIPMAP_LINEAR ∨ min_filter = GL_LINEAR_MIPMAP_LINEAR)
            ↔ mipmaps = 1)
        ∧ (mag_filter = GL_NEAREST ∨ mag_filter = GL_LINEAR)
        ∧ mag_filter ≠ GL_NEAREST_MIPMAP_LINEAR ∧ mag_filter ≠ GL_LINEAR_MIPMAP_LINEAR) := by
  refine ⟨rfl, by cases filter <;> decide, rfl, rfl, ?_, ?_,
    gl1_r_create_texture_filters VITA r1 format filter wrap_u wrap_v mipmaps width height buffer
      gen hm ((find_open_entry_lt_iff N r1.textures).2 hfree1),
    gl2_r_create_texture_filters VITA r2 format filter wrap_u wrap_v mipmaps width height buffer
      gen hm ((find_open_entry_lt_iff N r2.textures).2 hfree2)⟩
  · rcases hm with rfl | rfl <;> cases filter <;> decide
  · rcases hm with rfl | rfl <;> cases filter <;> decide

/-- C8 at the sample tables: bilinear filter with mipmaps. -/
theorem C8_filter_selection_witness :
    NUM_FILTER_MODES = 2 ∧ filter_mode.FILTER_BILINEAR.toNat < 2
    ∧ gl1.filter_funcs.length = 4 ∧ gl2.filter_funcs.length = 4
    ∧ 0 ≤ (1 : Int) * NUM_FILTER_MODES + filter_mode.FILTER_BILINEAR.toNat
    ∧ (1 : Int) * NUM_FILTER_MODES + filter_mode.FILTER_BILINEAR.toNat < 4
    ∧ (∃ handle r' calls min_filter mag_filter,
        gl1.r_create_texture false gl1.sample_backend pxl_format.PXL_RGBA
            filter_mode.FILTER_BILINEAR wrap_mode.WRAP_REPEAT wrap_mode.WRAP_REPEAT 1 64 64 0 5
          = .ok (handle, r', calls)
        ∧ index gl1.filter_funcs
            ((1 : Int) * NUM_FILTER_MODES + filter_mode.FILTER_BILINEAR.toNat) = .ok min_filter
        ∧ index gl1.filter_funcs filter_mode.FILTER_BILINEAR.toNat = .ok mag_filter
        ∧ tex_parameters GL_TEXTURE_MIN_FILTER calls = [min_filter]
        ∧ tex_parameters GL_TEXTURE_MAG_FILTER calls = [mag_filter]
        ∧ ((min_filter = GL_NEAREST_MIPMAP_LINEAR ∨ min_filter = GL_LINEAR_MIPMAP_LINEAR)
            ↔ (1 : Int) = 1)
        ∧ (mag_filter = GL_NEAREST ∨ mag_filter = GL_LINEAR)
        ∧ mag_filter ≠ GL_NEAREST_MIPMAP_LINEAR ∧ mag_filter ≠ GL_LINEAR_MIPMAP_LINEAR)
    ∧ (∃ handle r' calls min_filter mag_filter,
        gl2.r_create_texture false gl2.sample_backend pxl_format.PXL_RGBA
            filter_mode.FILTER_BILINEAR wrap_mode.WRAP_REPEAT wrap_mode.WRAP_REPEAT 1 64 64 0 5
          = .ok (handle, r', calls)
        ∧ index gl2.filter_funcs
            ((1 : Int) * NUM_FILTER_MODES + filter_mode.FILTER_BILINEAR.toNat) = .ok min_filter
        ∧ index gl2.filter_funcs filter_mode.FILTER_BILINEAR.toNat = .ok mag_filter
        ∧ tex_parameters GL_TEXTURE_MIN_FILTER calls = [min_filter]
        ∧ tex_parameters GL_TEXTURE_MAG_FILTER calls = [mag_filter]
        ∧ ((min_filter = GL_NEAREST_MIPMAP_LINEAR ∨ min_filter = GL_LINEAR_MIPMAP_LINEAR)
            ↔ (1 : Int) = 1)
        ∧ (mag_filter = GL_NEAREST ∨ mag_filter = GL_LINEAR)
        ∧ mag_filter ≠ GL_NEAREST_MIPMAP_LINEAR ∧ mag_filter ≠ GL_LINEAR_MIPMAP_LINEAR) :=
  C8_filter_selection false gl1.sample_backend gl2.sample_backend pxl_format.PXL_RGBA
    filter_mode.FILTER_BILINEAR wrap_mode.WRAP_REPEAT wrap_mode.WRAP_REPEAT 1 64 64 0 5
    (by decide) ⟨2, by decide, by decide⟩ ⟨2, by decide, by decide⟩

/-! ## Surfaces -/

/-- The calls `gl1.r_draw_ta_surface` makes for a surface whose texture handle is in the
table. -/
theorem gl1_r_draw_ta_surface_eq {N : Nat} (r : gl1.render_backend N) (surf : ta_surface)
    (ht : surf.params.texture < N) :
    gl1.r_draw_ta_surface r surf
      = .ok ([GLCall.glDepthMask (if surf.params.depth_write ≠ 0 then 1 else 0)]
          ++ (if surf.params.depth_func = depth_func.DEPTH_NONE then
                [GLCall.glDisable GL_DEPTH_TEST]
              else [GLCall.glEnable GL_DEPTH_TEST, GLCall.glDepthFunc surf.params.depth_func.gl])
          ++ (if surf.params.cull = cull_mode.CULL_NONE then [GLCall.glDisable GL_CULL_FACE]
              else [GLCall.glEnable GL_CULL_FACE, GLCall.glCullFace surf.params.cull.gl])
          ++ (if surf.params.src_blend = blend_func.BLEND_NONE
                  ∨ surf.params.dst_blend = blend_func.BLEND_NONE then
                [GLCall.glDisable GL_BLEND]
              else [GLCall.glEnable GL_BLEND,
                    GLCall.glBlendFunc surf.params.src_blend.gl surf.params.dst_blend.gl])
          ++ gl1.r_set_render_state surf
          ++ (if surf.params.texture ≠ 0 then
                GLCall.glEnableClientState GL_TEXTURE_COORD_ARRAY
                  :: gl1.r_bind_texture MAP_DIFFUSE (r.textures ⟨surf.params.texture, ht⟩).texture
              else [GLCall.glDisableClientState GL_TEXTURE_COORD_ARRAY])
          ++ [GLCall.glDrawElements GL_TRIANGLES surf.num_verts GL_UNSIGNED_SHORT
                (r.indices + 2 * surf.first_vert)]) := by
  unfold gl1.r_draw_ta_surface
  simp only [gl1_lookup_depth, gl1_lookup_cull, gl1_lookup_blend, dif_pos ht]
  split_ifs <;> rfl

/-- The calls `gl2.r_draw_ta_surface` makes for a surface whose texture handle is in the
table. -/
theorem gl2_r_draw_ta_surface_eq {N : Nat} (r : gl2.render_backend N) (g : gl2.globals)
    (surf : ta_surface) (ht : surf.params.texture < N) :
    gl2.r_draw_ta_surface r g surf
      = .ok ((gl2.r_get_ta_program r g surf).1,
          [GLCall.glDepthMask (if surf.params.depth_write ≠ 0 then 1 else 0)]
          ++ (if surf.params.depth_func = depth_func.DEPTH_NONE then
                [GLCall.glDisable GL_DEPTH_TEST]
              else [GLCall.glEnable GL_DEPTH_TEST, GLCall.glDepthFunc surf.params.depth_func.gl])
          ++ (if surf.params.cull = cull_mode.CULL_NONE then [GLCall.glDisable GL_CULL_FACE]
              else [GLCall.glEnable GL_CULL_FACE, GLCall.glCullFace surf.params.cull.gl])
          ++ (if surf.params.src_blend = blend_func.BLEND_NONE
                  ∨ surf.params.dst_blend = blend_func.BLEND_NONE then
                [GLCall.glDisable GL_BLEND]
              else [GLCall.glEnable GL_BLEND,
                    GLCall.glBlendFunc surf.params.src_blend.gl surf.params.dst_blend.gl])
          ++ (gl2.r_get_ta_program r g surf).2
          ++ [GLCall.glUniform4fv (r.ta_program.loc gl2.uniform_attr.UNIFORM_VIDEO_SCALE) 1
                (List.ofFn r.uniform_video_scale),
              GLCall.glUniform1f (r.ta_program.loc gl2.uniform_attr.UNIFORM_ALPHA_REF)
                (float.div (float.ofInt surf.params.alpha_ref) (float.lit 255)),
              GLCall.glUniform1i (r.ta_program.loc gl2.uniform_attr.UNIFORM_DIFFUSE)
                MAP_DIFFUSE]
          ++ (if surf.params.texture ≠ 0 then
                gl2.r_bind_texture MAP_DIFFUSE (r.textures ⟨surf.params.texture, ht⟩).texture
              else [])
          ++ [GLCall.vglDrawObjects GL_TRIANGLES
                (gl2.r_get_ta_program r g surf).1.ta_draw_indices_num GL_FALSE]) := by
  unfold gl2.r_draw_ta_surface
  simp only [gl2_lookup_depth, gl2_lookup_cull, gl2_lookup_blend, dif_pos ht]
  split_ifs <;> rfl

/-- The calls `gl1.r_draw_ui_surface` makes for a surface whose texture handle is in the
table. -/
theorem gl1_r_draw_ui_surface_eq {N : Nat} (toInt : float → Int) (r : gl1.render_backend N)
    (surf : ui_surface) (ht : surf.texture < N) :
    gl1.r_draw_ui_surface toInt r surf
      = .ok ((if surf.scissor ≠ 0 then
                [GLCall.glEnable GL_SCISSOR_TEST,
                 GLCall.glScissor (toInt (surf.scissor_rect 0)) (toInt (surf.scissor_rect 1))
                   (toInt (surf.scissor_rect 2)) (toInt (surf.scissor_rect 3))]
              else [GLCall.glDisable GL_SCISSOR_TEST])
          ++ (if surf.src_blend = blend_func.BLEND_NONE
                  ∨ surf.dst_blend = blend_func.BLEND_NONE then
                [GLCall.glDisable GL_BLEND]
              else [GLCall.glEnable GL_BLEND,
                    GLCall.glBlendFunc surf.src_blend.gl surf.dst_blend.gl])
          ++ (if surf.texture ≠ 0 then
                GLCall.glEnableClientState GL_TEXTURE_COORD_ARRAY
                  :: gl1.r_bind_texture MAP_DIFFUSE (r.textures ⟨surf.texture, ht⟩).texture
              else
                GLCall.glDisableClientState GL_TEXTURE_COORD_ARRAY
                  :: gl1.r_bind_texture MAP_DIFFUSE r.white_texture)
          ++ (if r.ui_use_index ≠ 0 then
                [GLCall.glDrawElements surf.prim_type.gl surf.num_verts GL_UNSIGNED_SHORT
                  (r.indices + 2 * surf.first_vert)]
              else [GLCall.glDrawArrays surf.prim_type.gl surf.first_vert surf.num_verts])) := by
  unfold gl1.r_draw_ui_surface
  simp only [gl1_lookup_prim, gl1_lookup_blend, dif_pos ht]
  split_ifs <;> rfl

theorem blend_gl1_toNat_ne (b : blend_func) (h : b ≠ blend_func.BLEND_NONE) :
    b.toNat ≠ blend_func.BLEND_NONE.toNat := by
  cases b <;> first | exact absurd rfl h | decide

/-- The predicate `blend_state_set` holds of a call list whose blend-state calls are those of
the blend branch. -/
theorem blend_state_set_of {tbl : List GLenum} (src dst : blend_func) (calls : List GLCall)
    (hs : index tbl src.toNat = .ok src.gl) (hd : index tbl dst.toNat = .ok dst.gl)
    (hcalls : blend_calls calls
      = if src = blend_func.BLEND_NONE ∨ dst = blend_func.BLEND_NONE then
          [GLCall.glDisable GL_BLEND]
        else [GLCall.glEnable GL_BLEND, GLCall.glBlendFunc src.gl dst.gl]) :
    blend_state_set tbl src dst calls := by
  unfold blend_state_set
  by_cases hb : src = blend_func.BLEND_NONE ∨ dst = blend_func.BLEND_NONE
  · rw [if_pos hb] at hcalls
    exact ⟨⟨fun _ => hb, fun _ => hcalls⟩, fun hn => absurd hb hn⟩
  · rw [if_neg hb] at hcalls
    refine ⟨⟨fun h => ?_, fun h => absurd h hb⟩, fun _ => ?_⟩
    · rw [hcalls] at h
      cases h
    · exact ⟨_, _, hs, hd, blend_gl1_toNat_ne src (fun e => hb (Or.inl e)),
        blend_gl1_toNat_ne dst (fun e => hb (Or.inr e)), hcalls⟩

theorem gl1_blend_calls_ta {N : Nat} (r : gl1.render_backend N) (surf : ta_surface)
    (ht : surf.params.texture < N) (calls : List GLCall)
    (h : gl1.r_draw_ta_surface r surf = .ok calls) :
    blend_calls calls
      = if surf.params.src_blend = blend_func.BLEND_NONE
            ∨ surf.params.dst_blend = blend_func.BLEND_NONE then
          [GLCall.glDisable GL_BLEND]
        else [GLCall.glEnable GL_BLEND,
              GLCall.glBlendFunc surf.params.src_blend.gl surf.params.dst_blend.gl] := by
  rw [gl1_r_draw_ta_surface_eq r surf ht] at h
  cases h
  simp only [blend_calls, List.filter_append, gl1.r_set_render_state, gl1.r_bind_texture]
  split_ifs <;> rfl

theorem gl2_r_get_ta_program_no_blend {N : Nat} (r : gl2.render_backend N) (g : gl2.globals)
    (surf : ta_surface) :
    List.filter GLCall.is_blend (gl2.r_get_ta_program r g surf).2 = [] := rfl

theorem gl2_blend_calls_ta {N : Nat} (r : gl2.render_backend N) (g : gl2.globals)
    (surf : ta_surface) (ht : surf.params.texture < N) (g1 : gl2.globals)
    (calls : List GLCall) (h : gl2.r_draw_ta_surface r g surf = .ok (g1, calls)) :
    blend_calls calls
      = if surf.params.src_blend = blend_func.BLEND_NONE
            ∨ surf.params.dst_blend = blend_func.BLEND_NONE then
          [GLCall.glDisable GL_BLEND]
        else [GLCall.glEnable GL_BLEND,
              GLCall.glBlendFunc surf.params.src_blend.gl surf.params.dst_blend.gl] := by
  rw [gl2_r_draw_ta_surface_eq r g surf ht] at h
  cases h
  simp only [blend_calls, List.filter_append, gl2_r_get_ta_program_no_blend,
    gl2.r_bind_texture]
  split_ifs <;> rfl

theorem gl1_blend_calls_ui {N : Nat} (toInt : float → Int) (r : gl1.render_backend N)
    (surf : ui_surface) (ht : surf.texture < N) (calls : List GLCall)
    (h : gl1.r_draw_ui_surface toInt r surf = .ok calls) :
    blend_calls calls
      = if surf.src_blend = blend_func.BLEND_NONE ∨ surf.dst_blend = blend_func.BLEND_NONE then
          [GLCall.glDisable GL_BLEND]
        else [GLCall.glEnable GL_BLEND,
              GLCall.glBlendFunc surf.src_blend.gl surf.dst_blend.gl] := by
  rw [gl1_r_draw_ui_surface_eq toInt r surf ht] at h
  cases h
  simp only [blend_calls, List.filter_append, gl1.r_bind_texture]
  split_ifs <;> rfl

/-- C9: for every TA surface (`r_draw_ta_surface`, both backends) and every UI surface
(`r_draw_ui_surface`, gl1) whose texture handle is in the table, the call returns and its
blend-state calls are `glDisable(GL_BLEND)` alone exactly when `src_blend` or `dst_blend` is
`BLEND_NONE`; otherwise they are `glEnable(GL_BLEND)` followed by
`glBlendFunc(blend_funcs[src_blend], blend_funcs[dst_blend])`, neither index being
`BLEND_NONE`. -/
theorem C9_blend_state {N : Nat} (toInt : float → Int) (r1 : gl1.render_backend N)
    (r2 : gl2.render_backend N) (g : gl2.globals) (surf : ta_surface) (usurf : ui_surface)
    (ht : surf.params.texture < N) (hu : usurf.texture < N) :
    (∃ calls, gl1.r_draw_ta_surface r1 surf = .ok calls
      ∧ blend_state_set gl1.blend_funcs surf.params.src_blend surf.params.dst_blend calls)
    ∧ (∃ g1 calls, gl2.r_draw_ta_surface r2 g surf = .ok (g1, calls)
      ∧ blend_state_set gl2.blend_funcs surf.params.src_blend surf.params.dst_blend calls)
    ∧ (∃ calls, gl1.r_draw_ui_surface toInt r1 usurf = .ok calls
      ∧ blend_state_set gl1.blend_funcs usurf.src_blend usurf.dst_blend calls) := by
  refine ⟨⟨_, gl1_r_draw_ta_surface_eq r1 surf ht, ?_⟩,
          ⟨_, _, gl2_r_draw_ta_surface_eq r2 g surf ht, ?_⟩,
          ⟨_, gl1_r_draw_ui_surface_eq toInt r1 usurf hu, ?_⟩⟩
  · exact blend_state_set_of _ _ _ (gl1_lookup_blend _) (gl1_lookup_blend _)
      (gl1_blend_calls_ta r1 surf ht _ (gl1_r_draw_ta_surface_eq r1 surf ht))
  · exact blend_state_set_of _ _ _ (gl2_lookup_blend _) (gl2_lookup_blend _)
      (gl2_blend_calls_ta r2 g surf ht _ _ (gl2_r_draw_ta_surface_eq r2 g surf ht))
  · exact blend_state_set_of _ _ _ (gl1_lookup_blend _) (gl1_lookup_blend _)
      (gl1_blend_calls_ui toInt r1 usurf hu _ (gl1_r_draw_ui_surface_eq toInt r1 usurf hu))

/-- C9 at the sample backends and the sample surfaces (alpha blending on both). -/
theorem C9_blend_state_witness :
    (∃ calls, gl1.r_draw_ta_surface gl1.sample_backend sample_ta_surface = .ok calls
      ∧ blend_state_set gl1.blend_funcs sample_ta_surface.params.src_blend
          sample_ta_surface.params.dst_blend calls)
    ∧ (∃ g1 calls,
        gl2.r_draw_ta_surface gl2.sample_backend gl2.initial_globals sample_ta_surface
          = .ok (g1, calls)
      ∧ blend_state_set gl2.blend_funcs sample_ta_surface.params.src_blend
          sample_ta_surface.params.dst_blend calls)
    ∧ (∃ calls,
        gl1.r_draw_ui_surface (fun _ => 0) gl1.sample_backend sample_ui_surface = .ok calls
      ∧ blend_state_set gl1.blend_funcs sample_ui_surface.src_blend
          sample_ui_surface.dst_blend calls) :=
  C9_blend_state (fun _ => 0) gl1.sample_backend gl2.sample_backend gl2.initial_globals
    sample_ta_surface sample_ui_surface (by decide) (by decide)

/-! ## Shader attributes -/

theorem attr_or_eq (F : gl2.shader_flag → Bool) :
    gl2.attr_or F
      = (((((((0 : Nat)
          ||| (if F .ATTR_TEXTURE then gl2.ATTR_TEXTURE else 0))
          ||| (if F .ATTR_IGNORE_ALPHA then gl2.ATTR_IGNORE_ALPHA else 0))
          ||| (if F .ATTR_IGNORE_TEXTURE_ALPHA then gl2.ATTR_IGNORE_TEXTURE_ALPHA else 0))
          ||| (if F .ATTR_OFFSET_COLOR then gl2.ATTR_OFFSET_COLOR else 0))
          ||| (if F .ATTR_ALPHA_TEST then gl2.ATTR_ALPHA_TEST else 0))
          ||| (if F .ATTR_DEBUG_DEPTH_BUFFER then gl2.ATTR_DEBUG_DEPTH_BUFFER else 0)) := by
  simp only [gl2.attr_or, gl2.shader_flags, List.foldl, gl2.shader_flag.val]
  cases F .ATTR_TEXTURE <;> cases F .ATTR_IGNORE_ALPHA <;> cases F .ATTR_IGNORE_TEXTURE_ALPHA <;>
    cases F .ATTR_OFFSET_COLOR <;> cases F .ATTR_ALPHA_TEST <;>
    cases F .ATTR_DEBUG_DEPTH_BUFFER <;> rfl

/-- Decoding a shade in `0..3` combined with any choice of the six single-bit attributes. -/
theorem attr_bits_decode (shade : Fin 4) (b1 b2 b3 b4 b5 b6 : Bool) :
    ∀ idx : Nat,
      idx = shade.val ||| (((((((0 : Nat)
          ||| (if b1 then gl2.ATTR_TEXTURE else 0))
          ||| (if b2 then gl2.ATTR_IGNORE_ALPHA else 0))
          ||| (if b3 then gl2.ATTR_IGNORE_TEXTURE_ALPHA else 0))
          ||| (if b4 then gl2.ATTR_OFFSET_COLOR else 0))
          ||| (if b5 then gl2.ATTR_ALPHA_TEST else 0))
          ||| (if b6 then gl2.ATTR_DEBUG_DEPTH_BUFFER else 0)) →
      idx &&& gl2.ATTR_SHADE_MASK = shade.val
      ∧ (idx &&& gl2.ATTR_TEXTURE ≠ 0 ↔ b1 = true)
      ∧ (idx &&& gl2.ATTR_IGNORE_ALPHA ≠ 0 ↔ b2 = true)
      ∧ (idx &&& gl2.ATTR_IGNORE_TEXTURE_ALPHA ≠ 0 ↔ b3 = true)
      ∧ (idx &&& gl2.ATTR_OFFSET_COLOR ≠ 0 ↔ b4 = true)
      ∧ (idx &&& gl2.ATTR_ALPHA_TEST ≠ 0 ↔ b5 = true)
      ∧ (idx &&& gl2.ATTR_DEBUG_DEPTH_BUFFER ≠ 0 ↔ b6 = true) := by
  intro idx hidx
  subst hidx
  fin_cases shade <;> cases b1 <;> cases b2 <;> cases b3 <;> cases b4 <;> cases b5 <;>
    cases b6 <;> decide

/-- The index `r_get_ta_program` builds is the shade OR-ed with the attributes of the
surface. -/
theorem ta_program_idx_eq (surf : ta_surface) :
    gl2.ta_program_idx surf = surf.params.shade ||| gl2.attr_or (gl2.surface_flags surf) := by
  rw [attr_or_eq]
  simp only [gl2.ta_program_idx, gl2.surface_flags]
  by_cases h1 : surf.params.texture = 0 <;> by_cases h2 : surf.params.ignore_alpha = 0 <;>
    by_cases h3 : surf.params.ignore_texture_alpha = 0 <;>
    by_cases h4 : surf.params.offset_color = 0 <;>
    by_cases h5 : surf.params.alpha_test = 0 <;>
    simp [h1, h2, h3, h4, h5, Nat.lor_assoc]

/-- C10: the shade attributes are the values 0..3 inside `ATTR_SHADE_MASK = 0x3`, pairwise
different; the remaining attributes are single bits, pairwise different and disjoint from the
mask; hence for every shade in 0..3 and every subset `F` of those attributes, masking
`shade | OR(F)` gives back the shade and testing an attribute `a` gives non-zero exactly when
`a` is in `F`.  The index built by `r_get_ta_program` is of that form. -/
theorem C10_shader_attr_encoding :
    [gl2.ATTR_SHADE_DECAL, gl2.ATTR_SHADE_MODULATE, gl2.ATTR_SHADE_DECAL_ALPHA,
       gl2.ATTR_SHADE_MODULATE_ALPHA] = [0, 1, 2, 3]
    ∧ gl2.ATTR_SHADE_MASK = 3
    ∧ (∀ s ∈ [gl2.ATTR_SHADE_DECAL, gl2.ATTR_SHADE_MODULATE, gl2.ATTR_SHADE_DECAL_ALPHA,
          gl2.ATTR_SHADE_MODULATE_ALPHA], s &&& gl2.ATTR_SHADE_MASK = s)
    ∧ (∀ a : gl2.shader_flag, (∃ k, a.val = 2 ^ k) ∧ a.val &&& gl2.ATTR_SHADE_MASK = 0)
    ∧ (∀ a b : gl2.shader_flag, a.val = b.val → a = b)
    ∧ (∀ shade : Nat, shade ≤ 3 → ∀ F : gl2.shader_flag → Bool,
        (shade ||| gl2.attr_or F) &&& gl2.ATTR_SHADE_MASK = shade
        ∧ ∀ a : gl2.shader_flag, ((shade ||| gl2.attr_or F) &&& a.val ≠ 0 ↔ F a = true))
    ∧ (∀ surf : ta_surface,
        gl2.ta_program_idx surf = surf.params.shade ||| gl2.attr_or (gl2.surface_flags surf)) := by
  refine ⟨rfl, rfl, by decide, ?_, ?_, ?_, ta_program_idx_eq⟩
  · intro a
    cases a
    · exact ⟨⟨2, rfl⟩, rfl⟩
    · exact ⟨⟨3, rfl⟩, rfl⟩
    · exact ⟨⟨4, rfl⟩, rfl⟩
    · exact ⟨⟨5, rfl⟩, rfl⟩
    · exact ⟨⟨6, rfl⟩, rfl⟩
    · exact ⟨⟨7, rfl⟩, rfl⟩
  · intro a b
    cases a <;> cases b <;> decide
  · intro shade hs F
    have hd := attr_bits_decode ⟨shade, Nat.lt_succ_of_le hs⟩ (F .ATTR_TEXTURE)
      (F .ATTR_IGNORE_ALPHA) (F .ATTR_IGNORE_TEXTURE_ALPHA) (F .ATTR_OFFSET_COLOR)
      (F .ATTR_ALPHA_TEST) (F .ATTR_DEBUG_DEPTH_BUFFER) (shade ||| gl2.attr_or F)
      (by rw [attr_or_eq])
    obtain ⟨h0, h1, h2, h3, h4, h5, h6⟩ := hd
    refine ⟨h0, ?_⟩
    intro a
    cases a
    · exact h1
    · exact h2
    · exact h3
    · exact h4
    · exact h5
    · exact h6

/-- C10 at shade 2 (decal alpha) with the subset `{ATTR_TEXTURE, ATTR_ALPHA_TEST}`. -/
theorem C10_shader_attr_encoding_witness :
    (2 ||| gl2.attr_or (fun a => a = .ATTR_TEXTURE || a = .ATTR_ALPHA_TEST))
        &&& gl2.ATTR_SHADE_MASK = 2
    ∧ ∀ a : gl2.shader_flag,
        ((2 ||| gl2.attr_or (fun a => a = .ATTR_TEXTURE || a = .ATTR_ALPHA_TEST)) &&& a.val ≠ 0
          ↔ (a = .ATTR_TEXTURE || a = .ATTR_ALPHA_TEST) = true) :=
  C10_shader_attr_encoding.2.2.2.2.2.1 2 (by decide)
    (fun a => a = .ATTR_TEXTURE || a = .ATTR_ALPHA_TEST)

/-! ## Shader uniforms -/

/-- What the index of `r_get_ta_program` decodes to, for a shade in `0..3`. -/
theorem ta_program_idx_decode (surf : ta_surface) (hs : surf.params.shade ≤ 3) :
    gl2.ta_program_idx surf &&& gl2.ATTR_SHADE_MASK = surf.params.shade
    ∧ (gl2.ta_program_idx surf &&& gl2.ATTR_TEXTURE ≠ 0 ↔ surf.params.texture ≠ 0)
    ∧ (gl2.ta_program_idx surf &&& gl2.ATTR_IGNORE_ALPHA ≠ 0 ↔ surf.params.ignore_alpha ≠ 0)
    ∧ (gl2.ta_program_idx surf &&& gl2.ATTR_IGNORE_TEXTURE_ALPHA ≠ 0
        ↔ surf.params.ignore_texture_alpha ≠ 0)
    ∧ (gl2.ta_program_idx surf &&& gl2.ATTR_OFFSET_COLOR ≠ 0 ↔ surf.params.offset_color ≠ 0)
    ∧ (gl2.ta_program_idx surf &&& gl2.ATTR_ALPHA_TEST ≠ 0 ↔ surf.params.alpha_test ≠ 0) := by
  have hd := attr_bits_decode ⟨surf.params.shade, Nat.lt_succ_of_le hs⟩
    (gl2.surface_flags surf .ATTR_TEXTURE) (gl2.surface_flags surf .ATTR_IGNORE_ALPHA)
    (gl2.surface_flags surf .ATTR_IGNORE_TEXTURE_ALPHA)
    (gl2.surface_flags surf .ATTR_OFFSET_COLOR) (gl2.surface_flags surf .ATTR_ALPHA_TEST)
    (gl2.surface_flags surf .ATTR_DEBUG_DEPTH_BUFFER) (gl2.ta_program_idx surf)
    (by rw [ta_program_idx_eq, attr_or_eq])
  obtain ⟨h0, h1, h2, h3, h4, h5, _⟩ := hd
  simp only [gl2.surface_flags, decide_eq_true_eq] at h1 h2 h3 h4 h5
  exact ⟨h0, h1, h2, h3, h4, h5⟩

/-- The shade-mode value the if-chain of `r_get_ta_program` selects for a shade in `0..3`. -/
theorem shade_chain_eq (s : Nat) (hs : s ≤ 3) (old : float) :
    (if s = gl2.ATTR_SHADE_DECAL then gl2.UNIF_SHADE_DECAL
      else if s = gl2.ATTR_SHADE_MODULATE then gl2.UNIF_SHADE_MODUL
      else if s = gl2.ATTR_SHADE_DECAL_ALPHA then gl2.UNIF_SHADE_DECAL_A
      else if s = gl2.ATTR_SHADE_MODULATE_ALPHA then gl2.UNIF_SHADE_MODUL_A
      else old) = float.lit (s + 1) := by
  interval_cases s <;> rfl

/-- What `gl2.r_get_ta_program` does for a surface with a shade in `0..3`. -/
theorem gl2_r_get_ta_program_eq {N : Nat} (r : gl2.render_backend N) (g : gl2.globals)
    (surf : ta_surface) (hs : surf.params.shade ≤ 3) :
    gl2.r_get_ta_program r g surf
      = ({ g with
           shade_mode := float.lit (surf.params.shade + 1),
           has_texture := if surf.params.texture ≠ 0 then float.lit 1 else float.lit 0,
           alpha_skip := if surf.params.ignore_alpha ≠ 0 then float.lit 1 else float.lit 0,
           tex_alpha_skip :=
             if surf.params.ignore_texture_alpha ≠ 0 then float.lit 1 else float.lit 0,
           has_offset_color :=
             if surf.params.offset_color ≠ 0 then float.lit 1 else float.lit 0,
           has_alpha_test := if surf.params.alpha_test ≠ 0 then float.lit 1 else float.lit 0 },
         [GLCall.glUseProgram r.ta_program.prog,
          GLCall.glUniform1f (r.ta_program.loc gl2.uniform_attr.UNIFORM_SHADE_MODE)
            (float.lit (surf.params.shade + 1)),
          GLCall.glUniform1f (r.ta_program.loc gl2.uniform_attr.UNIFORM_HAS_TEXTURE)
            (if surf.params.texture ≠ 0 then float.lit 1 else float.lit 0),
          GLCall.glUniform1f (r.ta_program.loc gl2.uniform_attr.UNIFORM_ALPHA_SKIP)
            (if surf.params.ignore_alpha ≠ 0 then float.lit 1 else float.lit 0),
          GLCall.glUniform1f (r.ta_program.loc gl2.uniform_attr.UNIFORM_TEX_ALPHA_SKIP)
            (if surf.params.ignore_texture_alpha ≠ 0 then float.lit 1 else float.lit 0),
          GLCall.glUniform1f (r.ta_program.loc gl2.uniform_attr.UNIFORM_HAS_OFFSET_COLOR)
            (if surf.params.offset_color ≠ 0 then float.lit 1 else float.lit 0),
          GLCall.glUniform1f (r.ta_program.loc gl2.uniform_attr.UNIFORM_ALPHA_TEST)
            (if surf.params.alpha_test ≠ 0 then float.lit 1 else float.lit 0)]) := by
  obtain ⟨h0, h1, h2, h3, h4, h5⟩ := ta_program_idx_decode surf hs
  unfold gl2.r_get_ta_program
  simp only [h0, h1, h2, h3, h4, h5, shade_chain_eq _ hs]

/-- C11: for every surface with a shade in `0..3` and any two prior values `g`, `g'` of the
file-scope variables, `r_get_ta_program` makes the same GL calls (the same uniform values)
and leaves the six scratch variables in the same state; the calls are the program bind
followed by the six uploads, each flag uniform being `1.0` when the corresponding surface
parameter is non-zero and `0.0` otherwise. -/
theorem C11_uniforms_do_not_leak {N : Nat} (r : gl2.render_backend N) (surf : ta_surface)
    (g g' : gl2.globals) (hs : surf.params.shade ≤ 3) :
    (gl2.r_get_ta_program r g surf).2 = (gl2.r_get_ta_program r g' surf).2
    ∧ (gl2.r_get_ta_program r g surf).1.shade_mode
        = (gl2.r_get_ta_program r g' surf).1.shade_mode
    ∧ (gl2.r_get_ta_program r g surf).1.has_texture
        = (gl2.r_get_ta_program r g' surf).1.has_texture
    ∧ (gl2.r_get_ta_program r g surf).1.alpha_skip
        = (gl2.r_get_ta_program r g' surf).1.alpha_skip
    ∧ (gl2.r_get_ta_program r g surf).1.tex_alpha_skip
        = (gl2.r_get_ta_program r g' surf).1.tex_alpha_skip
    ∧ (gl2.r_get_ta_program r g surf).1.has_offset_color
        = (gl2.r_get_ta_program r g' surf).1.has_offset_color
    ∧ (gl2.r_get_ta_program r g surf).1.has_alpha_test
        = (gl2.r_get_ta_program r g' surf).1.has_alpha_test
    ∧ (gl2.r_get_ta_program r g surf).2
        = [GLCall.glUseProgram r.ta_program.prog,
           GLCall.glUniform1f (r.ta_program.loc gl2.uniform_attr.UNIFORM_SHADE_MODE)
             (float.lit (surf.params.shade + 1)),
           GLCall.glUniform1f (r.ta_program.loc gl2.uniform_attr.UNIFORM_HAS_TEXTURE)
             (if surf.params.texture ≠ 0 then float.lit 1 else float.lit 0),
           GLCall.glUniform1f (r.ta_program.loc gl2.uniform_attr.UNIFORM_ALPHA_SKIP)
             (if surf.params.ignore_alpha ≠ 0 then float.lit 1 else float.lit 0),
           GLCall.glUniform1f (r.ta_program.loc gl2.uniform_attr.UNIFORM_TEX_ALPHA_SKIP)
             (if surf.params.ignore_texture_alpha ≠ 0 then float.lit 1 else float.lit 0),
           GLCall.glUniform1f (r.ta_program.loc gl2.uniform_attr.UNIFORM_HAS_OFFSET_COLOR)
             (if surf.params.offset_color ≠ 0 then float.lit 1 else float.lit 0),
           GLCall.glUniform1f (r.ta_program.loc gl2.uniform_attr.UNIFORM_ALPHA_TEST)
             (if surf.params.alpha_test ≠ 0 then float.lit 1 else float.lit 0)]
    ∧ (gl2.r_get_ta_program r g surf).1.has_texture
        = (if surf.params.texture ≠ 0 then float.lit 1 else float.lit 0)
    ∧ (gl2.r_get_ta_program r g surf).1.alpha_skip
        = (if surf.params.ignore_alpha ≠ 0 then float.lit 1 else float.lit 0)
    ∧ (gl2.r_get_ta_program r g surf).1.tex_alpha_skip
        = (if surf.params.ignore_texture_alpha ≠ 0 then float.lit 1 else float.lit 0)
    ∧ (gl2.r_get_ta_program r g surf).1.has_offset_color
        = (if surf.params.offset_color ≠ 0 then float.lit 1 else float.lit 0)
    ∧ (gl2.r_get_ta_program r g surf).1.has_alpha_test
        = (if surf.params.alpha_test ≠ 0 then float.lit 1 else float.lit 0) := by
  rw [gl2_r_get_ta_program_eq r g surf hs, gl2_r_get_ta_program_eq r g' surf hs]
  exact ⟨rfl, rfl, rfl, rfl, rfl, rfl, rfl, rfl, rfl, rfl, rfl, rfl, rfl⟩

/-- C11 at the sample surface, from the initial file-scope values and from all-zero ones. -/
theorem C11_uniforms_do_not_leak_witness :
    (gl2.r_get_ta_program gl2.sample_backend gl2.initial_globals sample_ta_surface).2
      = (gl2.r_get_ta_program gl2.sample_backend
          { gl2.initial_globals with
            shade_mode := float.lit 0, has_texture := float.lit 0, alpha_skip := float.lit 0,
            tex_alpha_skip := float.lit 0, has_offset_color := float.lit 0,
            has_alpha_test := float.lit 0 } sample_ta_surface).2 :=
  (C11_uniforms_do_not_leak gl2.sample_backend sample_ta_surface gl2.initial_globals
    { gl2.initial_globals with
      shade_mode := float.lit 0, has_texture := float.lit 0, alpha_skip := float.lit 0,
      tex_alpha_skip := float.lit 0, has_offset_color := float.lit 0,
      has_alpha_test := float.lit 0 } (by decide)).1

/-- C13: for every surface whose shade is in `0..3`, whatever its other parameters and the
prior value of `shade_mode`, the if-chain of `r_get_ta_program` assigns `shade_mode` and the
value uploaded to the `shade_mode` uniform is `shade + 1`: `UNIF_SHADE_DECAL` (1.0) for shade
0, `UNIF_SHADE_MODUL` (2.0) for 1, `UNIF_SHADE_DECAL_A` (3.0) for 2 and `UNIF_SHADE_MODUL_A`
(4.0) for 3. -/
theorem C13_shade_mode_uniform {N : Nat} (r : gl2.render_backend N) (g : gl2.globals)
    (surf : ta_surface) (hs : surf.params.shade ≤ 3) :
    (∃ rest, (gl2.r_get_ta_program r g surf).2
        = GLCall.glUseProgram r.ta_program.prog
          :: GLCall.glUniform1f (r.ta_program.loc gl2.uniform_attr.UNIFORM_SHADE_MODE)
               (float.lit (surf.params.shade + 1))
          :: rest)
    ∧ (gl2.r_get_ta_program r g surf).1.shade_mode = float.lit (surf.params.shade + 1)
    ∧ (surf.params.shade = 0 → float.lit (surf.params.shade + 1) = gl2.UNIF_SHADE_DECAL)
    ∧ (surf.params.shade = 1 → float.lit (surf.params.shade + 1) = gl2.UNIF_SHADE_MODUL)
    ∧ (surf.params.shade = 2 → float.lit (surf.params.shade + 1) = gl2.UNIF_SHADE_DECAL_A)
    ∧ (surf.params.shade = 3 → float.lit (surf.params.shade + 1) = gl2.UNIF_SHADE_MODUL_A)
    ∧ gl2.UNIF_SHADE_DECAL = float.lit 1 ∧ gl2.UNIF_SHADE_MODUL = float.lit 2
    ∧ gl2.UNIF_SHADE_DECAL_A = float.lit 3 ∧ gl2.UNIF_SHADE_MODUL_A = float.lit 4 := by
  rw [gl2_r_get_ta_program_eq r g surf hs]
  refine ⟨⟨_, rfl⟩, rfl, ?_, ?_, ?_, ?_, rfl, rfl, rfl, rfl⟩ <;> intro h <;> rw [h] <;> rfl

/-- C13 at the sample surface (shade 1, modulate): the uploaded value is `2.0`. -/
theorem C13_shade_mode_uniform_witness :
    (gl2.r_get_ta_program gl2.sample_backend gl2.initial_globals sample_ta_surface).1.shade_mode
      = float.lit (sample_ta_surface.params.shade + 1) :=
  (C13_shade_mode_uniform gl2.sample_backend gl2.initial_globals sample_ta_surface
    (by decide)).2.1

/-! ## The two renderer variants -/

theorem gl1_fixed_state_calls_ta {N : Nat} (r : gl1.render_backend N) (surf : ta_surface)
    (ht : surf.params.texture < N) (calls : List GLCall)
    (h : gl1.r_draw_ta_surface r surf = .ok calls) :
    fixed_state_calls calls
      = [GLCall.glDepthMask (if surf.params.depth_write ≠ 0 then 1 else 0)]
        ++ (if surf.params.depth_func = depth_func.DEPTH_NONE then
              [GLCall.glDisable GL_DEPTH_TEST]
            else [GLCall.glEnable GL_DEPTH_TEST, GLCall.glDepthFunc surf.params.depth_func.gl])
        ++ (if surf.params.cull = cull_mode.CULL_NONE then [GLCall.glDisable GL_CULL_FACE]
            else [GLCall.glEnable GL_CULL_FACE, GLCall.glCullFace surf.params.cull.gl])
        ++ (if surf.params.src_blend = blend_func.BLEND_NONE
                ∨ surf.params.dst_blend = blend_func.BLEND_NONE then
              [GLCall.glDisable GL_BLEND]
            else [GLCall.glEnable GL_BLEND,
                  GLCall.glBlendFunc surf.params.src_blend.gl surf.params.dst_blend.gl]) := by
  rw [gl1_r_draw_ta_surface_eq r surf ht] at h
  cases h
  simp only [fixed_state_calls, List.filter_append, gl1.r_set_render_state, gl1.r_bind_texture]
  split_ifs <;> rfl

theorem gl2_r_get_ta_program_no_fixed_state {N : Nat} (r : gl2.render_backend N)
    (g : gl2.globals) (surf : ta_surface) :
    List.filter GLCall.is_fixed_state (gl2.r_get_ta_program r g surf).2 = [] := rfl

theorem gl2_fixed_state_calls_ta {N : Nat} (r : gl2.render_backend N) (g : gl2.globals)
    (surf : ta_surface) (ht : surf.params.texture < N) (g1 : gl2.globals)
    (calls : List GLCall) (h : gl2.r_draw_ta_surface r g surf = .ok (g1, calls)) :
    fixed_state_calls calls
      = [GLCall.glDepthMask (if surf.params.depth_write ≠ 0 then 1 else 0)]
        ++ (if surf.params.depth_func = depth_func.DEPTH_NONE then
              [GLCall.glDisable GL_DEPTH_TEST]
            else [GLCall.glEnable GL_DEPTH_TEST, GLCall.glDepthFunc surf.params.depth_func.gl])
        ++ (if surf.params.cull = cull_mode.CULL_NONE then [GLCall.glDisable GL_CULL_FACE]
            else [GLCall.glEnable GL_CULL_FACE, GLCall.glCullFace surf.params.cull.gl])
        ++ (if surf.params.src_blend = blend_func.BLEND_NONE
                ∨ surf.params.dst_blend = blend_func.BLEND_NONE then
              [GLCall.glDisable GL_BLEND]
            else [GLCall.glEnable GL_BLEND,
                  GLCall.glBlendFunc surf.params.src_blend.gl surf.params.dst_blend.gl]) := by
  rw [gl2_r_draw_ta_surface_eq r g surf ht] at h
  cases h
  simp only [fixed_state_calls, List.filter_append, gl2_r_get_ta_program_no_fixed_state,
    gl2.r_bind_texture]
  split_ifs <;> rfl

/-- C12: for every TA surface whose texture handle is in the table, `r_draw_ta_surface` of gl1
and of gl2 return and issue the same sequence of depth-mask, depth-test and depth-func,
cull-face and blend commands with the same arguments: the depth mask is 1 exactly when
`depth_write` is non-zero, the depth test is disabled exactly when `depth_func` is
`DEPTH_NONE`, culling exactly when `cull` is `CULL_NONE`; the translation tables of the two
backends are equal entry for entry. -/
theorem C12_same_fixed_function_state {N : Nat} (r1 : gl1.render_backend N)
    (r2 : gl2.render_backend N) (g : gl2.globals) (surf : ta_surface)
    (ht : surf.params.texture < N) :
    (∃ c1 g1 c2,
      gl1.r_draw_ta_surface r1 surf = .ok c1
      ∧ gl2.r_draw_ta_surface r2 g surf = .ok (g1, c2)
      ∧ fixed_state_calls c1 = fixed_state_calls c2
      ∧ fixed_state_calls c1
          = [GLCall.glDepthMask (if surf.params.depth_write ≠ 0 then 1 else 0)]
            ++ (if surf.params.depth_func = depth_func.DEPTH_NONE then
                  [GLCall.glDisable GL_DEPTH_TEST]
                else [GLCall.glEnable GL_DEPTH_TEST,
                      GLCall.glDepthFunc surf.params.depth_func.gl])
            ++ (if surf.params.cull = cull_mode.CULL_NONE then [GLCall.glDisable GL_CULL_FACE]
                else [GLCall.glEnable GL_CULL_FACE, GLCall.glCullFace surf.params.cull.gl])
            ++ (if surf.params.src_blend = blend_func.BLEND_NONE
                    ∨ surf.params.dst_blend = blend_func.BLEND_NONE then
                  [GLCall.glDisable GL_BLEND]
                else [GLCall.glEnable GL_BLEND,
                      GLCall.glBlendFunc surf.params.src_blend.gl surf.params.dst_blend.gl]))
    ∧ gl1.depth_funcs = gl2.depth_funcs ∧ gl1.cull_face = gl2.cull_face
    ∧ gl1.blend_funcs = gl2.blend_funcs ∧ gl1.filter_funcs = gl2.filter_funcs
    ∧ gl1.wrap_modes = gl2.wrap_modes ∧ gl1.prim_types = gl2.prim_types
    ∧ gl1.internal_formats = gl2.internal_formats ∧ gl1.pixel_formats = gl2.pixel_formats := by
  refine ⟨⟨_, _, _, gl1_r_draw_ta_surface_eq r1 surf ht, gl2_r_draw_ta_surface_eq r2 g surf ht,
    ?_, gl1_fixed_state_calls_ta r1 surf ht _ (gl1_r_draw_ta_surface_eq r1 surf ht)⟩,
    rfl, rfl, rfl, rfl, rfl, rfl, rfl, rfl⟩
  rw [gl1_fixed_state_calls_ta r1 surf ht _ (gl1_r_draw_ta_surface_eq r1 surf ht),
    gl2_fixed_state_calls_ta r2 g surf ht _ _ (gl2_r_draw_ta_surface_eq r2 g surf ht)]

/-- C12 at the sample backends and the sample surface. -/
theorem C12_same_fixed_function_state_witness :
    ∃ c1 g1 c2,
      gl1.r_draw_ta_surface gl1.sample_backend sample_ta_surface = .ok c1
      ∧ gl2.r_draw_ta_surface gl2.sample_backend gl2.initial_globals sample_ta_surface
          = .ok (g1, c2)
      ∧ fixed_state_calls c1 = fixed_state_calls c2
      ∧ fixed_state_calls c1
          = [GLCall.glDepthMask 1, GLCall.glEnable GL_DEPTH_TEST, GLCall.glDepthFunc GL_LEQUAL,
             GLCall.glEnable GL_CULL_FACE, GLCall.glCullFace GL_BACK,
             GLCall.glEnable GL_BLEND,
             GLCall.glBlendFunc GL_SRC_ALPHA GL_ONE_MINUS_SRC_ALPHA] :=
  (C12_same_fixed_function_state gl1.sample_backend gl2.sample_backend gl2.initial_globals
    sample_ta_surface (by decide)).1

/-! ## Live texture handles -/

/-- Dropping handles from the live list keeps the invariant. -/
theorem live_handles_ok_filter {N : Nat} (t : Fin N → texture) (live : List texture_handle_t)
    (p : texture_handle_t → Bool) (h : live_handles_ok t live) :
    live_handles_ok t (live.filter p) := by
  obtain ⟨hnd, hocc, h0⟩ := h
  refine ⟨hnd.filter p, ?_, h0⟩
  intro x hx
  exact hocc x (List.mem_filter.1 hx).1

/-- Writing a non-zero name into a free slot from 1 on and recording its handle keeps the
invariant. -/
theorem live_handles_ok_create {N : Nat} (t : Fin N → texture) (live : List texture_handle_t)
    (k : Fin N) (hk1 : 1 ≤ k.val) (hfree : (t k).texture = 0) (gen : GLuint) (hgen : gen ≠ 0)
    (h : live_handles_ok t live) :
    live_handles_ok (Function.update t k { texture := gen }) (k.val :: live) := by
  obtain ⟨hnd, hocc, h0⟩ := h
  have hnot : k.val ∉ live := by
    intro hmem
    obtain ⟨_, hlt, hne⟩ := hocc k.val hmem
    exact hne hfree
  refine ⟨List.nodup_cons.2 ⟨hnot, hnd⟩, ?_, ?_⟩
  · intro x hx
    rcases List.mem_cons.1 hx with hxk | hxl
    · subst hxk
      refine ⟨Nat.ne_of_gt hk1, k.isLt, ?_⟩
      simp only [Fin.eta, Function.update_same]
      exact hgen
    · obtain ⟨hx0, hlt, hne⟩ := hocc x hxl
      refine ⟨hx0, hlt, ?_⟩
      have hxk : (⟨x, hlt⟩ : Fin N) ≠ k := by
        intro e
        apply hnot
        have : x = k.val := congrArg Fin.val e
        rw [← this]
        exact hxl
      rw [Function.update_noteq hxk]
      exact hne
  · intro hN
    have h0k : (⟨0, hN⟩ : Fin N) ≠ k := by
      intro e
      have : 0 = k.val := congrArg Fin.val e
      omega
    rw [Function.update_noteq h0k]
    exact h0 hN

/-- Clearing a slot from 1 on and dropping its handle keeps the invariant. -/
theorem live_handles_ok_destroy {N : Nat} (t : Fin N → texture) (live : List texture_handle_t)
    (h : Nat) (h1 : 1 ≤ h) (hN : h < N) (hinv : live_handles_ok t live) :
    live_handles_ok (Function.update t ⟨h, hN⟩ { texture := 0 })
      (live.filter (fun x => x != h)) := by
  obtain ⟨hnd, hocc, h0⟩ := hinv
  refine ⟨hnd.filter _, ?_, ?_⟩
  · intro x hx
    obtain ⟨hxl, hxh⟩ := List.mem_filter.1 hx
    have hxne : x ≠ h := by simpa using hxh
    obtain ⟨hx0, hlt, hne⟩ := hocc x hxl
    refine ⟨hx0, hlt, ?_⟩
    have hxk : (⟨x, hlt⟩ : Fin N) ≠ ⟨h, hN⟩ := fun e => hxne (congrArg Fin.val e)
    rw [Function.update_noteq hxk]
    exact hne
  · intro hN0
    have h0k : (⟨0, hN0⟩ : Fin N) ≠ ⟨h, hN⟩ := by
      intro e
      have : 0 = h := congrArg Fin.val e
      omega
    rw [Function.update_noteq h0k]
    exact h0 hN0

/-- One call of the fixed-function backend keeps the invariant. -/
theorem gl1_exec_live_ok {N : Nat} (VITA : Bool) (m m' : gl1.machine N) (c : gl1.call)
    (hn : c.name_nonzero = true) (hinv : live_handles_ok m.r.textures m.live)
    (h : gl1.exec VITA m c = .ok m') : live_handles_ok m'.r.textures m'.live := by
  cases c with
  | r_create_texture format filter wrap_u wrap_v mipmaps width height buffer gen =>
    simp only [gl1.exec] at h
    obtain ⟨⟨handle, r, calls⟩, hc, hp⟩ := bind_eq_ok _ _ _ h
    have hm : m' = { r := r, live := handle :: m.live } := (Except.ok.inj hp).symm
    obtain ⟨hh, hlt, hr⟩ := gl1_r_create_texture_inv VITA m.r format filter wrap_u wrap_v
      mipmaps width height buffer gen handle r calls hc
    obtain ⟨h1, _, h3, _⟩ := find_open_entry_spec N m.r.textures N 1 _ (by omega) rfl
    have hgen : gen ≠ 0 := by simpa [gl1.call.name_nonzero] using hn
    subst hm hr hh
    exact live_handles_ok_create m.r.textures m.live ⟨_, hlt⟩ h1 (h3 hlt) gen hgen hinv
  | r_destroy_texture handle =>
    simp only [gl1.exec] at h
    obtain ⟨⟨r, calls⟩, hc, hp⟩ := bind_eq_ok _ _ _ h
    have hm : m' = { r := r, live := m.live.filter (fun x => x != handle) } :=
      (Except.ok.inj hp).symm
    subst hm
    by_cases h0 : handle = 0
    · subst h0
      have hc0 : gl1.r_destroy_texture m.r 0 = .ok (m.r, []) := by
        simp [gl1.r_destroy_texture]
      rw [hc0] at hc
      have hr : r = m.r := ((Prod.mk.inj (Except.ok.inj hc)).1).symm
      subst hr
      exact live_handles_ok_filter _ _ _ hinv
    · by_cases hN : handle < N
      · rw [gl1_r_destroy_texture_eq m.r handle (Nat.pos_of_ne_zero h0) hN] at hc
        have hr := ((Prod.mk.inj (Except.ok.inj hc)).1).symm
        subst hr
        exact live_handles_ok_destroy _ _ handle (Nat.pos_of_ne_zero h0) hN hinv
      · simp [gl1.r_destroy_texture, h0, hN] at hc

/-- A run of the fixed-function backend keeps the invariant. -/
theorem gl1_run_live_ok {N : Nat} (VITA : Bool) (cs : List gl1.call) :
    ∀ (m m' : gl1.machine N), (∀ c ∈ cs, c.name_nonzero = true) →
      live_handles_ok m.r.textures m.live → gl1.run VITA m cs = .ok m' →
      live_handles_ok m'.r.textures m'.live := by
  induction cs with
  | nil =>
    intro m m' _ hinv h
    simp only [gl1.run] at h
    cases h
    exact hinv
  | cons c cs ih =>
    intro m m' hn hinv h
    simp only [gl1.run] at h
    obtain ⟨m1, he, hr⟩ := bind_eq_ok _ _ _ h
    exact ih m1 m' (fun c' hc' => hn c' (List.mem_cons_of_mem _ hc'))
      (gl1_exec_live_ok VITA m m1 c (hn c (List.mem_cons_self _ _)) hinv he) hr

/-- One call of the shader backend keeps the invariant. -/
theorem gl2_exec_live_ok {N : Nat} (VITA : Bool) (m m' : gl2.machine N) (c : gl2.call)
    (hn : c.name_nonzero = true) (hinv : live_handles_ok m.r.textures m.live)
    (h : gl2.exec VITA m c = .ok m') : live_handles_ok m'.r.textures m'.live := by
  cases c with
  | r_create_texture format filter wrap_u wrap_v mipmaps width height buffer gen =>
    simp only [gl2.exec] at h
    obtain ⟨⟨handle, r, calls⟩, hc, hp⟩ := bind_eq_ok _ _ _ h
    have hm : m' = { m with r := r, live := handle :: m.live } := (Except.ok.inj hp).symm
    obtain ⟨hh, hlt, hr⟩ := gl2_r_create_texture_inv VITA m.r format filter wrap_u wrap_v
      mipmaps width height buffer gen handle r calls hc
    obtain ⟨h1, _, h3, _⟩ := find_open_entry_spec N m.r.textures N 1 _ (by omega) rfl
    have hgen : gen ≠ 0 := by simpa [gl2.call.name_nonzero] using hn
    subst hm hr hh
    exact live_handles_ok_create m.r.textures m.live ⟨_, hlt⟩ h1 (h3 hlt) gen hgen hinv
  | r_destroy_texture handle =>
    simp only [gl2.exec] at h
    obtain ⟨⟨r, calls⟩, hc, hp⟩ := bind_eq_ok _ _ _ h
    have hm : m' = { m with r := r, live := m.live.filter (fun x => x != handle) } :=
      (Except.ok.inj hp).symm
    subst hm
    by_cases h0 : handle = 0
    · subst h0
      have hc0 : gl2.r_destroy_texture m.r 0 = .ok (m.r, []) := by
        simp [gl2.r_destroy_texture]
      rw [hc0] at hc
      have hr : r = m.r := ((Prod.mk.inj (Except.ok.inj hc)).1).symm
      subst hr
      exact live_handles_ok_filter _ _ _ hinv
    · by_cases hN : handle < N
      · rw [gl2_r_destroy_texture_eq m.r handle (Nat.pos_of_ne_zero h0) hN] at hc
        have hr := ((Prod.mk.inj (Except.ok.inj hc)).1).symm
        subst hr
        exact live_handles_ok_destroy _ _ handle (Nat.pos_of_ne_zero h0) hN hinv
      · simp [gl2.r_destroy_texture, h0, hN] at hc
  | r_begin_ta_surfaces video_width video_height verts num_verts indices num_indices =>
    have hm := (Except.ok.inj h).symm
    subst hm
    exact hinv
  | r_end_ta_surfaces =>
    have hm := (Except.ok.inj h).symm
    subst hm
    exact hinv
  | r_draw_ta_surface surf =>
    simp only [gl2.exec] at h
    obtain ⟨⟨g, calls⟩, _, hp⟩ := bind_eq_ok _ _ _ h
    have hm : m' = { m with g := g } := (Except.ok.inj hp).symm
    subst hm
    exact hinv
  | r_clear =>
    have hm := (Except.ok.inj h).symm
    subst hm
    exact hinv
  | r_viewport x y width height =>
    have hm := (Except.ok.inj h).symm
    subst hm
    exact hinv

/-- A run of the shader backend keeps the invariant. -/
theorem gl2_run_live_ok {N : Nat} (VITA : Bool) (cs : List gl2.call) :
    ∀ (m m' : gl2.machine N), (∀ c ∈ cs, c.name_nonzero = true) →
      live_handles_ok m.r.textures m.live → gl2.run VITA m cs = .ok m' →
      live_handles_ok m'.r.textures m'.live := by
  induction cs with
  | nil =>
    intro m m' _ hinv h
    simp only [gl2.run] at h
    cases h
    exact hinv
  | cons c cs ih =>
    intro m m' hn hinv h
    simp only [gl2.run] at h
    obtain ⟨m1, he, hr⟩ := bind_eq_ok _ _ _ h
    exact ih m1 m' (fun c' hc' => hn c' (List.mem_cons_of_mem _ hc'))
      (gl2_exec_live_ok VITA m m1 c (hn c (List.mem_cons_self _ _)) hinv he) hr

/-- The invariant holds of an all-free table with no live handle. -/
theorem live_handles_ok_init {N : Nat} (t : Fin N → texture) (ht : ∀ i, (t i).texture = 0) :
    live_handles_ok t [] :=
  ⟨List.nodup_nil, fun _ hx => absurd hx (List.not_mem_nil _), fun h0 => ht ⟨0, h0⟩⟩

/-- What `gl2.r_create` returns: it does not fault, every texture slot is free and the two
cursors stand at the start of the buffers. -/
theorem gl2_r_create_eq (N : Nat) (VITA : Bool) (b : gl2.shader_blobs)
    (a : gl2.create_answers) (g : gl2.globals) (width height : Int) :
    ∃ r0 c0,
      gl2.r_create N VITA b a g width height
        = .ok (r0,
               { g with gVertexBufferPtr := a.vertex_buffer, gIndicesPtr := a.index_buffer,
                        gVertexBuffer := a.vertex_buffer, gIndices := a.index_buffer },
               c0)
      ∧ r0.textures = (fun _ => { texture := 0 })
      ∧ r0.width = width ∧ r0.height = height :=
  ⟨_, _, rfl, rfl, rfl, rfl⟩

/-- C14: in both backends, starting from the all-free table `r_create` produces and with
`glGenTextures` answering non-zero names, after any sequence of calls that returns, the
handles returned by `r_create_texture` and not since given to `r_destroy_texture` are pairwise
distinct, non-zero and name occupied slots, and slot 0 is free. -/
theorem C14_live_handles_unique {N : Nat} (VITA : Bool) (gen_pixel gen_white : GLuint)
    (pixels : Nat) (width height : Int) (b : gl2.shader_blobs) (a : gl2.create_answers)
    (g : gl2.globals) (ops1 : List gl1.call) (ops2 : List gl2.call) (m1 : gl1.machine N)
    (r0 : gl2.render_backend N) (g0 : gl2.globals) (c0 : List GLCall) (m2 : gl2.machine N)
    (hn1 : ∀ c ∈ ops1, c.name_nonzero = true) (hn2 : ∀ c ∈ ops2, c.name_nonzero = true)
    (hrun1 : gl1.run VITA
      { r := (gl1.r_create N gen_pixel gen_white pixels width height).1, live := [] } ops1
        = .ok m1)
    (hcreate : gl2.r_create N VITA b a g width height = .ok (r0, g0, c0))
    (hrun2 : gl2.run VITA { r := r0, g := g0, live := [] } ops2 = .ok m2) :
    (∀ i : Fin N,
        ((gl1.r_create N gen_pixel gen_white pixels width height).1.textures i).texture = 0)
    ∧ (∀ i : Fin N, (r0.textures i).texture = 0)
    ∧ m1.live.Nodup
    ∧ (∀ h ∈ m1.live, h ≠ 0 ∧ ∃ hlt : h < N, (m1.r.textures ⟨h, hlt⟩).texture ≠ 0)
    ∧ (∀ h0 : 0 < N, (m1.r.textures ⟨0, h0⟩).texture = 0)
    ∧ m2.live.Nodup
    ∧ (∀ h ∈ m2.live, h ≠ 0 ∧ ∃ hlt : h < N, (m2.r.textures ⟨h, hlt⟩).texture ≠ 0)
    ∧ (∀ h0 : 0 < N, (m2.r.textures ⟨0, h0⟩).texture = 0) := by
  have hfree1 : ∀ i : Fin N,
      ((gl1.r_create N gen_pixel gen_white pixels width height).1.textures i).texture = 0 :=
    fun _ => rfl
  have hfree2 : ∀ i : Fin N, (r0.textures i).texture = 0 := by
    obtain ⟨r0', c0', he, ht, _⟩ := gl2_r_create_eq N VITA b a g width height
    rw [he] at hcreate
    have hr := (Prod.mk.inj (Except.ok.inj hcreate)).1
    subst hr
    intro i
    rw [ht]
  have h1 := gl1_run_live_ok VITA ops1 _ m1 hn1 (live_handles_ok_init _ hfree1) hrun1
  have h2 := gl2_run_live_ok VITA ops2 _ m2 hn2 (live_handles_ok_init _ hfree2) hrun2
  exact ⟨hfree1, hfree2, h1.1, h1.2.1, h1.2.2, h2.1, h2.2.1, h2.2.2⟩

/-- C14 at the sample call sequences on four-slot tables: handles 1 and 2 are live at the
end. -/
theorem C14_live_handles_unique_witness :
    ∃ (m1 : gl1.machine 4) (r0 : gl2.render_backend 4) (g0 : gl2.globals) (c0 : List GLCall)
      (m2 : gl2.machine 4),
      gl1.run false { r := (gl1.r_create 4 1 2 0x7000 640 480).1, live := [] } gl1.sample_calls
        = .ok m1
      ∧ gl2.r_create 4 false gl2.sample_blobs gl2.sample_answers gl2.initial_globals 640 480
        = .ok (r0, g0, c0)
      ∧ gl2.run false { r := r0, g := g0, live := [] } gl2.sample_calls = .ok m2
      ∧ m1.live = [1, 2] ∧ m2.live = [1, 2]
      ∧ m1.live.Nodup
      ∧ (∀ h ∈ m1.live, h ≠ 0 ∧ ∃ hlt : h < 4, (m1.r.textures ⟨h, hlt⟩).texture ≠ 0)
      ∧ (∀ h0 : 0 < 4, (m1.r.textures ⟨0, h0⟩).texture = 0)
      ∧ m2.live.Nodup
      ∧ (∀ h ∈ m2.live, h ≠ 0 ∧ ∃ hlt : h < 4, (m2.r.textures ⟨h, hlt⟩).texture ≠ 0)
      ∧ (∀ h0 : 0 < 4, (m2.r.textures ⟨0, h0⟩).texture = 0) :=
  ⟨_, _, _, _, _, rfl, rfl, rfl, rfl, rfl,
    (@C14_live_handles_unique 4 false 1 2 0x7000 640 480 gl2.sample_blobs gl2.sample_answers
      gl2.initial_globals gl1.sample_calls gl2.sample_calls _ _ _ _ _ (by decide) (by decide)
      rfl rfl rfl).2.2⟩

/-! ## Staging cursors and the draw count -/

/-- Function `gl2.r_draw_ta_surface` either faults on a texture handle outside the table or
returns the file-scope variables `r_get_ta_program` leaves. -/
theorem gl2_r_draw_ta_surface_cases {N : Nat} (r : gl2.render_backend N) (g : gl2.globals)
    (surf : ta_surface) :
    gl2.r_draw_ta_surface r g surf = .error Fault.out_of_bounds
    ∨ ∃ calls, gl2.r_draw_ta_surface r g surf = .ok ((gl2.r_get_ta_program r g surf).1, calls) := by
  by_cases ht : surf.params.texture < N
  · exact Or.inr ⟨_, gl2_r_draw_ta_surface_eq r g surf ht⟩
  · by_cases h0 : surf.params.texture = 0
    · right
      have hne : ¬ (surf.params.texture ≠ 0) := fun h => h h0
      unfold gl2.r_draw_ta_surface
      simp only [gl2_lookup_depth, gl2_lookup_cull, gl2_lookup_blend, if_neg hne]
      split_ifs <;> exact ⟨_, rfl⟩
    · left
      have hne : surf.params.texture ≠ 0 := h0
      unfold gl2.r_draw_ta_surface
      simp only [gl2_lookup_depth, gl2_lookup_cull, gl2_lookup_blend, dif_neg ht, if_pos hne]
      split_ifs <;> rfl

/-- The file-scope variables `gl2.r_draw_ta_surface` leaves are those `r_get_ta_program`
leaves. -/
theorem gl2_r_draw_ta_surface_globals {N : Nat} (r : gl2.render_backend N) (g g' : gl2.globals)
    (surf : ta_surface) (calls : List GLCall)
    (h : gl2.r_draw_ta_surface r g surf = .ok (g', calls)) :
    g' = (gl2.r_get_ta_program r g surf).1 := by
  rcases gl2_r_draw_ta_surface_cases r g surf with he | ⟨c, hc⟩
  · rw [he] at h
    cases h
  · rw [hc] at h
    exact ((Prod.mk.inj (Except.ok.inj h)).1).symm

/-- One call of the shader backend moves the cursors by the counts it stages, leaves the
buffer starts alone, and sets the draw count only if it is `r_begin_ta_surfaces`. -/
theorem gl2_exec_cursors {N : Nat} (VITA : Bool) (m m' : gl2.machine N) (c : gl2.call)
    (h : gl2.exec VITA m c = .ok m') :
    m'.g.gVertexBuffer = m.g.gVertexBuffer + 7 * c.num_verts
    ∧ m'.g.gIndices = m.g.gIndices + c.num_indices
    ∧ m'.g.gVertexBufferPtr = m.g.gVertexBufferPtr
    ∧ m'.g.gIndicesPtr = m.g.gIndicesPtr
    ∧ (c.is_begin = false → m'.g.ta_draw_indices_num = m.g.ta_draw_indices_num)
    ∧ (c.is_begin = true → m'.g.ta_draw_indices_num = gl2.to_uint16 c.num_indices) := by
  cases c with
  | r_create_texture format filter wrap_u wrap_v mipmaps width height buffer gen =>
    simp only [gl2.exec] at h
    obtain ⟨⟨handle, r, calls⟩, _, hp⟩ := bind_eq_ok _ _ _ h
    have hm : m' = { m with r := r, live := handle :: m.live } := (Except.ok.inj hp).symm
    subst hm
    simp [gl2.call.num_verts, gl2.call.num_indices, gl2.call.is_begin]
  | r_destroy_texture handle =>
    simp only [gl2.exec] at h
    obtain ⟨⟨r, calls⟩, _, hp⟩ := bind_eq_ok _ _ _ h
    have hm : m' = { m with r := r, live := m.live.filter (fun x => x != handle) } :=
      (Except.ok.inj hp).symm
    subst hm
    simp [gl2.call.num_verts, gl2.call.num_indices, gl2.call.is_begin]
  | r_begin_ta_surfaces video_width video_height verts num_verts indices num_indices =>
    have hm := (Except.ok.inj h).symm
    subst hm
    exact ⟨rfl, rfl, rfl, rfl, fun hb => (by cases hb), fun _ => rfl⟩
  | r_end_ta_surfaces =>
    have hm := (Except.ok.inj h).symm
    subst hm
    simp [gl2.call.num_verts, gl2.call.num_indices, gl2.call.is_begin, gl2.r_end_ta_surfaces]
  | r_draw_ta_surface surf =>
    simp only [gl2.exec] at h
    obtain ⟨⟨g, calls⟩, hd, hp⟩ := bind_eq_ok _ _ _ h
    have hm : m' = { m with g := g } := (Except.ok.inj hp).symm
    have hg := gl2_r_draw_ta_surface_globals m.r m.g g surf calls hd
    subst hm hg
    simp [gl2.call.num_verts, gl2.call.num_indices, gl2.call.is_begin, gl2.r_get_ta_program]
  | r_clear =>
    have hm := (Except.ok.inj h).symm
    subst hm
    simp [gl2.call.num_verts, gl2.call.num_indices, gl2.call.is_begin, gl2.r_clear]
  | r_viewport x y width height =>
    have hm := (Except.ok.inj h).symm
    subst hm
    simp [gl2.call.num_verts, gl2.call.num_indices, gl2.call.is_begin, gl2.r_viewport]

/-- A run of the shader backend moves the cursors by the sums of the counts staged. -/
theorem gl2_run_cursors {N : Nat} (VITA : Bool) (cs : List gl2.call) :
    ∀ (m m' : gl2.machine N), gl2.run VITA m cs = .ok m' →
      m'.g.gVertexBuffer = m.g.gVertexBuffer + 7 * gl2.total_verts cs
      ∧ m'.g.gIndices = m.g.gIndices + gl2.total_indices cs
      ∧ m'.g.gVertexBufferPtr = m.g.gVertexBufferPtr
      ∧ m'.g.gIndicesPtr = m.g.gIndicesPtr := by
  induction cs with
  | nil =>
    intro m m' h
    simp only [gl2.run] at h
    cases h
    simp [gl2.total_verts, gl2.total_indices]
  | cons c cs ih =>
    intro m m' h
    simp only [gl2.run] at h
    obtain ⟨m1, he, hr⟩ := bind_eq_ok _ _ _ h
    obtain ⟨a1, a2, a3, a4, _, _⟩ := gl2_exec_cursors VITA m m1 c he
    obtain ⟨b1, b2, b3, b4⟩ := ih m1 m' hr
    refine ⟨?_, ?_, by rw [b3, a3], by rw [b4, a4]⟩
    · rw [b1, a1]
      simp only [gl2.total_verts, List.map_cons, List.sum_cons]
      ring
    · rw [b2, a2]
      simp only [gl2.total_indices, List.map_cons, List.sum_cons]
      ring

/-- A call other than `r_begin_ta_surfaces` stages nothing. -/
theorem gl2_not_begin_counts (c : gl2.call) (h : c.is_begin = false) :
    c.num_verts = 0 ∧ c.num_indices = 0 := by
  cases c <;> first | exact ⟨rfl, rfl⟩ | cases h

/-- C15: `r_create` puts both staging cursors at the start of their buffers; each
`r_begin_ta_surfaces(.., num_verts, .., num_indices)` copies to the current cursors, then
advances `gVertexBuffer` by `7 * num_verts` floats and `gIndices` by `num_indices` entries;
no other call moves them; so after any sequence of calls that returns (counts non-negative
and within `int`), the cursors stand `7 * (sum of num_verts)` floats and `sum of num_indices`
entries past `gVertexBufferPtr` and `gIndicesPtr`, never before them, and the copies of a
further call (byte counts within `size_t`) lie inside the `0x1800000`-byte and
`0x600000`-byte buffers exactly when the sums, this call included, are within capacity. -/
theorem C15_staging_cursors {N : Nat} (VITA : Bool) (b : gl2.shader_blobs)
    (a : gl2.create_answers) (g : gl2.globals) (width height : Int) (ops : List gl2.call)
    (r0 : gl2.render_backend N) (g0 : gl2.globals) (c0 : List GLCall) (m : gl2.machine N)
    (video_width video_height : Int) (verts : Nat) (num_verts : Int) (indices : Nat)
    (num_indices : Int)
    (hcreate : gl2.r_create N VITA b a g width height = .ok (r0, g0, c0))
    (hrun : gl2.run VITA { r := r0, g := g0, live := [] } ops = .ok m)
    (hops : ∀ c ∈ ops, 0 ≤ c.num_verts ∧ 7 * c.num_verts < 2 ^ 31 ∧ 0 ≤ c.num_indices)
    (hv : 0 ≤ num_verts) (hv2 : 4 * 7 * num_verts < 2 ^ 32)
    (hi : 0 ≤ num_indices) (hi2 : 2 * num_indices < 2 ^ 32) :
    (g0.gVertexBuffer = g0.gVertexBufferPtr ∧ g0.gIndices = g0.gIndicesPtr)
    ∧ (m.g.gVertexBuffer - m.g.gVertexBufferPtr = 7 * gl2.total_verts ops
        ∧ m.g.gIndices - m.g.gIndicesPtr = gl2.total_indices ops)
    ∧ (∃ r' g',
        gl2.r_begin_ta_surfaces m.r m.g video_width video_height verts num_verts indices
            num_indices
          = (r', g',
             [GLCall.memcpy m.g.gVertexBuffer verts (4 * 7 * num_verts).toNat,
              GLCall.vglVertexAttribPointerMapped 0 m.g.gVertexBuffer,
              GLCall.vglVertexAttribPointerMapped 1 m.g.gVertexBuffer,
              GLCall.vglVertexAttribPointerMapped 2 m.g.gVertexBuffer,
              GLCall.vglVertexAttribPointerMapped 3 m.g.gVertexBuffer,
              GLCall.memcpy m.g.gIndices indices (2 * num_indices).toNat,
              GLCall.vglIndexPointerMapped m.g.gIndices])
        ∧ g'.gVertexBuffer = m.g.gVertexBuffer + 7 * num_verts
        ∧ g'.gIndices = m.g.gIndices + num_indices
        ∧ g'.gVertexBufferPtr = m.g.gVertexBufferPtr
        ∧ g'.gIndicesPtr = m.g.gIndicesPtr)
    ∧ (∀ (m0 m' : gl2.machine N) (c : gl2.call), c.is_begin = false →
        gl2.exec VITA m0 c = .ok m' →
        m'.g.gVertexBuffer = m0.g.gVertexBuffer ∧ m'.g.gIndices = m0.g.gIndices
        ∧ m'.g.gVertexBufferPtr = m0.g.gVertexBufferPtr
        ∧ m'.g.gIndicesPtr = m0.g.gIndicesPtr)
    ∧ (copy_inside m.g.gVertexBufferPtr 4 gl2.VERTEX_BUFFER_BYTES
          (GLCall.memcpy m.g.gVertexBuffer verts (4 * 7 * num_verts).toNat)
        ↔ 4 * 7 * (gl2.total_verts ops + num_verts) ≤ 0x1800000)
    ∧ (copy_inside m.g.gIndicesPtr 2 gl2.INDEX_BUFFER_BYTES
          (GLCall.memcpy m.g.gIndices indices (2 * num_indices).toNat)
        ↔ 2 * (gl2.total_indices ops + num_indices) ≤ 0x600000)
    ∧ (m.g.gVertexBufferPtr ≤ m.g.gVertexBuffer ∧ m.g.gIndicesPtr ≤ m.g.gIndices) := by
  obtain ⟨r0', c0', he, _, _, _⟩ := gl2_r_create_eq N VITA b a g width height
  rw [he] at hcreate
  have hg0 := (Prod.mk.inj (Prod.mk.inj (Except.ok.inj hcreate)).2).1
  obtain ⟨k1, k2, k3, k4⟩ := gl2_run_cursors VITA ops _ m hrun
  simp only [] at k1 k2 k3 k4
  have s1 : g0.gVertexBuffer = g0.gVertexBufferPtr := by rw [← hg0]
  have s2 : g0.gIndices = g0.gIndicesPtr := by rw [← hg0]
  have o1 : m.g.gVertexBuffer - m.g.gVertexBufferPtr = 7 * gl2.total_verts ops := by
    rw [k1, k3, s1]; ring
  have o2 : m.g.gIndices - m.g.gIndicesPtr = gl2.total_indices ops := by
    rw [k2, k4, s2]; ring
  have tv : 0 ≤ gl2.total_verts ops := by
    apply List.sum_nonneg
    intro x hx
    obtain ⟨c, hc, rfl⟩ := List.mem_map.1 hx
    exact (hops c hc).1
  have ti : 0 ≤ gl2.total_indices ops := by
    apply List.sum_nonneg
    intro x hx
    obtain ⟨c, hc, rfl⟩ := List.mem_map.1 hx
    exact (hops c hc).2.2
  have zv : (((4 * 7 * num_verts) % 2 ^ gl2.SIZE_BITS).toNat) = (4 * 7 * num_verts).toNat := by
    have h2 : (4 * 7 * num_verts) % 2 ^ gl2.SIZE_BITS = 4 * 7 * num_verts := by
      rw [show gl2.SIZE_BITS = 32 from rfl]
      exact Int.emod_eq_of_lt (by omega) hv2
    rw [h2]
  have zi : (((2 * num_indices) % 2 ^ gl2.SIZE_BITS).toNat) = (2 * num_indices).toNat := by
    have h2 : (2 * num_indices) % 2 ^ gl2.SIZE_BITS = 2 * num_indices := by
      rw [show gl2.SIZE_BITS = 32 from rfl]
      exact Int.emod_eq_of_lt (by omega) hi2
    rw [h2]
  refine ⟨⟨s1, s2⟩, ⟨o1, o2⟩, ?_, ?_, ?_, ?_, ⟨by omega, by omega⟩⟩
  · refine ⟨(gl2.r_begin_ta_surfaces m.r m.g video_width video_height verts num_verts indices
        num_indices).1,
      (gl2.r_begin_ta_surfaces m.r m.g video_width video_height verts num_verts indices
        num_indices).2.1, ?_, rfl, rfl, rfl, rfl⟩
    unfold gl2.r_begin_ta_surfaces
    simp only [zv, zi]
    rfl
  · intro m0 m' c hc hex
    obtain ⟨e1, e2, e3, e4, _, _⟩ := gl2_exec_cursors VITA m0 m' c hex
    obtain ⟨n1, n2⟩ := gl2_not_begin_counts c hc
    rw [n1] at e1
    rw [n2] at e2
    exact ⟨by rw [e1]; ring, by rw [e2]; ring, e3, e4⟩
  · have hn : ((4 * 7 * num_verts).toNat : Int) = 4 * 7 * num_verts :=
      Int.toNat_of_nonneg (by omega)
    simp only [copy_inside, o1, hn, gl2.VERTEX_BUFFER_BYTES]
    constructor
    · rintro ⟨_, h2⟩; omega
    · intro h; exact ⟨by omega, by omega⟩
  · have hn : ((2 * num_indices).toNat : Int) = 2 * num_indices :=
      Int.toNat_of_nonneg (by omega)
    simp only [copy_inside, o2, hn, gl2.INDEX_BUFFER_BYTES]
    constructor
    · rintro ⟨_, h2⟩; omega
    · intro h; exact ⟨by omega, by omega⟩

/-- C15 at the sample call sequence (7 vertices and 9 indices staged in two batches), with a
further batch of 2 vertices and 3 indices. -/
theorem C15_staging_cursors_witness :
    ∃ (r0 : gl2.render_backend 4) (g0 : gl2.globals) (c0 : List GLCall) (m : gl2.machine 4),
      gl2.r_create 4 false gl2.sample_blobs gl2.sample_answers gl2.initial_globals 640 480
        = .ok (r0, g0, c0)
      ∧ gl2.run false { r := r0, g := g0, live := [] } gl2.sample_calls = .ok m
      ∧ gl2.total_verts gl2.sample_calls = 7 ∧ gl2.total_indices gl2.sample_calls = 9
      ∧ m.g.gVertexBuffer - m.g.gVertexBufferPtr = 7 * gl2.total_verts gl2.sample_calls
      ∧ m.g.gIndices - m.g.gIndicesPtr = gl2.total_indices gl2.sample_calls
      ∧ (copy_inside m.g.gVertexBufferPtr 4 gl2.VERTEX_BUFFER_BYTES
            (GLCall.memcpy m.g.gVertexBuffer 0x5000 (4 * 7 * (2 : Int)).toNat)
          ↔ 4 * 7 * (gl2.total_verts gl2.sample_calls + 2) ≤ 0x1800000) :=
  ⟨_, _, _, _, rfl, rfl, by decide, by decide,
    (@C15_staging_cursors 4 false gl2.sample_blobs gl2.sample_answers gl2.initial_globals
      640 480 gl2.sample_calls _ _ _ _ 640 480 0x5000 2 0x6000 3 rfl rfl (by decide)
      (by decide) (by decide) (by decide) (by decide)).2.1.1,
    (@C15_staging_cursors 4 false gl2.sample_blobs gl2.sample_answers gl2.initial_globals
      640 480 gl2.sample_calls _ _ _ _ 640 480 0x5000 2 0x6000 3 rfl rfl (by decide)
      (by decide) (by decide) (by decide) (by decide)).2.1.2,
    (@C15_staging_cursors 4 false gl2.sample_blobs gl2.sample_answers gl2.initial_globals
      640 480 gl2.sample_calls _ _ _ _ 640 480 0x5000 2 0x6000 3 rfl rfl (by decide)
      (by decide) (by decide) (by decide) (by decide)).2.2.2.2.1⟩

theorem gl2_r_get_ta_program_no_draw {N : Nat} (r : gl2.render_backend N) (g : gl2.globals)
    (surf : ta_surface) :
    List.filter GLCall.is_draw (gl2.r_get_ta_program r g surf).2 = [] := rfl

theorem gl2_r_get_ta_program_count {N : Nat} (r : gl2.render_backend N) (g : gl2.globals)
    (surf : ta_surface) :
    (gl2.r_get_ta_program r g surf).1.ta_draw_indices_num = g.ta_draw_indices_num := rfl

/-- The one draw call `gl2.r_draw_ta_surface` makes. -/
theorem gl2_draw_calls_ta {N : Nat} (r : gl2.render_backend N) (g : gl2.globals)
    (surf : ta_surface) (ht : surf.params.texture < N) :
    ∃ g1 calls, gl2.r_draw_ta_surface r g surf = .ok (g1, calls)
      ∧ draw_calls calls = [GLCall.vglDrawObjects GL_TRIANGLES g.ta_draw_indices_num GL_FALSE] := by
  refine ⟨_, _, gl2_r_draw_ta_surface_eq r g surf ht, ?_⟩
  simp only [draw_calls, List.filter_append, gl2_r_get_ta_program_no_draw,
    gl2_r_get_ta_program_count, gl2.r_bind_texture]
  split_ifs <;> rfl

/-- The one draw call `gl1.r_draw_ta_surface` makes. -/
theorem gl1_draw_calls_ta {N : Nat} (r : gl1.render_backend N) (surf : ta_surface)
    (ht : surf.params.texture < N) :
    ∃ calls, gl1.r_draw_ta_surface r surf = .ok calls
      ∧ draw_calls calls
          = [GLCall.glDrawElements GL_TRIANGLES surf.num_verts GL_UNSIGNED_SHORT
              (r.indices + 2 * surf.first_vert)] := by
  refine ⟨_, gl1_r_draw_ta_surface_eq r surf ht, ?_⟩
  simp only [draw_calls, List.filter_append, gl1.r_set_render_state, gl1.r_bind_texture]
  split_ifs <;> rfl

/-- A run without `r_begin_ta_surfaces` keeps the draw count. -/
theorem gl2_run_keeps_count {N : Nat} (VITA : Bool) (cs : List gl2.call) :
    ∀ (m m' : gl2.machine N), (∀ c ∈ cs, c.is_begin = false) → gl2.run VITA m cs = .ok m' →
      m'.g.ta_draw_indices_num = m.g.ta_draw_indices_num := by
  induction cs with
  | nil =>
    intro m m' _ h
    simp only [gl2.run] at h
    cases h
    rfl
  | cons c cs ih =>
    intro m m' hb h
    simp only [gl2.run] at h
    obtain ⟨m1, he, hr⟩ := bind_eq_ok _ _ _ h
    obtain ⟨_, _, _, _, e5, _⟩ := gl2_exec_cursors VITA m m1 c he
    rw [ih m1 m' (fun c' hc' => hb c' (List.mem_cons_of_mem _ hc')) hr,
      e5 (hb c (List.mem_cons_self _ _))]

/-- C16: after `r_begin_ta_surfaces(.., num_indices)` and any calls other than
`r_begin_ta_surfaces`, gl2's `r_draw_ta_surface` passes to `vglDrawObjects` the count
`num_indices` reduced modulo `2^16` (the value kept in the `uint16_t ta_draw_indices_num`),
whatever the surface's `first_vert` and `num_verts`; gl1's `r_draw_ta_surface` draws exactly
`surf->num_verts` indices starting at index `surf->first_vert`. -/
theorem C16_draw_count {N : Nat} (VITA : Bool) (m0 m1 : gl2.machine N)
    (video_width video_height : Int) (verts : Nat) (num_verts : Int) (indices : Nat)
    (num_indices : Int) (mid : List gl2.call) (surf : ta_surface) (r1 : gl1.render_backend N)
    (hmid : ∀ c ∈ mid, c.is_begin = false)
    (hrun : gl2.run VITA m0
      (gl2.call.r_begin_ta_surfaces video_width video_height verts num_verts indices
        num_indices :: mid) = .ok m1)
    (ht : surf.params.texture < N) :
    m1.g.ta_draw_indices_num = (num_indices % 2 ^ 16).toNat
    ∧ (∀ first_vert' num_verts' : Int, ∃ g2 calls,
        gl2.r_draw_ta_surface m1.r m1.g
            { surf with first_vert := first_vert', num_verts := num_verts' } = .ok (g2, calls)
        ∧ draw_calls calls
            = [GLCall.vglDrawObjects GL_TRIANGLES (num_indices % 2 ^ 16).toNat GL_FALSE])
    ∧ (∃ g2 calls, gl2.r_draw_ta_surface m1.r m1.g surf = .ok (g2, calls)
        ∧ draw_calls calls
            = [GLCall.vglDrawObjects GL_TRIANGLES (num_indices % 2 ^ 16).toNat GL_FALSE])
    ∧ (∃ calls, gl1.r_draw_ta_surface r1 surf = .ok calls
        ∧ draw_calls calls
            = [GLCall.glDrawElements GL_TRIANGLES surf.num_verts GL_UNSIGNED_SHORT
                (r1.indices + 2 * surf.first_vert)]) := by
  simp only [gl2.run] at hrun
  obtain ⟨mb, he, hr⟩ := bind_eq_ok _ _ _ hrun
  obtain ⟨_, _, _, _, _, e6⟩ := gl2_exec_cursors VITA m0 mb _ he
  have hcount : m1.g.ta_draw_indices_num = (num_indices % 2 ^ 16).toNat := by
    rw [gl2_run_keeps_count VITA mid mb m1 hmid hr, e6 rfl]
    rfl
  refine ⟨hcount, ?_, ?_, gl1_draw_calls_ta r1 surf ht⟩
  · intro fv nv
    have h := gl2_draw_calls_ta m1.r m1.g
      { surf with first_vert := fv, num_verts := nv } ht
    rw [hcount] at h
    exact h
  · have h := gl2_draw_calls_ta m1.r m1.g surf ht
    rw [hcount] at h
    exact h

/-- C16 at a batch of 65539 indices (3 modulo `2^16`) followed by a clear, on the sample
backends and the sample surface of 3 vertices. -/
theorem C16_draw_count_witness :
    ∃ (m1 : gl2.machine 4),
      gl2.run false { r := gl2.sample_backend, g := gl2.initial_globals, live := [] }
        [gl2.call.r_begin_ta_surfaces 640 480 0x5000 4 0x6000 65539, gl2.call.r_clear] = .ok m1
      ∧ m1.g.ta_draw_indices_num = 3
      ∧ (∃ g2 calls, gl2.r_draw_ta_surface m1.r m1.g sample_ta_surface = .ok (g2, calls)
          ∧ draw_calls calls = [GLCall.vglDrawObjects GL_TRIANGLES 3 GL_FALSE])
      ∧ (∃ calls, gl1.r_draw_ta_surface gl1.sample_backend sample_ta_surface = .ok calls
          ∧ draw_calls calls = [GLCall.glDrawElements GL_TRIANGLES 3 GL_UNSIGNED_SHORT 0]) :=
  ⟨_, rfl,
    (@C16_draw_count 4 false { r := gl2.sample_backend, g := gl2.initial_globals, live := [] }
      _ 640 480 0x5000 4 0x6000 65539 [gl2.call.r_clear] sample_ta_surface gl1.sample_backend
      (by decide) rfl (by decide)).1,
    (@C16_draw_count 4 false { r := gl2.sample_backend, g := gl2.initial_globals, live := [] }
      _ 640 480 0x5000 4 0x6000 65539 [gl2.call.r_clear] sample_ta_surface gl1.sample_backend
      (by decide) rfl (by decide)).2.2.1,
    (@C16_draw_count 4 false { r := gl2.sample_backend, g := gl2.initial_globals, live := [] }
      _ 640 480 0x5000 4 0x6000 65539 [gl2.call.r_clear] sample_ta_surface gl1.sample_backend
      (by decide) rfl (by decide)).2.2.2⟩

end Retrodream
